import Mathlib

/-!
Shallow embedding of the lookup and validation core of the `pycountries`
library: countries, currencies, languages, macrolanguages and phone
calling-code records, with the multi-key lookup logic of the enum
metaclasses in `src/pycountries/*.py`.
-/

namespace Pycountries

/-- Dynamic value shapes a Python caller can pass to a lookup
(`str`, `int`, `bool`, `None`, or anything else). -/
inductive PyVal where
  | str (s : String)
  | int (n : Int)
  | bool (b : Bool)
  | pynone
  | other
deriving DecidableEq, Repr

/-- Python `==` on the value shapes the lookups compare: numbers compare
numerically (`bool` is a subclass of `int` in Python, so `True == 1`),
strings by content, and values of unrelated types are never equal. -/
def pyEq : PyVal → PyVal → Bool
  | .str s, .str t => s == t
  | .int a, .int b => a == b
  | .int a, .bool b => a == (if b then (1 : Int) else 0)
  | .bool a, .int b => (if a then (1 : Int) else 0) == b
  | .bool a, .bool b => a == b
  | .pynone, .pynone => true
  | _, _ => false

/-- Whitespace stripped by Python `int(str)` (ASCII subset). -/
def isPySpace (c : Char) : Bool :=
  c == ' ' || c == '\t' || c == '\n' || c == '\r' || c == '\x0b' || c == '\x0c'

/-- Digits of a Python integer literal after the first: underscores are
allowed singly and only between digits. -/
def pyDigitsAux : List Char → Nat → Option Nat
  | [], acc => some acc
  | '_' :: c :: rest, acc =>
    if c.isDigit then pyDigitsAux rest (acc * 10 + (c.toNat - 48)) else none
  | c :: rest, acc =>
    if c.isDigit then pyDigitsAux rest (acc * 10 + (c.toNat - 48)) else none

/-- A non-empty run of decimal digits with optional single interior
underscores, as Python `int(str)` accepts. -/
def pyDigits : List Char → Option Nat
  | c :: rest => if c.isDigit then pyDigitsAux rest (c.toNat - 48) else none
  | [] => none

/-- Python `int(str)`: optional surrounding whitespace, an optional sign,
then digits (with optional single interior underscores); `none` models the
`ValueError` Python raises otherwise. -/
def pyIntOfString? (s : String) : Option Int :=
  let cs := (((s.toList.dropWhile isPySpace).reverse).dropWhile isPySpace).reverse
  match cs with
  | '+' :: rest => (pyDigits rest).map (fun n => (n : Int))
  | '-' :: rest => (pyDigits rest).map (fun n => -(n : Int))
  | rest => (pyDigits rest).map (fun n => (n : Int))

/-- Python `int(s)` on a string known to parse (the three-digit `numeric`
codes of the datasets always do). -/
def pyInt (s : String) : Int :=
  (pyIntOfString? s).getD 0


/-- Python `str.lower()` restricted to ASCII letters (every id this library
lowercases is ASCII). -/
def pyLower (s : String) : String :=
  String.mk (s.toList.map Char.toLower)

/-- Whether a string starts with `"+"` (`value.startswith("+")`). -/
def startsWithPlus (s : String) : Bool :=
  match s.toList with
  | '+' :: _ => true
  | _ => false

/-- Helper of `pySplitPlus`: accumulate the current segment (reversed) and
cut at every `+`. -/
def pySplitPlusAux : List Char → List Char → List String
  | [], acc => [String.mk acc.reverse]
  | '+' :: rest, acc => String.mk acc.reverse :: pySplitPlusAux rest []
  | c :: rest, acc => pySplitPlusAux rest (c :: acc)

/-- Python `value.split("+")`: the segments of the string between its `+`
characters (empty segments included). -/
def pySplitPlus (s : String) : List String :=
  pySplitPlusAux s.toList []

/-- Error kinds of the library (`ValueError`s in the source): a failed
lookup, an invalid option such as a bad `i_status`, and a query value of an
unsupported shape. -/
inductive Err where
  | invalidIdentifier
  | invalidOption
  | wrongValueType
deriving DecidableEq, Repr

/-- Embedding of `EnumTypeBase.__getitem__`: member lookup by declared name, turning the
`KeyError` of a missing name into the same `ValueError` the value-based
lookups raise. -/
def enumGetItem {α : Type} (members : List (String × α)) (name : String) : Except Err α :=
  match members.lookup name with
  | some u => .ok u
  | none => .error .invalidIdentifier

instance {ε α : Type} [DecidableEq ε] [DecidableEq α] : DecidableEq (Except ε α) := fun a b =>
  match a, b with
  | .ok x, .ok y => if h : x = y then .isTrue (by rw [h]) else .isFalse (by simp [h])
  | .error x, .error y => if h : x = y then .isTrue (by rw [h]) else .isFalse (by simp [h])
  | .ok _, .error _ => .isFalse (by simp)
  | .error _, .ok _ => .isFalse (by simp)

instance {ε α : Type} [DecidableEq ε] [DecidableEq α] : BEq (Except ε α) := ⟨fun a b => decide (a = b)⟩

/-- ISO 3166-1 country record (`CountryUnit` in `countries.py`). -/
structure CountryUnit where
  alpha_2 : String
  alpha_3 : String
  numeric : String
  name : String
  official_name : String
deriving DecidableEq, Repr

/-- The `Country` enum data: member name and record, in declaration order. -/
def Country.members : List (String × CountryUnit) := [
  ("AW", CountryUnit.mk "AW" "ABW" "533" "Aruba" "Aruba"),
  ("AF", CountryUnit.mk "AF" "AFG" "004" "Afghanistan" "Islamic Republic of Afghanistan"),
  ("AO", CountryUnit.mk "AO" "AGO" "024" "Angola" "Republic of Angola"),
  ("AI", CountryUnit.mk "AI" "AIA" "660" "Anguilla" "Anguilla"),
  ("AX", CountryUnit.mk "AX" "ALA" "248" "\u00c5land Islands" "\u00c5land Islands"),
  ("AL", CountryUnit.mk "AL" "ALB" "008" "Albania" "Republic of Albania"),
  ("AD", CountryUnit.mk "AD" "AND" "020" "Andorra" "Principality of Andorra"),
  ("AE", CountryUnit.mk "AE" "ARE" "784" "United Arab Emirates" "United Arab Emirates"),
  ("AR", CountryUnit.mk "AR" "ARG" "032" "Argentina" "Argentine Republic"),
  ("AM", CountryUnit.mk "AM" "ARM" "051" "Armenia" "Republic of Armenia"),
  ("AS", CountryUnit.mk "AS" "ASM" "016" "American Samoa" "American Samoa"),
  ("AQ", CountryUnit.mk "AQ" "ATA" "010" "Antarctica" "Antarctica"),
  ("TF", CountryUnit.mk "TF" "ATF" "260" "French Southern Territories" "French Southern Territories"),
  ("AG", CountryUnit.mk "AG" "ATG" "028" "Antigua and Barbuda" "Antigua and Barbuda"),
  ("AU", CountryUnit.mk "AU" "AUS" "036" "Australia" "Australia"),
  ("AT", CountryUnit.mk "AT" "AUT" "040" "Austria" "Republic of Austria"),
  ("AZ", CountryUnit.mk "AZ" "AZE" "031" "Azerbaijan" "Republic of Azerbaijan"),
  ("BI", CountryUnit.mk "BI" "BDI" "108" "Burundi" "Republic of Burundi"),
  ("BE", CountryUnit.mk "BE" "BEL" "056" "Belgium" "Kingdom of Belgium"),
  ("BJ", CountryUnit.mk "BJ" "BEN" "204" "Benin" "Republic of Benin"),
  ("BQ", CountryUnit.mk "BQ" "BES" "535" "Bonaire, Sint Eustatius and Saba" "Bonaire, Sint Eustatius and Saba"),
  ("BF", CountryUnit.mk "BF" "BFA" "854" "Burkina Faso" "Burkina Faso"),
  ("BD", CountryUnit.mk "BD" "BGD" "050" "Bangladesh" "People\x27s Republic of Bangladesh"),
  ("BG", CountryUnit.mk "BG" "BGR" "100" "Bulgaria" "Republic of Bulgaria"),
  ("BH", CountryUnit.mk "BH" "BHR" "048" "Bahrain" "Kingdom of Bahrain"),
  ("BS", CountryUnit.mk "BS" "BHS" "044" "Bahamas" "Commonwealth of the Bahamas"),
  ("BA", CountryUnit.mk "BA" "BIH" "070" "Bosnia and Herzegovina" "Republic of Bosnia and Herzegovina"),
  ("BL", CountryUnit.mk "BL" "BLM" "652" "Saint Barth\u00e9lemy" "Saint Barth\u00e9lemy"),
  ("BY", CountryUnit.mk "BY" "BLR" "112" "Belarus" "Republic of Belarus"),
  ("BZ", CountryUnit.mk "BZ" "BLZ" "084" "Belize" "Belize"),
  ("BM", CountryUnit.mk "BM" "BMU" "060" "Bermuda" "Bermuda"),
  ("BO", CountryUnit.mk "BO" "BOL" "068" "Bolivia, Plurinational State of" "Plurinational State of Bolivia"),
  ("BR", CountryUnit.mk "BR" "BRA" "076" "Brazil" "Federative Republic of Brazil"),
  ("BB", CountryUnit.mk "BB" "BRB" "052" "Barbados" "Barbados"),
  ("BN", CountryUnit.mk "BN" "BRN" "096" "Brunei Darussalam" "Brunei Darussalam"),
  ("BT", CountryUnit.mk "BT" "BTN" "064" "Bhutan" "Kingdom of Bhutan"),
  ("BV", CountryUnit.mk "BV" "BVT" "074" "Bouvet Island" "Bouvet Island"),
  ("BW", CountryUnit.mk "BW" "BWA" "072" "Botswana" "Republic of Botswana"),
  ("CF", CountryUnit.mk "CF" "CAF" "140" "Central African Republic" "Central African Republic"),
  ("CA", CountryUnit.mk "CA" "CAN" "124" "Canada" "Canada"),
  ("CC", CountryUnit.mk "CC" "CCK" "166" "Cocos (Keeling) Islands" "Cocos (Keeling) Islands"),
  ("CH", CountryUnit.mk "CH" "CHE" "756" "Switzerland" "Swiss Confederation"),
  ("CL", CountryUnit.mk "CL" "CHL" "152" "Chile" "Republic of Chile"),
  ("CN", CountryUnit.mk "CN" "CHN" "156" "China" "People\x27s Republic of China"),
  ("CI", CountryUnit.mk "CI" "CIV" "384" "C\u00f4te d\x27Ivoire" "Republic of C\u00f4te d\x27Ivoire"),
  ("CM", CountryUnit.mk "CM" "CMR" "120" "Cameroon" "Republic of Cameroon"),
  ("CD", CountryUnit.mk "CD" "COD" "180" "Congo, The Democratic Republic of the" "Congo, The Democratic Republic of the"),
  ("CG", CountryUnit.mk "CG" "COG" "178" "Congo" "Republic of the Congo"),
  ("CK", CountryUnit.mk "CK" "COK" "184" "Cook Islands" "Cook Islands"),
  ("CO", CountryUnit.mk "CO" "COL" "170" "Colombia" "Republic of Colombia"),
  ("KM", CountryUnit.mk "KM" "COM" "174" "Comoros" "Union of the Comoros"),
  ("CV", CountryUnit.mk "CV" "CPV" "132" "Cabo Verde" "Republic of Cabo Verde"),
  ("CR", CountryUnit.mk "CR" "CRI" "188" "Costa Rica" "Republic of Costa Rica"),
  ("CU", CountryUnit.mk "CU" "CUB" "192" "Cuba" "Republic of Cuba"),
  ("CW", CountryUnit.mk "CW" "CUW" "531" "Cura\u00e7ao" "Cura\u00e7ao"),
  ("CX", CountryUnit.mk "CX" "CXR" "162" "Christmas Island" "Christmas Island"),
  ("KY", CountryUnit.mk "KY" "CYM" "136" "Cayman Islands" "Cayman Islands"),
  ("CY", CountryUnit.mk "CY" "CYP" "196" "Cyprus" "Republic of Cyprus"),
  ("CZ", CountryUnit.mk "CZ" "CZE" "203" "Czechia" "Czech Republic"),
  ("DE", CountryUnit.mk "DE" "DEU" "276" "Germany" "Federal Republic of Germany"),
  ("DJ", CountryUnit.mk "DJ" "DJI" "262" "Djibouti" "Republic of Djibouti"),
  ("DM", CountryUnit.mk "DM" "DMA" "212" "Dominica" "Commonwealth of Dominica"),
  ("DK", CountryUnit.mk "DK" "DNK" "208" "Denmark" "Kingdom of Denmark"),
  ("DO", CountryUnit.mk "DO" "DOM" "214" "Dominican Republic" "Dominican Republic"),
  ("DZ", CountryUnit.mk "DZ" "DZA" "012" "Algeria" "People\x27s Democratic Republic of Algeria"),
  ("EC", CountryUnit.mk "EC" "ECU" "218" "Ecuador" "Republic of Ecuador"),
  ("EG", CountryUnit.mk "EG" "EGY" "818" "Egypt" "Arab Republic of Egypt"),
  ("ER", CountryUnit.mk "ER" "ERI" "232" "Eritrea" "the State of Eritrea"),
  ("EH", CountryUnit.mk "EH" "ESH" "732" "Western Sahara" "Western Sahara"),
  ("ES", CountryUnit.mk "ES" "ESP" "724" "Spain" "Kingdom of Spain"),
  ("EE", CountryUnit.mk "EE" "EST" "233" "Estonia" "Republic of Estonia"),
  ("ET", CountryUnit.mk "ET" "ETH" "231" "Ethiopia" "Federal Democratic Republic of Ethiopia"),
  ("FI", CountryUnit.mk "FI" "FIN" "246" "Finland" "Republic of Finland"),
  ("FJ", CountryUnit.mk "FJ" "FJI" "242" "Fiji" "Republic of Fiji"),
  ("FK", CountryUnit.mk "FK" "FLK" "238" "Falkland Islands (Malvinas)" "Falkland Islands (Malvinas)"),
  ("FR", CountryUnit.mk "FR" "FRA" "250" "France" "French Republic"),
  ("FO", CountryUnit.mk "FO" "FRO" "234" "Faroe Islands" "Faroe Islands"),
  ("FM", CountryUnit.mk "FM" "FSM" "583" "Micronesia, Federated States of" "Federated States of Micronesia"),
  ("GA", CountryUnit.mk "GA" "GAB" "266" "Gabon" "Gabonese Republic"),
  ("GB", CountryUnit.mk "GB" "GBR" "826" "United Kingdom" "United Kingdom of Great Britain and Northern Ireland"),
  ("GE", CountryUnit.mk "GE" "GEO" "268" "Georgia" "Georgia"),
  ("GG", CountryUnit.mk "GG" "GGY" "831" "Guernsey" "Guernsey"),
  ("GH", CountryUnit.mk "GH" "GHA" "288" "Ghana" "Republic of Ghana"),
  ("GI", CountryUnit.mk "GI" "GIB" "292" "Gibraltar" "Gibraltar"),
  ("GN", CountryUnit.mk "GN" "GIN" "324" "Guinea" "Republic of Guinea"),
  ("GP", CountryUnit.mk "GP" "GLP" "312" "Guadeloupe" "Guadeloupe"),
  ("GM", CountryUnit.mk "GM" "GMB" "270" "Gambia" "Republic of the Gambia"),
  ("GW", CountryUnit.mk "GW" "GNB" "624" "Guinea-Bissau" "Republic of Guinea-Bissau"),
  ("GQ", CountryUnit.mk "GQ" "GNQ" "226" "Equatorial Guinea" "Republic of Equatorial Guinea"),
  ("GR", CountryUnit.mk "GR" "GRC" "300" "Greece" "Hellenic Republic"),
  ("GD", CountryUnit.mk "GD" "GRD" "308" "Grenada" "Grenada"),
  ("GL", CountryUnit.mk "GL" "GRL" "304" "Greenland" "Greenland"),
  ("GT", CountryUnit.mk "GT" "GTM" "320" "Guatemala" "Republic of Guatemala"),
  ("GF", CountryUnit.mk "GF" "GUF" "254" "French Guiana" "French Guiana"),
  ("GU", CountryUnit.mk "GU" "GUM" "316" "Guam" "Guam"),
  ("GY", CountryUnit.mk "GY" "GUY" "328" "Guyana" "Republic of Guyana"),
  ("HK", CountryUnit.mk "HK" "HKG" "344" "Hong Kong" "Hong Kong Special Administrative Region of China"),
  ("HM", CountryUnit.mk "HM" "HMD" "334" "Heard Island and McDonald Islands" "Heard Island and McDonald Islands"),
  ("HN", CountryUnit.mk "HN" "HND" "340" "Honduras" "Republic of Honduras"),
  ("HR", CountryUnit.mk "HR" "HRV" "191" "Croatia" "Republic of Croatia"),
  ("HT", CountryUnit.mk "HT" "HTI" "332" "Haiti" "Republic of Haiti"),
  ("HU", CountryUnit.mk "HU" "HUN" "348" "Hungary" "Hungary"),
  ("ID", CountryUnit.mk "ID" "IDN" "360" "Indonesia" "Republic of Indonesia"),
  ("IM", CountryUnit.mk "IM" "IMN" "833" "Isle of Man" "Isle of Man"),
  ("IN", CountryUnit.mk "IN" "IND" "356" "India" "Republic of India"),
  ("IO", CountryUnit.mk "IO" "IOT" "086" "British Indian Ocean Territory" "British Indian Ocean Territory"),
  ("IE", CountryUnit.mk "IE" "IRL" "372" "Ireland" "Ireland"),
  ("IR", CountryUnit.mk "IR" "IRN" "364" "Iran, Islamic Republic of" "Islamic Republic of Iran"),
  ("IQ", CountryUnit.mk "IQ" "IRQ" "368" "Iraq" "Republic of Iraq"),
  ("IS", CountryUnit.mk "IS" "ISL" "352" "Iceland" "Republic of Iceland"),
  ("IL", CountryUnit.mk "IL" "ISR" "376" "Israel" "State of Israel"),
  ("IT", CountryUnit.mk "IT" "ITA" "380" "Italy" "Italian Republic"),
  ("JM", CountryUnit.mk "JM" "JAM" "388" "Jamaica" "Jamaica"),
  ("JE", CountryUnit.mk "JE" "JEY" "832" "Jersey" "Jersey"),
  ("JO", CountryUnit.mk "JO" "JOR" "400" "Jordan" "Hashemite Kingdom of Jordan"),
  ("JP", CountryUnit.mk "JP" "JPN" "392" "Japan" "Japan"),
  ("KZ", CountryUnit.mk "KZ" "KAZ" "398" "Kazakhstan" "Republic of Kazakhstan"),
  ("KE", CountryUnit.mk "KE" "KEN" "404" "Kenya" "Republic of Kenya"),
  ("KG", CountryUnit.mk "KG" "KGZ" "417" "Kyrgyzstan" "Kyrgyz Republic"),
  ("KH", CountryUnit.mk "KH" "KHM" "116" "Cambodia" "Kingdom of Cambodia"),
  ("KI", CountryUnit.mk "KI" "KIR" "296" "Kiribati" "Republic of Kiribati"),
  ("KN", CountryUnit.mk "KN" "KNA" "659" "Saint Kitts and Nevis" "Saint Kitts and Nevis"),
  ("KR", CountryUnit.mk "KR" "KOR" "410" "Korea, Republic of" "Korea, Republic of"),
  ("KW", CountryUnit.mk "KW" "KWT" "414" "Kuwait" "State of Kuwait"),
  ("LA", CountryUnit.mk "LA" "LAO" "418" "Lao People\x27s Democratic Republic" "Lao People\x27s Democratic Republic"),
  ("LB", CountryUnit.mk "LB" "LBN" "422" "Lebanon" "Lebanese Republic"),
  ("LR", CountryUnit.mk "LR" "LBR" "430" "Liberia" "Republic of Liberia"),
  ("LY", CountryUnit.mk "LY" "LBY" "434" "Libya" "Libya"),
  ("LC", CountryUnit.mk "LC" "LCA" "662" "Saint Lucia" "Saint Lucia"),
  ("LI", CountryUnit.mk "LI" "LIE" "438" "Liechtenstein" "Principality of Liechtenstein"),
  ("LK", CountryUnit.mk "LK" "LKA" "144" "Sri Lanka" "Democratic Socialist Republic of Sri Lanka"),
  ("LS", CountryUnit.mk "LS" "LSO" "426" "Lesotho" "Kingdom of Lesotho"),
  ("LT", CountryUnit.mk "LT" "LTU" "440" "Lithuania" "Republic of Lithuania"),
  ("LU", CountryUnit.mk "LU" "LUX" "442" "Luxembourg" "Grand Duchy of Luxembourg"),
  ("LV", CountryUnit.mk "LV" "LVA" "428" "Latvia" "Republic of Latvia"),
  ("MO", CountryUnit.mk "MO" "MAC" "446" "Macao" "Macao Special Administrative Region of China"),
  ("MF", CountryUnit.mk "MF" "MAF" "663" "Saint Martin (French part)" "Saint Martin (French part)"),
  ("MA", CountryUnit.mk "MA" "MAR" "504" "Morocco" "Kingdom of Morocco"),
  ("MC", CountryUnit.mk "MC" "MCO" "492" "Monaco" "Principality of Monaco"),
  ("MD", CountryUnit.mk "MD" "MDA" "498" "Moldova, Republic of" "Republic of Moldova"),
  ("MG", CountryUnit.mk "MG" "MDG" "450" "Madagascar" "Republic of Madagascar"),
  ("MV", CountryUnit.mk "MV" "MDV" "462" "Maldives" "Republic of Maldives"),
  ("MX", CountryUnit.mk "MX" "MEX" "484" "Mexico" "United Mexican States"),
  ("MH", CountryUnit.mk "MH" "MHL" "584" "Marshall Islands" "Republic of the Marshall Islands"),
  ("MK", CountryUnit.mk "MK" "MKD" "807" "North Macedonia" "Republic of North Macedonia"),
  ("ML", CountryUnit.mk "ML" "MLI" "466" "Mali" "Republic of Mali"),
  ("MT", CountryUnit.mk "MT" "MLT" "470" "Malta" "Republic of Malta"),
  ("MM", CountryUnit.mk "MM" "MMR" "104" "Myanmar" "Republic of Myanmar"),
  ("ME", CountryUnit.mk "ME" "MNE" "499" "Montenegro" "Montenegro"),
  ("MN", CountryUnit.mk "MN" "MNG" "496" "Mongolia" "Mongolia"),
  ("MP", CountryUnit.mk "MP" "MNP" "580" "Northern Mariana Islands" "Commonwealth of the Northern Mariana Islands"),
  ("MZ", CountryUnit.mk "MZ" "MOZ" "508" "Mozambique" "Republic of Mozambique"),
  ("MR", CountryUnit.mk "MR" "MRT" "478" "Mauritania" "Islamic Republic of Mauritania"),
  ("MS", CountryUnit.mk "MS" "MSR" "500" "Montserrat" "Montserrat"),
  ("MQ", CountryUnit.mk "MQ" "MTQ" "474" "Martinique" "Martinique"),
  ("MU", CountryUnit.mk "MU" "MUS" "480" "Mauritius" "Republic of Mauritius"),
  ("MW", CountryUnit.mk "MW" "MWI" "454" "Malawi" "Republic of Malawi"),
  ("MY", CountryUnit.mk "MY" "MYS" "458" "Malaysia" "Malaysia"),
  ("YT", CountryUnit.mk "YT" "MYT" "175" "Mayotte" "Mayotte"),
  ("NA", CountryUnit.mk "NA" "NAM" "516" "Namibia" "Republic of Namibia"),
  ("NC", CountryUnit.mk "NC" "NCL" "540" "New Caledonia" "New Caledonia"),
  ("NE", CountryUnit.mk "NE" "NER" "562" "Niger" "Republic of the Niger"),
  ("NF", CountryUnit.mk "NF" "NFK" "574" "Norfolk Island" "Norfolk Island"),
  ("NG", CountryUnit.mk "NG" "NGA" "566" "Nigeria" "Federal Republic of Nigeria"),
  ("NI", CountryUnit.mk "NI" "NIC" "558" "Nicaragua" "Republic of Nicaragua"),
  ("NU", CountryUnit.mk "NU" "NIU" "570" "Niue" "Niue"),
  ("NL", CountryUnit.mk "NL" "NLD" "528" "Netherlands" "Kingdom of the Netherlands"),
  ("NO", CountryUnit.mk "NO" "NOR" "578" "Norway" "Kingdom of Norway"),
  ("NP", CountryUnit.mk "NP" "NPL" "524" "Nepal" "Federal Democratic Republic of Nepal"),
  ("NR", CountryUnit.mk "NR" "NRU" "520" "Nauru" "Republic of Nauru"),
  ("NZ", CountryUnit.mk "NZ" "NZL" "554" "New Zealand" "New Zealand"),
  ("OM", CountryUnit.mk "OM" "OMN" "512" "Oman" "Sultanate of Oman"),
  ("PK", CountryUnit.mk "PK" "PAK" "586" "Pakistan" "Islamic Republic of Pakistan"),
  ("PA", CountryUnit.mk "PA" "PAN" "591" "Panama" "Republic of Panama"),
  ("PN", CountryUnit.mk "PN" "PCN" "612" "Pitcairn" "Pitcairn"),
  ("PE", CountryUnit.mk "PE" "PER" "604" "Peru" "Republic of Peru"),
  ("PH", CountryUnit.mk "PH" "PHL" "608" "Philippines" "Republic of the Philippines"),
  ("PW", CountryUnit.mk "PW" "PLW" "585" "Palau" "Republic of Palau"),
  ("PG", CountryUnit.mk "PG" "PNG" "598" "Papua New Guinea" "Independent State of Papua New Guinea"),
  ("PL", CountryUnit.mk "PL" "POL" "616" "Poland" "Republic of Poland"),
  ("PR", CountryUnit.mk "PR" "PRI" "630" "Puerto Rico" "Puerto Rico"),
  ("KP", CountryUnit.mk "KP" "PRK" "408" "Korea, Democratic People\x27s Republic of" "Democratic People\x27s Republic of Korea"),
  ("PT", CountryUnit.mk "PT" "PRT" "620" "Portugal" "Portuguese Republic"),
  ("PY", CountryUnit.mk "PY" "PRY" "600" "Paraguay" "Republic of Paraguay"),
  ("PS", CountryUnit.mk "PS" "PSE" "275" "Palestine, State of" "the State of Palestine"),
  ("PF", CountryUnit.mk "PF" "PYF" "258" "French Polynesia" "French Polynesia"),
  ("QA", CountryUnit.mk "QA" "QAT" "634" "Qatar" "State of Qatar"),
  ("RE", CountryUnit.mk "RE" "REU" "638" "R\u00e9union" "R\u00e9union"),
  ("RO", CountryUnit.mk "RO" "ROU" "642" "Romania" "Romania"),
  ("RU", CountryUnit.mk "RU" "RUS" "643" "Russian Federation" "Russian Federation"),
  ("RW", CountryUnit.mk "RW" "RWA" "646" "Rwanda" "Rwandese Republic"),
  ("SA", CountryUnit.mk "SA" "SAU" "682" "Saudi Arabia" "Kingdom of Saudi Arabia"),
  ("SD", CountryUnit.mk "SD" "SDN" "729" "Sudan" "Republic of the Sudan"),
  ("SN", CountryUnit.mk "SN" "SEN" "686" "Senegal" "Republic of Senegal"),
  ("SG", CountryUnit.mk "SG" "SGP" "702" "Singapore" "Republic of Singapore"),
  ("GS", CountryUnit.mk "GS" "SGS" "239" "South Georgia and the South Sandwich Islands" "South Georgia and the South Sandwich Islands"),
  ("SH", CountryUnit.mk "SH" "SHN" "654" "Saint Helena, Ascension and Tristan da Cunha" "Saint Helena, Ascension and Tristan da Cunha"),
  ("SJ", CountryUnit.mk "SJ" "SJM" "744" "Svalbard and Jan Mayen" "Svalbard and Jan Mayen"),
  ("SB", CountryUnit.mk "SB" "SLB" "090" "Solomon Islands" "Solomon Islands"),
  ("SL", CountryUnit.mk "SL" "SLE" "694" "Sierra Leone" "Republic of Sierra Leone"),
  ("SV", CountryUnit.mk "SV" "SLV" "222" "El Salvador" "Republic of El Salvador"),
  ("SM", CountryUnit.mk "SM" "SMR" "674" "San Marino" "Republic of San Marino"),
  ("SO", CountryUnit.mk "SO" "SOM" "706" "Somalia" "Federal Republic of Somalia"),
  ("PM", CountryUnit.mk "PM" "SPM" "666" "Saint Pierre and Miquelon" "Saint Pierre and Miquelon"),
  ("RS", CountryUnit.mk "RS" "SRB" "688" "Serbia" "Republic of Serbia"),
  ("SS", CountryUnit.mk "SS" "SSD" "728" "South Sudan" "Republic of South Sudan"),
  ("ST", CountryUnit.mk "ST" "STP" "678" "Sao Tome and Principe" "Democratic Republic of Sao Tome and Principe"),
  ("SR", CountryUnit.mk "SR" "SUR" "740" "Suriname" "Republic of Suriname"),
  ("SK", CountryUnit.mk "SK" "SVK" "703" "Slovakia" "Slovak Republic"),
  ("SI", CountryUnit.mk "SI" "SVN" "705" "Slovenia" "Republic of Slovenia"),
  ("SE", CountryUnit.mk "SE" "SWE" "752" "Sweden" "Kingdom of Sweden"),
  ("SZ", CountryUnit.mk "SZ" "SWZ" "748" "Eswatini" "Kingdom of Eswatini"),
  ("SX", CountryUnit.mk "SX" "SXM" "534" "Sint Maarten (Dutch part)" "Sint Maarten (Dutch part)"),
  ("SC", CountryUnit.mk "SC" "SYC" "690" "Seychelles" "Republic of Seychelles"),
  ("SY", CountryUnit.mk "SY" "SYR" "760" "Syrian Arab Republic" "Syrian Arab Republic"),
  ("TC", CountryUnit.mk "TC" "TCA" "796" "Turks and Caicos Islands" "Turks and Caicos Islands"),
  ("TD", CountryUnit.mk "TD" "TCD" "148" "Chad" "Republic of Chad"),
  ("TG", CountryUnit.mk "TG" "TGO" "768" "Togo" "Togolese Republic"),
  ("TH", CountryUnit.mk "TH" "THA" "764" "Thailand" "Kingdom of Thailand"),
  ("TJ", CountryUnit.mk "TJ" "TJK" "762" "Tajikistan" "Republic of Tajikistan"),
  ("TK", CountryUnit.mk "TK" "TKL" "772" "Tokelau" "Tokelau"),
  ("TM", CountryUnit.mk "TM" "TKM" "795" "Turkmenistan" "Turkmenistan"),
  ("TL", CountryUnit.mk "TL" "TLS" "626" "Timor-Leste" "Democratic Republic of Timor-Leste"),
  ("TO", CountryUnit.mk "TO" "TON" "776" "Tonga" "Kingdom of Tonga"),
  ("TT", CountryUnit.mk "TT" "TTO" "780" "Trinidad and Tobago" "Republic of Trinidad and Tobago"),
  ("TN", CountryUnit.mk "TN" "TUN" "788" "Tunisia" "Republic of Tunisia"),
  ("TR", CountryUnit.mk "TR" "TUR" "792" "T\u00fcrkiye" "Republic of T\u00fcrkiye"),
  ("TV", CountryUnit.mk "TV" "TUV" "798" "Tuvalu" "Tuvalu"),
  ("TW", CountryUnit.mk "TW" "TWN" "158" "Taiwan, Province of China" "Taiwan, Province of China"),
  ("TZ", CountryUnit.mk "TZ" "TZA" "834" "Tanzania, United Republic of" "United Republic of Tanzania"),
  ("UG", CountryUnit.mk "UG" "UGA" "800" "Uganda" "Republic of Uganda"),
  ("UA", CountryUnit.mk "UA" "UKR" "804" "Ukraine" "Ukraine"),
  ("UM", CountryUnit.mk "UM" "UMI" "581" "United States Minor Outlying Islands" "United States Minor Outlying Islands"),
  ("UY", CountryUnit.mk "UY" "URY" "858" "Uruguay" "Eastern Republic of Uruguay"),
  ("US", CountryUnit.mk "US" "USA" "840" "United States" "United States of America"),
  ("UZ", CountryUnit.mk "UZ" "UZB" "860" "Uzbekistan" "Republic of Uzbekistan"),
  ("VA", CountryUnit.mk "VA" "VAT" "336" "Holy See (Vatican City State)" "Holy See (Vatican City State)"),
  ("VC", CountryUnit.mk "VC" "VCT" "670" "Saint Vincent and the Grenadines" "Saint Vincent and the Grenadines"),
  ("VE", CountryUnit.mk "VE" "VEN" "862" "Venezuela, Bolivarian Republic of" "Bolivarian Republic of Venezuela"),
  ("VG", CountryUnit.mk "VG" "VGB" "092" "Virgin Islands, British" "British Virgin Islands"),
  ("VI", CountryUnit.mk "VI" "VIR" "850" "Virgin Islands, U.S." "Virgin Islands of the United States"),
  ("VN", CountryUnit.mk "VN" "VNM" "704" "Viet Nam" "Socialist Republic of Viet Nam"),
  ("VU", CountryUnit.mk "VU" "VUT" "548" "Vanuatu" "Republic of Vanuatu"),
  ("WF", CountryUnit.mk "WF" "WLF" "876" "Wallis and Futuna" "Wallis and Futuna"),
  ("WS", CountryUnit.mk "WS" "WSM" "882" "Samoa" "Independent State of Samoa"),
  ("YE", CountryUnit.mk "YE" "YEM" "887" "Yemen" "Republic of Yemen"),
  ("ZA", CountryUnit.mk "ZA" "ZAF" "710" "South Africa" "Republic of South Africa"),
  ("ZM", CountryUnit.mk "ZM" "ZMB" "894" "Zambia" "Republic of Zambia"),
  ("ZW", CountryUnit.mk "ZW" "ZWE" "716" "Zimbabwe" "Republic of Zimbabwe")]

/-- The list a country query is compared against
(`_CountryEnumType.__call__`): alpha-2, alpha-3, numeric as a string and
numeric as an integer. -/
def countryCompareList (r : CountryUnit) : List PyVal :=
  [.str r.alpha_2, .str r.alpha_3, .str r.numeric, .int (pyInt r.numeric)]

/-- Embedding of `Country(value)`: the first member, in declaration order, one of whose
key fields equals the query; `ValueError` when none does. -/
def Country.call (value : PyVal) : Except Err CountryUnit :=
  match (Country.members.map Prod.snd).find? (fun r => (countryCompareList r).any (fun k => pyEq value k)) with
  | some r => .ok r
  | none => .error .invalidIdentifier

/-- Embedding of `Country[name]` member-name lookup (`EnumTypeBase.__getitem__`). -/
def Country.getItem (name : String) : Except Err CountryUnit :=
  enumGetItem Country.members name

/-- The country record declared under a member name (total helper for
referring to concrete records; every name used in this file is present). -/
def countryNamed (n : String) : CountryUnit :=
  (Country.members.lookup n).getD (CountryUnit.mk "" "" "" "" "")


/-- ISO 4217 currency record (`CurrencyUnit` in `currencies.py`); `digits`
is the canonical fractional-digit count and defaults to 2 in the source. -/
structure CurrencyUnit where
  alpha_3 : String
  numeric : String
  name : String
  digits : Nat
deriving DecidableEq, Repr

/-- The `Currency` enum data: member name and record, in declaration order (`digits` defaults to 2). -/
def Currency.members : List (String × CurrencyUnit) := [
  ("AED", CurrencyUnit.mk "AED" "784" "UAE Dirham" 2),
  ("AFN", CurrencyUnit.mk "AFN" "971" "Afghani" 2),
  ("ALL", CurrencyUnit.mk "ALL" "008" "Lek" 2),
  ("AMD", CurrencyUnit.mk "AMD" "051" "Armenian Dram" 2),
  ("ANG", CurrencyUnit.mk "ANG" "532" "Netherlands Antillean Guilder" 2),
  ("AOA", CurrencyUnit.mk "AOA" "973" "Kwanza" 2),
  ("ARS", CurrencyUnit.mk "ARS" "032" "Argentine Peso" 2),
  ("AUD", CurrencyUnit.mk "AUD" "036" "Australian Dollar" 2),
  ("AWG", CurrencyUnit.mk "AWG" "533" "Aruban Florin" 2),
  ("AZN", CurrencyUnit.mk "AZN" "944" "Azerbaijan Manat" 2),
  ("BAM", CurrencyUnit.mk "BAM" "977" "Convertible Mark" 2),
  ("BBD", CurrencyUnit.mk "BBD" "052" "Barbados Dollar" 2),
  ("BDT", CurrencyUnit.mk "BDT" "050" "Taka" 2),
  ("BGN", CurrencyUnit.mk "BGN" "975" "Bulgarian Lev" 2),
  ("BHD", CurrencyUnit.mk "BHD" "048" "Bahraini Dinar" 3),
  ("BIF", CurrencyUnit.mk "BIF" "108" "Burundi Franc" 0),
  ("BMD", CurrencyUnit.mk "BMD" "060" "Bermudian Dollar" 2),
  ("BND", CurrencyUnit.mk "BND" "096" "Brunei Dollar" 2),
  ("BOB", CurrencyUnit.mk "BOB" "068" "Boliviano" 2),
  ("BOV", CurrencyUnit.mk "BOV" "984" "Mvdol" 2),
  ("BRL", CurrencyUnit.mk "BRL" "986" "Brazilian Real" 2),
  ("BSD", CurrencyUnit.mk "BSD" "044" "Bahamian Dollar" 2),
  ("BTN", CurrencyUnit.mk "BTN" "064" "Ngultrum" 2),
  ("BWP", CurrencyUnit.mk "BWP" "072" "Pula" 2),
  ("BYN", CurrencyUnit.mk "BYN" "933" "Belarusian Ruble" 2),
  ("BZD", CurrencyUnit.mk "BZD" "084" "Belize Dollar" 2),
  ("CAD", CurrencyUnit.mk "CAD" "124" "Canadian Dollar" 2),
  ("CDF", CurrencyUnit.mk "CDF" "976" "Congolese Franc" 2),
  ("CHE", CurrencyUnit.mk "CHE" "947" "WIR Euro" 2),
  ("CHF", CurrencyUnit.mk "CHF" "756" "Swiss Franc" 2),
  ("CHW", CurrencyUnit.mk "CHW" "948" "WIR Franc" 2),
  ("CLF", CurrencyUnit.mk "CLF" "990" "Unidad de Fomento" 2),
  ("CLP", CurrencyUnit.mk "CLP" "152" "Chilean Peso" 0),
  ("CNY", CurrencyUnit.mk "CNY" "156" "Yuan Renminbi" 2),
  ("COP", CurrencyUnit.mk "COP" "170" "Colombian Peso" 2),
  ("COU", CurrencyUnit.mk "COU" "970" "Unidad de Valor Real" 2),
  ("CRC", CurrencyUnit.mk "CRC" "188" "Costa Rican Colon" 2),
  ("CUC", CurrencyUnit.mk "CUC" "931" "Peso Convertible" 2),
  ("CUP", CurrencyUnit.mk "CUP" "192" "Cuban Peso" 2),
  ("CVE", CurrencyUnit.mk "CVE" "132" "Cabo Verde Escudo" 2),
  ("CZK", CurrencyUnit.mk "CZK" "203" "Czech Koruna" 2),
  ("DJF", CurrencyUnit.mk "DJF" "262" "Djibouti Franc" 0),
  ("DKK", CurrencyUnit.mk "DKK" "208" "Danish Krone" 2),
  ("DOP", CurrencyUnit.mk "DOP" "214" "Dominican Peso" 2),
  ("DZD", CurrencyUnit.mk "DZD" "012" "Algerian Dinar" 2),
  ("EGP", CurrencyUnit.mk "EGP" "818" "Egyptian Pound" 2),
  ("ERN", CurrencyUnit.mk "ERN" "232" "Nakfa" 2),
  ("ETB", CurrencyUnit.mk "ETB" "230" "Ethiopian Birr" 2),
  ("EUR", CurrencyUnit.mk "EUR" "978" "Euro" 2),
  ("FJD", CurrencyUnit.mk "FJD" "242" "Fiji Dollar" 2),
  ("FKP", CurrencyUnit.mk "FKP" "238" "Falkland Islands Pound" 2),
  ("GBP", CurrencyUnit.mk "GBP" "826" "Pound Sterling" 2),
  ("GEL", CurrencyUnit.mk "GEL" "981" "Lari" 2),
  ("GHS", CurrencyUnit.mk "GHS" "936" "Ghana Cedi" 2),
  ("GIP", CurrencyUnit.mk "GIP" "292" "Gibraltar Pound" 2),
  ("GMD", CurrencyUnit.mk "GMD" "270" "Dalasi" 2),
  ("GNF", CurrencyUnit.mk "GNF" "324" "Guinean Franc" 0),
  ("GTQ", CurrencyUnit.mk "GTQ" "320" "Quetzal" 2),
  ("GYD", CurrencyUnit.mk "GYD" "328" "Guyana Dollar" 2),
  ("HKD", CurrencyUnit.mk "HKD" "344" "Hong Kong Dollar" 2),
  ("HNL", CurrencyUnit.mk "HNL" "340" "Lempira" 2),
  ("HRK", CurrencyUnit.mk "HRK" "191" "Kuna" 2),
  ("HTG", CurrencyUnit.mk "HTG" "332" "Gourde" 2),
  ("HUF", CurrencyUnit.mk "HUF" "348" "Forint" 2),
  ("IDR", CurrencyUnit.mk "IDR" "360" "Rupiah" 2),
  ("ILS", CurrencyUnit.mk "ILS" "376" "New Israeli Sheqel" 2),
  ("INR", CurrencyUnit.mk "INR" "356" "Indian Rupee" 2),
  ("IQD", CurrencyUnit.mk "IQD" "368" "Iraqi Dinar" 2),
  ("IRR", CurrencyUnit.mk "IRR" "364" "Iranian Rial" 2),
  ("ISK", CurrencyUnit.mk "ISK" "352" "Iceland Krona" 2),
  ("JMD", CurrencyUnit.mk "JMD" "388" "Jamaican Dollar" 2),
  ("JOD", CurrencyUnit.mk "JOD" "400" "Jordanian Dinar" 3),
  ("JPY", CurrencyUnit.mk "JPY" "392" "Yen" 0),
  ("KES", CurrencyUnit.mk "KES" "404" "Kenyan Shilling" 2),
  ("KGS", CurrencyUnit.mk "KGS" "417" "Som" 2),
  ("KHR", CurrencyUnit.mk "KHR" "116" "Riel" 2),
  ("KMF", CurrencyUnit.mk "KMF" "174" "Comorian Franc" 0),
  ("KPW", CurrencyUnit.mk "KPW" "408" "North Korean Won" 2),
  ("KRW", CurrencyUnit.mk "KRW" "410" "Won" 0),
  ("KWD", CurrencyUnit.mk "KWD" "414" "Kuwaiti Dinar" 3),
  ("KYD", CurrencyUnit.mk "KYD" "136" "Cayman Islands Dollar" 2),
  ("KZT", CurrencyUnit.mk "KZT" "398" "Tenge" 2),
  ("LAK", CurrencyUnit.mk "LAK" "418" "Lao Kip" 2),
  ("LBP", CurrencyUnit.mk "LBP" "422" "Lebanese Pound" 2),
  ("LKR", CurrencyUnit.mk "LKR" "144" "Sri Lanka Rupee" 2),
  ("LRD", CurrencyUnit.mk "LRD" "430" "Liberian Dollar" 2),
  ("LSL", CurrencyUnit.mk "LSL" "426" "Loti" 2),
  ("LYD", CurrencyUnit.mk "LYD" "434" "Libyan Dinar" 2),
  ("MAD", CurrencyUnit.mk "MAD" "504" "Moroccan Dirham" 2),
  ("MDL", CurrencyUnit.mk "MDL" "498" "Moldovan Leu" 2),
  ("MGA", CurrencyUnit.mk "MGA" "969" "Malagasy Ariary" 0),
  ("MKD", CurrencyUnit.mk "MKD" "807" "Denar" 2),
  ("MMK", CurrencyUnit.mk "MMK" "104" "Kyat" 2),
  ("MNT", CurrencyUnit.mk "MNT" "496" "Tugrik" 2),
  ("MOP", CurrencyUnit.mk "MOP" "446" "Pataca" 2),
  ("MRU", CurrencyUnit.mk "MRU" "929" "Ouguiya" 2),
  ("MUR", CurrencyUnit.mk "MUR" "480" "Mauritius Rupee" 2),
  ("MVR", CurrencyUnit.mk "MVR" "462" "Rufiyaa" 2),
  ("MWK", CurrencyUnit.mk "MWK" "454" "Malawi Kwacha" 2),
  ("MXN", CurrencyUnit.mk "MXN" "484" "Mexican Peso" 2),
  ("MXV", CurrencyUnit.mk "MXV" "979" "Mexican Unidad de Inversion (UDI)" 2),
  ("MYR", CurrencyUnit.mk "MYR" "458" "Malaysian Ringgit" 2),
  ("MZN", CurrencyUnit.mk "MZN" "943" "Mozambique Metical" 2),
  ("NAD", CurrencyUnit.mk "NAD" "516" "Namibia Dollar" 2),
  ("NGN", CurrencyUnit.mk "NGN" "566" "Naira" 2),
  ("NIO", CurrencyUnit.mk "NIO" "558" "Cordoba Oro" 2),
  ("NOK", CurrencyUnit.mk "NOK" "578" "Norwegian Krone" 2),
  ("NPR", CurrencyUnit.mk "NPR" "524" "Nepalese Rupee" 2),
  ("NZD", CurrencyUnit.mk "NZD" "554" "New Zealand Dollar" 2),
  ("OMR", CurrencyUnit.mk "OMR" "512" "Rial Omani" 3),
  ("PAB", CurrencyUnit.mk "PAB" "590" "Balboa" 2),
  ("PEN", CurrencyUnit.mk "PEN" "604" "Sol" 2),
  ("PGK", CurrencyUnit.mk "PGK" "598" "Kina" 2),
  ("PHP", CurrencyUnit.mk "PHP" "608" "Philippine Peso" 2),
  ("PKR", CurrencyUnit.mk "PKR" "586" "Pakistan Rupee" 2),
  ("PLN", CurrencyUnit.mk "PLN" "985" "Zloty" 2),
  ("PYG", CurrencyUnit.mk "PYG" "600" "Guarani" 0),
  ("QAR", CurrencyUnit.mk "QAR" "634" "Qatari Rial" 2),
  ("RON", CurrencyUnit.mk "RON" "946" "Romanian Leu" 2),
  ("RSD", CurrencyUnit.mk "RSD" "941" "Serbian Dinar" 2),
  ("RUB", CurrencyUnit.mk "RUB" "643" "Russian Ruble" 2),
  ("RWF", CurrencyUnit.mk "RWF" "646" "Rwanda Franc" 0),
  ("SAR", CurrencyUnit.mk "SAR" "682" "Saudi Riyal" 2),
  ("SBD", CurrencyUnit.mk "SBD" "090" "Solomon Islands Dollar" 2),
  ("SCR", CurrencyUnit.mk "SCR" "690" "Seychelles Rupee" 2),
  ("SDG", CurrencyUnit.mk "SDG" "938" "Sudanese Pound" 2),
  ("SEK", CurrencyUnit.mk "SEK" "752" "Swedish Krona" 2),
  ("SGD", CurrencyUnit.mk "SGD" "702" "Singapore Dollar" 2),
  ("SHP", CurrencyUnit.mk "SHP" "654" "Saint Helena Pound" 2),
  ("SLE", CurrencyUnit.mk "SLE" "925" "Leone" 2),
  ("SLL", CurrencyUnit.mk "SLL" "694" "Leone" 2),
  ("SOS", CurrencyUnit.mk "SOS" "706" "Somali Shilling" 2),
  ("SRD", CurrencyUnit.mk "SRD" "968" "Surinam Dollar" 2),
  ("SSP", CurrencyUnit.mk "SSP" "728" "South Sudanese Pound" 2),
  ("STN", CurrencyUnit.mk "STN" "930" "Dobra" 2),
  ("SVC", CurrencyUnit.mk "SVC" "222" "El Salvador Colon" 2),
  ("SYP", CurrencyUnit.mk "SYP" "760" "Syrian Pound" 2),
  ("SZL", CurrencyUnit.mk "SZL" "748" "Lilangeni" 2),
  ("THB", CurrencyUnit.mk "THB" "764" "Baht" 2),
  ("TJS", CurrencyUnit.mk "TJS" "972" "Somoni" 2),
  ("TMT", CurrencyUnit.mk "TMT" "934" "Turkmenistan New Manat" 2),
  ("TND", CurrencyUnit.mk "TND" "788" "Tunisian Dinar" 3),
  ("TOP", CurrencyUnit.mk "TOP" "776" "Pa\u2019anga" 2),
  ("TRY", CurrencyUnit.mk "TRY" "949" "Turkish Lira" 2),
  ("TTD", CurrencyUnit.mk "TTD" "780" "Trinidad and Tobago Dollar" 2),
  ("TWD", CurrencyUnit.mk "TWD" "901" "New Taiwan Dollar" 2),
  ("TZS", CurrencyUnit.mk "TZS" "834" "Tanzanian Shilling" 2),
  ("UAH", CurrencyUnit.mk "UAH" "980" "Hryvnia" 2),
  ("UGX", CurrencyUnit.mk "UGX" "800" "Uganda Shilling" 0),
  ("USD", CurrencyUnit.mk "USD" "840" "US Dollar" 2),
  ("USN", CurrencyUnit.mk "USN" "997" "US Dollar (Next day)" 2),
  ("UYI", CurrencyUnit.mk "UYI" "940" "Uruguay Peso en Unidades Indexadas (UI)" 2),
  ("UYU", CurrencyUnit.mk "UYU" "858" "Peso Uruguayo" 2),
  ("UYW", CurrencyUnit.mk "UYW" "927" "Unidad Previsional" 2),
  ("UZS", CurrencyUnit.mk "UZS" "860" "Uzbekistan Sum" 2),
  ("VED", CurrencyUnit.mk "VED" "926" "Bol\u00edvar Soberano" 2),
  ("VES", CurrencyUnit.mk "VES" "928" "Bol\u00edvar Soberano" 2),
  ("VND", CurrencyUnit.mk "VND" "704" "Dong" 0),
  ("VUV", CurrencyUnit.mk "VUV" "548" "Vatu" 0),
  ("WST", CurrencyUnit.mk "WST" "882" "Tala" 2),
  ("XAF", CurrencyUnit.mk "XAF" "950" "CFA Franc BEAC" 0),
  ("XAG", CurrencyUnit.mk "XAG" "961" "Silver" 2),
  ("XAU", CurrencyUnit.mk "XAU" "959" "Gold" 2),
  ("XBA", CurrencyUnit.mk "XBA" "955" "Bond Markets Unit European Composite Unit (EURCO)" 2),
  ("XBB", CurrencyUnit.mk "XBB" "956" "Bond Markets Unit European Monetary Unit (E.M.U.-6)" 2),
  ("XBC", CurrencyUnit.mk "XBC" "957" "Bond Markets Unit European Unit of Account 9 (E.U.A.-9)" 2),
  ("XBD", CurrencyUnit.mk "XBD" "958" "Bond Markets Unit European Unit of Account 17 (E.U.A.-17)" 2),
  ("XCD", CurrencyUnit.mk "XCD" "951" "East Caribbean Dollar" 2),
  ("XDR", CurrencyUnit.mk "XDR" "960" "SDR (Special Drawing Right)" 2),
  ("XOF", CurrencyUnit.mk "XOF" "952" "CFA Franc BCEAO" 0),
  ("XPD", CurrencyUnit.mk "XPD" "964" "Palladium" 2),
  ("XPF", CurrencyUnit.mk "XPF" "953" "CFP Franc" 0),
  ("XPT", CurrencyUnit.mk "XPT" "962" "Platinum" 2),
  ("XSU", CurrencyUnit.mk "XSU" "994" "Sucre" 2),
  ("XTS", CurrencyUnit.mk "XTS" "963" "Codes specifically reserved for testing purposes" 2),
  ("XUA", CurrencyUnit.mk "XUA" "965" "ADB Unit of Account" 2),
  ("XXX", CurrencyUnit.mk "XXX" "999" "The codes assigned for transactions where no currency is involved" 2),
  ("YER", CurrencyUnit.mk "YER" "886" "Yemeni Rial" 2),
  ("ZAR", CurrencyUnit.mk "ZAR" "710" "Rand" 2),
  ("ZMW", CurrencyUnit.mk "ZMW" "967" "Zambian Kwacha" 2),
  ("ZWL", CurrencyUnit.mk "ZWL" "932" "Zimbabwe Dollar" 2)]

/-- Embedding of `_get_currencies_by_digits(digits)`: all currency records with the
given fractional-digit count, in declaration order. -/
def _get_currencies_by_digits (digits : Nat) : List CurrencyUnit :=
  (Currency.members.map Prod.snd).filter (fun unit => unit.digits == digits)

/-- Embedding of `Currency(value)`: the first member whose alpha-3 code or numeric
string equals the query (`_CurrencyEnumType.__call__`; note the compare
list holds only the two strings). -/
def Currency.call (value : PyVal) : Except Err CurrencyUnit :=
  match (Currency.members.map Prod.snd).find? (fun unit => pyEq value (.str unit.alpha_3) || pyEq value (.str unit.numeric)) with
  | some unit => .ok unit
  | none => .error .invalidIdentifier

/-- Embedding of `Currency[name]` member-name lookup (`_CurrencyEnumType.__getitem__`,
textually the same normalization as `EnumTypeBase.__getitem__`). -/
def Currency.getItem (name : String) : Except Err CurrencyUnit :=
  enumGetItem Currency.members name

/-- Embedding of `Currency.zero_digits`: currencies with no decimals. -/
def Currency.zero_digits : List CurrencyUnit :=
  _get_currencies_by_digits 0

/-- Embedding of `Currency.two_digits`: currencies with two decimals. -/
def Currency.two_digits : List CurrencyUnit :=
  _get_currencies_by_digits 2

/-- Embedding of `Currency.three_digits`: currencies with three decimals. -/
def Currency.three_digits : List CurrencyUnit :=
  _get_currencies_by_digits 3

/-- The currency record declared under a member name. -/
def currencyNamed (n : String) : CurrencyUnit :=
  (Currency.members.lookup n).getD (CurrencyUnit.mk "" "" "" 2)


/-- ISO 639 language record (`LanguageUnit` in `languages.py`). -/
structure LanguageUnit where
  name : String
  alpha_3 : String
  terminology : String
  alpha_2 : Option String
  bibliographic : Option String
deriving DecidableEq, Repr

/-- The `Language` enum data: member name and record, in declaration order. -/
def Language.members : List (String × LanguageUnit) := [
  ("AAR", LanguageUnit.mk "Afar" "aar" "aar" (some "aa") none),
  ("ABK", LanguageUnit.mk "Abkhazian" "abk" "abk" (some "ab") none),
  ("ACE", LanguageUnit.mk "Achinese" "ace" "ace" none none),
  ("ACH", LanguageUnit.mk "Acoli" "ach" "ach" none none),
  ("ADA", LanguageUnit.mk "Adangme" "ada" "ada" none none),
  ("ADY", LanguageUnit.mk "Adyghe; Adygei" "ady" "ady" none none),
  ("AFA", LanguageUnit.mk "Afro-Asiatic languages" "afa" "afa" none none),
  ("AFH", LanguageUnit.mk "Afrihili" "afh" "afh" none none),
  ("AFR", LanguageUnit.mk "Afrikaans" "afr" "afr" (some "af") none),
  ("AIN", LanguageUnit.mk "Ainu" "ain" "ain" none none),
  ("AKA", LanguageUnit.mk "Akan" "aka" "aka" (some "ak") none),
  ("AKK", LanguageUnit.mk "Akkadian" "akk" "akk" none none),
  ("ALB", LanguageUnit.mk "Albanian" "alb" "sqi" (some "sq") (some "alb")),
  ("SQI", LanguageUnit.mk "Albanian" "sqi" "sqi" (some "sq") (some "alb")),
  ("ALE", LanguageUnit.mk "Aleut" "ale" "ale" none none),
  ("ALG", LanguageUnit.mk "Algonquian languages" "alg" "alg" none none),
  ("ALT", LanguageUnit.mk "Southern Altai" "alt" "alt" none none),
  ("AMH", LanguageUnit.mk "Amharic" "amh" "amh" (some "am") none),
  ("ANG", LanguageUnit.mk "English, Old (ca.450-1100)" "ang" "ang" none none),
  ("ANP", LanguageUnit.mk "Angika" "anp" "anp" none none),
  ("APA", LanguageUnit.mk "Apache languages" "apa" "apa" none none),
  ("ARA", LanguageUnit.mk "Arabic" "ara" "ara" (some "ar") none),
  ("ARC", LanguageUnit.mk "Official Aramaic (700-300 BCE); Imperial Aramaic (700-300 BCE)" "arc" "arc" none none),
  ("ARG", LanguageUnit.mk "Aragonese" "arg" "arg" (some "an") none),
  ("ARM", LanguageUnit.mk "Armenian" "arm" "hye" (some "hy") (some "arm")),
  ("HYE", LanguageUnit.mk "Armenian" "hye" "hye" (some "hy") (some "arm")),
  ("ARN", LanguageUnit.mk "Mapudungun; Mapuche" "arn" "arn" none none),
  ("ARP", LanguageUnit.mk "Arapaho" "arp" "arp" none none),
  ("ART", LanguageUnit.mk "Artificial languages" "art" "art" none none),
  ("ARW", LanguageUnit.mk "Arawak" "arw" "arw" none none),
  ("ASM", LanguageUnit.mk "Assamese" "asm" "asm" (some "as") none),
  ("AST", LanguageUnit.mk "Asturian; Bable; Leonese; Asturleonese" "ast" "ast" none none),
  ("ATH", LanguageUnit.mk "Athapascan languages" "ath" "ath" none none),
  ("AUS", LanguageUnit.mk "Australian languages" "aus" "aus" none none),
  ("AVA", LanguageUnit.mk "Avaric" "ava" "ava" (some "av") none),
  ("AVE", LanguageUnit.mk "Avestan" "ave" "ave" (some "ae") none),
  ("AWA", LanguageUnit.mk "Awadhi" "awa" "awa" none none),
  ("AYM", LanguageUnit.mk "Aymara" "aym" "aym" (some "ay") none),
  ("AZE", LanguageUnit.mk "Azerbaijani" "aze" "aze" (some "az") none),
  ("BAD", LanguageUnit.mk "Banda languages" "bad" "bad" none none),
  ("BAI", LanguageUnit.mk "Bamileke languages" "bai" "bai" none none),
  ("BAK", LanguageUnit.mk "Bashkir" "bak" "bak" (some "ba") none),
  ("BAL", LanguageUnit.mk "Baluchi" "bal" "bal" none none),
  ("BAM", LanguageUnit.mk "Bambara" "bam" "bam" (some "bm") none),
  ("BAN", LanguageUnit.mk "Balinese" "ban" "ban" none none),
  ("BAQ", LanguageUnit.mk "Basque" "baq" "eus" (some "eu") (some "baq")),
  ("EUS", LanguageUnit.mk "Basque" "eus" "eus" (some "eu") (some "baq")),
  ("BAS", LanguageUnit.mk "Basa" "bas" "bas" none none),
  ("BAT", LanguageUnit.mk "Baltic languages" "bat" "bat" none none),
  ("BEJ", LanguageUnit.mk "Beja; Bedawiyet" "bej" "bej" none none),
  ("BEL", LanguageUnit.mk "Belarusian" "bel" "bel" (some "be") none),
  ("BEM", LanguageUnit.mk "Bemba" "bem" "bem" none none),
  ("BEN", LanguageUnit.mk "Bengali" "ben" "ben" (some "bn") none),
  ("BER", LanguageUnit.mk "Berber languages" "ber" "ber" none none),
  ("BHO", LanguageUnit.mk "Bhojpuri" "bho" "bho" none none),
  ("BIH", LanguageUnit.mk "Bihari languages" "bih" "bih" (some "bh") none),
  ("BIK", LanguageUnit.mk "Bikol" "bik" "bik" none none),
  ("BIN", LanguageUnit.mk "Bini; Edo" "bin" "bin" none none),
  ("BIS", LanguageUnit.mk "Bislama" "bis" "bis" (some "bi") none),
  ("BLA", LanguageUnit.mk "Siksika" "bla" "bla" none none),
  ("BNT", LanguageUnit.mk "Bantu languages" "bnt" "bnt" none none),
  ("TIB", LanguageUnit.mk "Tibetan" "tib" "bod" (some "bo") (some "tib")),
  ("BOD", LanguageUnit.mk "Tibetan" "bod" "bod" (some "bo") (some "tib")),
  ("BOS", LanguageUnit.mk "Bosnian" "bos" "bos" (some "bs") none),
  ("BRA", LanguageUnit.mk "Braj" "bra" "bra" none none),
  ("BRE", LanguageUnit.mk "Breton" "bre" "bre" (some "br") none),
  ("BTK", LanguageUnit.mk "Batak languages" "btk" "btk" none none),
  ("BUA", LanguageUnit.mk "Buriat" "bua" "bua" none none),
  ("BUG", LanguageUnit.mk "Buginese" "bug" "bug" none none),
  ("BUL", LanguageUnit.mk "Bulgarian" "bul" "bul" (some "bg") none),
  ("BUR", LanguageUnit.mk "Burmese" "bur" "mya" (some "my") (some "bur")),
  ("MYA", LanguageUnit.mk "Burmese" "mya" "mya" (some "my") (some "bur")),
  ("BYN", LanguageUnit.mk "Blin; Bilin" "byn" "byn" none none),
  ("CAD", LanguageUnit.mk "Caddo" "cad" "cad" none none),
  ("CAI", LanguageUnit.mk "Central American Indian languages" "cai" "cai" none none),
  ("CAR", LanguageUnit.mk "Galibi Carib" "car" "car" none none),
  ("CAT", LanguageUnit.mk "Catalan; Valencian" "cat" "cat" (some "ca") none),
  ("CAU", LanguageUnit.mk "Caucasian languages" "cau" "cau" none none),
  ("CEB", LanguageUnit.mk "Cebuano" "ceb" "ceb" none none),
  ("CEL", LanguageUnit.mk "Celtic languages" "cel" "cel" none none),
  ("CZE", LanguageUnit.mk "Czech" "cze" "ces" (some "cs") (some "cze")),
  ("CES", LanguageUnit.mk "Czech" "ces" "ces" (some "cs") (some "cze")),
  ("CHA", LanguageUnit.mk "Chamorro" "cha" "cha" (some "ch") none),
  ("CHB", LanguageUnit.mk "Chibcha" "chb" "chb" none none),
  ("CHE", LanguageUnit.mk "Chechen" "che" "che" (some "ce") none),
  ("CHG", LanguageUnit.mk "Chagatai" "chg" "chg" none none),
  ("CHI", LanguageUnit.mk "Chinese" "chi" "zho" (some "zh") (some "chi")),
  ("ZHO", LanguageUnit.mk "Chinese" "zho" "zho" (some "zh") (some "chi")),
  ("CHK", LanguageUnit.mk "Chuukese" "chk" "chk" none none),
  ("CHM", LanguageUnit.mk "Mari" "chm" "chm" none none),
  ("CHN", LanguageUnit.mk "Chinook jargon" "chn" "chn" none none),
  ("CHO", LanguageUnit.mk "Choctaw" "cho" "cho" none none),
  ("CHP", LanguageUnit.mk "Chipewyan; Dene Suline" "chp" "chp" none none),
  ("CHR", LanguageUnit.mk "Cherokee" "chr" "chr" none none),
  ("CHU", LanguageUnit.mk "Church Slavic; Old Slavonic; Church Slavonic; Old Bulgarian; Old Church Slavonic" "chu" "chu" (some "cu") none),
  ("CHV", LanguageUnit.mk "Chuvash" "chv" "chv" (some "cv") none),
  ("CHY", LanguageUnit.mk "Cheyenne" "chy" "chy" none none),
  ("CMC", LanguageUnit.mk "Chamic languages" "cmc" "cmc" none none),
  ("CNR", LanguageUnit.mk "Montenegrin" "cnr" "cnr" none none),
  ("COP", LanguageUnit.mk "Coptic" "cop" "cop" none none),
  ("COR", LanguageUnit.mk "Cornish" "cor" "cor" (some "kw") none),
  ("COS", LanguageUnit.mk "Corsican" "cos" "cos" (some "co") none),
  ("CPE", LanguageUnit.mk "Creoles and pidgins, English based" "cpe" "cpe" none none),
  ("CPF", LanguageUnit.mk "Creoles and pidgins, French-based" "cpf" "cpf" none none),
  ("CPP", LanguageUnit.mk "Creoles and pidgins, Portuguese-based" "cpp" "cpp" none none),
  ("CRE", LanguageUnit.mk "Cree" "cre" "cre" (some "cr") none),
  ("CRH", LanguageUnit.mk "Crimean Tatar; Crimean Turkish" "crh" "crh" none none),
  ("CRP", LanguageUnit.mk "Creoles and pidgins" "crp" "crp" none none),
  ("CSB", LanguageUnit.mk "Kashubian" "csb" "csb" none none),
  ("CUS", LanguageUnit.mk "Cushitic languages" "cus" "cus" none none),
  ("WEL", LanguageUnit.mk "Welsh" "wel" "cym" (some "cy") (some "wel")),
  ("CYM", LanguageUnit.mk "Welsh" "cym" "cym" (some "cy") (some "wel")),
  ("DAK", LanguageUnit.mk "Dakota" "dak" "dak" none none),
  ("DAN", LanguageUnit.mk "Danish" "dan" "dan" (some "da") none),
  ("DAR", LanguageUnit.mk "Dargwa" "dar" "dar" none none),
  ("DAY", LanguageUnit.mk "Land Dayak languages" "day" "day" none none),
  ("DEL", LanguageUnit.mk "Delaware" "del" "del" none none),
  ("DEN", LanguageUnit.mk "Slave (Athapascan)" "den" "den" none none),
  ("GER", LanguageUnit.mk "German" "ger" "deu" (some "de") (some "ger")),
  ("DEU", LanguageUnit.mk "German" "deu" "deu" (some "de") (some "ger")),
  ("DGR", LanguageUnit.mk "Dogrib" "dgr" "dgr" none none),
  ("DIN", LanguageUnit.mk "Dinka" "din" "din" none none),
  ("DIV", LanguageUnit.mk "Divehi; Dhivehi; Maldivian" "div" "div" (some "dv") none),
  ("DOI", LanguageUnit.mk "Dogri" "doi" "doi" none none),
  ("DRA", LanguageUnit.mk "Dravidian languages" "dra" "dra" none none),
  ("DSB", LanguageUnit.mk "Lower Sorbian" "dsb" "dsb" none none),
  ("DUA", LanguageUnit.mk "Duala" "dua" "dua" none none),
  ("DUM", LanguageUnit.mk "Dutch, Middle (ca.1050-1350)" "dum" "dum" none none),
  ("DUT", LanguageUnit.mk "Dutch; Flemish" "dut" "nld" (some "nl") (some "dut")),
  ("NLD", LanguageUnit.mk "Dutch; Flemish" "nld" "nld" (some "nl") (some "dut")),
  ("DYU", LanguageUnit.mk "Dyula" "dyu" "dyu" none none),
  ("DZO", LanguageUnit.mk "Dzongkha" "dzo" "dzo" (some "dz") none),
  ("EFI", LanguageUnit.mk "Efik" "efi" "efi" none none),
  ("EGY", LanguageUnit.mk "Egyptian (Ancient)" "egy" "egy" none none),
  ("EKA", LanguageUnit.mk "Ekajuk" "eka" "eka" none none),
  ("GRE", LanguageUnit.mk "Greek, Modern (1453-)" "gre" "ell" (some "el") (some "gre")),
  ("ELL", LanguageUnit.mk "Greek, Modern (1453-)" "ell" "ell" (some "el") (some "gre")),
  ("ELX", LanguageUnit.mk "Elamite" "elx" "elx" none none),
  ("ENG", LanguageUnit.mk "English" "eng" "eng" (some "en") none),
  ("ENM", LanguageUnit.mk "English, Middle (1100-1500)" "enm" "enm" none none),
  ("EPO", LanguageUnit.mk "Esperanto" "epo" "epo" (some "eo") none),
  ("EST", LanguageUnit.mk "Estonian" "est" "est" (some "et") none),
  ("EWE", LanguageUnit.mk "Ewe" "ewe" "ewe" (some "ee") none),
  ("EWO", LanguageUnit.mk "Ewondo" "ewo" "ewo" none none),
  ("FAN", LanguageUnit.mk "Fang" "fan" "fan" none none),
  ("FAO", LanguageUnit.mk "Faroese" "fao" "fao" (some "fo") none),
  ("PER", LanguageUnit.mk "Persian" "per" "fas" (some "fa") (some "per")),
  ("FAS", LanguageUnit.mk "Persian" "fas" "fas" (some "fa") (some "per")),
  ("FAT", LanguageUnit.mk "Fanti" "fat" "fat" none none),
  ("FIJ", LanguageUnit.mk "Fijian" "fij" "fij" (some "fj") none),
  ("FIL", LanguageUnit.mk "Filipino; Pilipino" "fil" "fil" none none),
  ("FIN", LanguageUnit.mk "Finnish" "fin" "fin" (some "fi") none),
  ("FIU", LanguageUnit.mk "Finno-Ugrian languages" "fiu" "fiu" none none),
  ("FON", LanguageUnit.mk "Fon" "fon" "fon" none none),
  ("FRE", LanguageUnit.mk "French" "fre" "fra" (some "fr") (some "fre")),
  ("FRA", LanguageUnit.mk "French" "fra" "fra" (some "fr") (some "fre")),
  ("FRM", LanguageUnit.mk "French, Middle (ca.1400-1600)" "frm" "frm" none none),
  ("FRO", LanguageUnit.mk "French, Old (842-ca.1400)" "fro" "fro" none none),
  ("FRR", LanguageUnit.mk "Northern Frisian" "frr" "frr" none none),
  ("FRS", LanguageUnit.mk "Eastern Frisian" "frs" "frs" none none),
  ("FRY", LanguageUnit.mk "Western Frisian" "fry" "fry" (some "fy") none),
  ("FUL", LanguageUnit.mk "Fulah" "ful" "ful" (some "ff") none),
  ("FUR", LanguageUnit.mk "Friulian" "fur" "fur" none none),
  ("GAA", LanguageUnit.mk "Ga" "gaa" "gaa" none none),
  ("GAY", LanguageUnit.mk "Gayo" "gay" "gay" none none),
  ("GBA", LanguageUnit.mk "Gbaya" "gba" "gba" none none),
  ("GEM", LanguageUnit.mk "Germanic languages" "gem" "gem" none none),
  ("GEO", LanguageUnit.mk "Georgian" "geo" "kat" (some "ka") (some "geo")),
  ("KAT", LanguageUnit.mk "Georgian" "kat" "kat" (some "ka") (some "geo")),
  ("GEZ", LanguageUnit.mk "Geez" "gez" "gez" none none),
  ("GIL", LanguageUnit.mk "Gilbertese" "gil" "gil" none none),
  ("GLA", LanguageUnit.mk "Gaelic; Scottish Gaelic" "gla" "gla" (some "gd") none),
  ("GLE", LanguageUnit.mk "Irish" "gle" "gle" (some "ga") none),
  ("GLG", LanguageUnit.mk "Galician" "glg" "glg" (some "gl") none),
  ("GLV", LanguageUnit.mk "Manx" "glv" "glv" (some "gv") none),
  ("GMH", LanguageUnit.mk "German, Middle High (ca.1050-1500)" "gmh" "gmh" none none),
  ("GOH", LanguageUnit.mk "German, Old High (ca.750-1050)" "goh" "goh" none none),
  ("GON", LanguageUnit.mk "Gondi" "gon" "gon" none none),
  ("GOR", LanguageUnit.mk "Gorontalo" "gor" "gor" none none),
  ("GOT", LanguageUnit.mk "Gothic" "got" "got" none none),
  ("GRB", LanguageUnit.mk "Grebo" "grb" "grb" none none),
  ("GRC", LanguageUnit.mk "Greek, Ancient (to 1453)" "grc" "grc" none none),
  ("GRN", LanguageUnit.mk "Guarani" "grn" "grn" (some "gn") none),
  ("GSW", LanguageUnit.mk "Swiss German; Alemannic; Alsatian" "gsw" "gsw" none none),
  ("GUJ", LanguageUnit.mk "Gujarati" "guj" "guj" (some "gu") none),
  ("GWI", LanguageUnit.mk "Gwich\x27in" "gwi" "gwi" none none),
  ("HAI", LanguageUnit.mk "Haida" "hai" "hai" none none),
  ("HAT", LanguageUnit.mk "Haitian; Haitian Creole" "hat" "hat" (some "ht") none),
  ("HAU", LanguageUnit.mk "Hausa" "hau" "hau" (some "ha") none),
  ("HAW", LanguageUnit.mk "Hawaiian" "haw" "haw" none none),
  ("HEB", LanguageUnit.mk "Hebrew" "heb" "heb" (some "he") none),
  ("HER", LanguageUnit.mk "Herero" "her" "her" (some "hz") none),
  ("HIL", LanguageUnit.mk "Hiligaynon" "hil" "hil" none none),
  ("HIM", LanguageUnit.mk "Himachali languages; Western Pahari languages" "him" "him" none none),
  ("HIN", LanguageUnit.mk "Hindi" "hin" "hin" (some "hi") none),
  ("HIT", LanguageUnit.mk "Hittite" "hit" "hit" none none),
  ("HMN", LanguageUnit.mk "Hmong; Mong" "hmn" "hmn" none none),
  ("HMO", LanguageUnit.mk "Hiri Motu" "hmo" "hmo" (some "ho") none),
  ("HRV", LanguageUnit.mk "Croatian" "hrv" "hrv" (some "hr") none),
  ("HSB", LanguageUnit.mk "Upper Sorbian" "hsb" "hsb" none none),
  ("HUN", LanguageUnit.mk "Hungarian" "hun" "hun" (some "hu") none),
  ("HUP", LanguageUnit.mk "Hupa" "hup" "hup" none none),
  ("IBA", LanguageUnit.mk "Iban" "iba" "iba" none none),
  ("IBO", LanguageUnit.mk "Igbo" "ibo" "ibo" (some "ig") none),
  ("ICE", LanguageUnit.mk "Icelandic" "ice" "isl" (some "is") (some "ice")),
  ("ISL", LanguageUnit.mk "Icelandic" "isl" "isl" (some "is") (some "ice")),
  ("IDO", LanguageUnit.mk "Ido" "ido" "ido" (some "io") none),
  ("III", LanguageUnit.mk "Sichuan Yi; Nuosu" "iii" "iii" (some "ii") none),
  ("IJO", LanguageUnit.mk "Ijo languages" "ijo" "ijo" none none),
  ("IKU", LanguageUnit.mk "Inuktitut" "iku" "iku" (some "iu") none),
  ("ILE", LanguageUnit.mk "Interlingue; Occidental" "ile" "ile" (some "ie") none),
  ("ILO", LanguageUnit.mk "Iloko" "ilo" "ilo" none none),
  ("INA", LanguageUnit.mk "Interlingua (International Auxiliary Language Association)" "ina" "ina" (some "ia") none),
  ("INC", LanguageUnit.mk "Indic languages" "inc" "inc" none none),
  ("IND", LanguageUnit.mk "Indonesian" "ind" "ind" (some "id") none),
  ("INE", LanguageUnit.mk "Indo-European languages" "ine" "ine" none none),
  ("INH", LanguageUnit.mk "Ingush" "inh" "inh" none none),
  ("IPK", LanguageUnit.mk "Inupiaq" "ipk" "ipk" (some "ik") none),
  ("IRA", LanguageUnit.mk "Iranian languages" "ira" "ira" none none),
  ("IRO", LanguageUnit.mk "Iroquoian languages" "iro" "iro" none none),
  ("ITA", LanguageUnit.mk "Italian" "ita" "ita" (some "it") none),
  ("JAV", LanguageUnit.mk "Javanese" "jav" "jav" (some "jv") none),
  ("JBO", LanguageUnit.mk "Lojban" "jbo" "jbo" none none),
  ("JPN", LanguageUnit.mk "Japanese" "jpn" "jpn" (some "ja") none),
  ("JPR", LanguageUnit.mk "Judeo-Persian" "jpr" "jpr" none none),
  ("JRB", LanguageUnit.mk "Judeo-Arabic" "jrb" "jrb" none none),
  ("KAA", LanguageUnit.mk "Kara-Kalpak" "kaa" "kaa" none none),
  ("KAB", LanguageUnit.mk "Kabyle" "kab" "kab" none none),
  ("KAC", LanguageUnit.mk "Kachin; Jingpho" "kac" "kac" none none),
  ("KAL", LanguageUnit.mk "Kalaallisut; Greenlandic" "kal" "kal" (some "kl") none),
  ("KAM", LanguageUnit.mk "Kamba" "kam" "kam" none none),
  ("KAN", LanguageUnit.mk "Kannada" "kan" "kan" (some "kn") none),
  ("KAR", LanguageUnit.mk "Karen languages" "kar" "kar" none none),
  ("KAS", LanguageUnit.mk "Kashmiri" "kas" "kas" (some "ks") none),
  ("KAU", LanguageUnit.mk "Kanuri" "kau" "kau" (some "kr") none),
  ("KAW", LanguageUnit.mk "Kawi" "kaw" "kaw" none none),
  ("KAZ", LanguageUnit.mk "Kazakh" "kaz" "kaz" (some "kk") none),
  ("KBD", LanguageUnit.mk "Kabardian" "kbd" "kbd" none none),
  ("KHA", LanguageUnit.mk "Khasi" "kha" "kha" none none),
  ("KHI", LanguageUnit.mk "Khoisan languages" "khi" "khi" none none),
  ("KHM", LanguageUnit.mk "Central Khmer" "khm" "khm" (some "km") none),
  ("KHO", LanguageUnit.mk "Khotanese; Sakan" "kho" "kho" none none),
  ("KIK", LanguageUnit.mk "Kikuyu; Gikuyu" "kik" "kik" (some "ki") none),
  ("KIN", LanguageUnit.mk "Kinyarwanda" "kin" "kin" (some "rw") none),
  ("KIR", LanguageUnit.mk "Kirghiz; Kyrgyz" "kir" "kir" (some "ky") none),
  ("KMB", LanguageUnit.mk "Kimbundu" "kmb" "kmb" none none),
  ("KOK", LanguageUnit.mk "Konkani" "kok" "kok" none none),
  ("KOM", LanguageUnit.mk "Komi" "kom" "kom" (some "kv") none),
  ("KON", LanguageUnit.mk "Kongo" "kon" "kon" (some "kg") none),
  ("KOR", LanguageUnit.mk "Korean" "kor" "kor" (some "ko") none),
  ("KOS", LanguageUnit.mk "Kosraean" "kos" "kos" none none),
  ("KPE", LanguageUnit.mk "Kpelle" "kpe" "kpe" none none),
  ("KRC", LanguageUnit.mk "Karachay-Balkar" "krc" "krc" none none),
  ("KRL", LanguageUnit.mk "Karelian" "krl" "krl" none none),
  ("KRO", LanguageUnit.mk "Kru languages" "kro" "kro" none none),
  ("KRU", LanguageUnit.mk "Kurukh" "kru" "kru" none none),
  ("KUA", LanguageUnit.mk "Kuanyama; Kwanyama" "kua" "kua" (some "kj") none),
  ("KUM", LanguageUnit.mk "Kumyk" "kum" "kum" none none),
  ("KUR", LanguageUnit.mk "Kurdish" "kur" "kur" (some "ku") none),
  ("KUT", LanguageUnit.mk "Kutenai" "kut" "kut" none none),
  ("LAD", LanguageUnit.mk "Ladino" "lad" "lad" none none),
  ("LAH", LanguageUnit.mk "Lahnda" "lah" "lah" none none),
  ("LAM", LanguageUnit.mk "Lamba" "lam" "lam" none none),
  ("LAO", LanguageUnit.mk "Lao" "lao" "lao" (some "lo") none),
  ("LAT", LanguageUnit.mk "Latin" "lat" "lat" (some "la") none),
  ("LAV", LanguageUnit.mk "Latvian" "lav" "lav" (some "lv") none),
  ("LEZ", LanguageUnit.mk "Lezghian" "lez" "lez" none none),
  ("LIM", LanguageUnit.mk "Limburgan; Limburger; Limburgish" "lim" "lim" (some "li") none),
  ("LIN", LanguageUnit.mk "Lingala" "lin" "lin" (some "ln") none),
  ("LIT", LanguageUnit.mk "Lithuanian" "lit" "lit" (some "lt") none),
  ("LOL", LanguageUnit.mk "Mongo" "lol" "lol" none none),
  ("LOZ", LanguageUnit.mk "Lozi" "loz" "loz" none none),
  ("LTZ", LanguageUnit.mk "Luxembourgish; Letzeburgesch" "ltz" "ltz" (some "lb") none),
  ("LUA", LanguageUnit.mk "Luba-Lulua" "lua" "lua" none none),
  ("LUB", LanguageUnit.mk "Luba-Katanga" "lub" "lub" (some "lu") none),
  ("LUG", LanguageUnit.mk "Ganda" "lug" "lug" (some "lg") none),
  ("LUI", LanguageUnit.mk "Luiseno" "lui" "lui" none none),
  ("LUN", LanguageUnit.mk "Lunda" "lun" "lun" none none),
  ("LUO", LanguageUnit.mk "Luo (Kenya and Tanzania)" "luo" "luo" none none),
  ("LUS", LanguageUnit.mk "Lushai" "lus" "lus" none none),
  ("MAC", LanguageUnit.mk "Macedonian" "mac" "mkd" (some "mk") (some "mac")),
  ("MKD", LanguageUnit.mk "Macedonian" "mkd" "mkd" (some "mk") (some "mac")),
  ("MAD", LanguageUnit.mk "Madurese" "mad" "mad" none none),
  ("MAG", LanguageUnit.mk "Magahi" "mag" "mag" none none),
  ("MAH", LanguageUnit.mk "Marshallese" "mah" "mah" (some "mh") none),
  ("MAI", LanguageUnit.mk "Maithili" "mai" "mai" none none),
  ("MAK", LanguageUnit.mk "Makasar" "mak" "mak" none none),
  ("MAL", LanguageUnit.mk "Malayalam" "mal" "mal" (some "ml") none),
  ("MAN", LanguageUnit.mk "Mandingo" "man" "man" none none),
  ("MAO", LanguageUnit.mk "Maori" "mao" "mri" (some "mi") (some "mao")),
  ("MRI", LanguageUnit.mk "Maori" "mri" "mri" (some "mi") (some "mao")),
  ("MAP", LanguageUnit.mk "Austronesian languages" "map" "map" none none),
  ("MAR", LanguageUnit.mk "Marathi" "mar" "mar" (some "mr") none),
  ("MAS", LanguageUnit.mk "Masai" "mas" "mas" none none),
  ("MAY", LanguageUnit.mk "Malay" "may" "msa" (some "ms") (some "may")),
  ("MSA", LanguageUnit.mk "Malay" "msa" "msa" (some "ms") (some "may")),
  ("MDF", LanguageUnit.mk "Moksha" "mdf" "mdf" none none),
  ("MDR", LanguageUnit.mk "Mandar" "mdr" "mdr" none none),
  ("MEN", LanguageUnit.mk "Mende" "men" "men" none none),
  ("MGA", LanguageUnit.mk "Irish, Middle (900-1200)" "mga" "mga" none none),
  ("MIC", LanguageUnit.mk "Mi\x27kmaq; Micmac" "mic" "mic" none none),
  ("MIN", LanguageUnit.mk "Minangkabau" "min" "min" none none),
  ("MIS", LanguageUnit.mk "Uncoded languages" "mis" "mis" none none),
  ("MKH", LanguageUnit.mk "Mon-Khmer languages" "mkh" "mkh" none none),
  ("MLG", LanguageUnit.mk "Malagasy" "mlg" "mlg" (some "mg") none),
  ("MLT", LanguageUnit.mk "Maltese" "mlt" "mlt" (some "mt") none),
  ("MNC", LanguageUnit.mk "Manchu" "mnc" "mnc" none none),
  ("MNI", LanguageUnit.mk "Manipuri" "mni" "mni" none none),
  ("MNO", LanguageUnit.mk "Manobo languages" "mno" "mno" none none),
  ("MOH", LanguageUnit.mk "Mohawk" "moh" "moh" none none),
  ("MON", LanguageUnit.mk "Mongolian" "mon" "mon" (some "mn") none),
  ("MOS", LanguageUnit.mk "Mossi" "mos" "mos" none none),
  ("MUL", LanguageUnit.mk "Multiple languages" "mul" "mul" none none),
  ("MUN", LanguageUnit.mk "Munda languages" "mun" "mun" none none),
  ("MUS", LanguageUnit.mk "Creek" "mus" "mus" none none),
  ("MWL", LanguageUnit.mk "Mirandese" "mwl" "mwl" none none),
  ("MWR", LanguageUnit.mk "Marwari" "mwr" "mwr" none none),
  ("MYN", LanguageUnit.mk "Mayan languages" "myn" "myn" none none),
  ("MYV", LanguageUnit.mk "Erzya" "myv" "myv" none none),
  ("NAH", LanguageUnit.mk "Nahuatl languages" "nah" "nah" none none),
  ("NAI", LanguageUnit.mk "North American Indian languages" "nai" "nai" none none),
  ("NAP", LanguageUnit.mk "Neapolitan" "nap" "nap" none none),
  ("NAU", LanguageUnit.mk "Nauru" "nau" "nau" (some "na") none),
  ("NAV", LanguageUnit.mk "Navajo; Navaho" "nav" "nav" (some "nv") none),
  ("NBL", LanguageUnit.mk "Ndebele, South; South Ndebele" "nbl" "nbl" (some "nr") none),
  ("NDE", LanguageUnit.mk "Ndebele, North; North Ndebele" "nde" "nde" (some "nd") none),
  ("NDO", LanguageUnit.mk "Ndonga" "ndo" "ndo" (some "ng") none),
  ("NDS", LanguageUnit.mk "Low German; Low Saxon; German, Low; Saxon, Low" "nds" "nds" none none),
  ("NEP", LanguageUnit.mk "Nepali" "nep" "nep" (some "ne") none),
  ("NEW", LanguageUnit.mk "Nepal Bhasa; Newari" "new" "new" none none),
  ("NIA", LanguageUnit.mk "Nias" "nia" "nia" none none),
  ("NIC", LanguageUnit.mk "Niger-Kordofanian languages" "nic" "nic" none none),
  ("NIU", LanguageUnit.mk "Niuean" "niu" "niu" none none),
  ("NNO", LanguageUnit.mk "Norwegian Nynorsk; Nynorsk, Norwegian" "nno" "nno" (some "nn") none),
  ("NOB", LanguageUnit.mk "Bokml, Norwegian; Norwegian Bokml" "nob" "nob" (some "nb") none),
  ("NOG", LanguageUnit.mk "Nogai" "nog" "nog" none none),
  ("NON", LanguageUnit.mk "Norse, Old" "non" "non" none none),
  ("NOR", LanguageUnit.mk "Norwegian" "nor" "nor" (some "no") none),
  ("NQO", LanguageUnit.mk "N\x27Ko" "nqo" "nqo" none none),
  ("NSO", LanguageUnit.mk "Pedi; Sepedi; Northern Sotho" "nso" "nso" none none),
  ("NUB", LanguageUnit.mk "Nubian languages" "nub" "nub" none none),
  ("NWC", LanguageUnit.mk "Classical Newari; Old Newari; Classical Nepal Bhasa" "nwc" "nwc" none none),
  ("NYA", LanguageUnit.mk "Chichewa; Chewa; Nyanja" "nya" "nya" (some "ny") none),
  ("NYM", LanguageUnit.mk "Nyamwezi" "nym" "nym" none none),
  ("NYN", LanguageUnit.mk "Nyankole" "nyn" "nyn" none none),
  ("NYO", LanguageUnit.mk "Nyoro" "nyo" "nyo" none none),
  ("NZI", LanguageUnit.mk "Nzima" "nzi" "nzi" none none),
  ("OCI", LanguageUnit.mk "Occitan (post 1500)" "oci" "oci" (some "oc") none),
  ("OJI", LanguageUnit.mk "Ojibwa" "oji" "oji" (some "oj") none),
  ("ORI", LanguageUnit.mk "Oriya" "ori" "ori" (some "or") none),
  ("ORM", LanguageUnit.mk "Oromo" "orm" "orm" (some "om") none),
  ("OSA", LanguageUnit.mk "Osage" "osa" "osa" none none),
  ("OSS", LanguageUnit.mk "Ossetian; Ossetic" "oss" "oss" (some "os") none),
  ("OTA", LanguageUnit.mk "Turkish, Ottoman (1500-1928)" "ota" "ota" none none),
  ("OTO", LanguageUnit.mk "Otomian languages" "oto" "oto" none none),
  ("PAA", LanguageUnit.mk "Papuan languages" "paa" "paa" none none),
  ("PAG", LanguageUnit.mk "Pangasinan" "pag" "pag" none none),
  ("PAL", LanguageUnit.mk "Pahlavi" "pal" "pal" none none),
  ("PAM", LanguageUnit.mk "Pampanga; Kapampangan" "pam" "pam" none none),
  ("PAN", LanguageUnit.mk "Panjabi; Punjabi" "pan" "pan" (some "pa") none),
  ("PAP", LanguageUnit.mk "Papiamento" "pap" "pap" none none),
  ("PAU", LanguageUnit.mk "Palauan" "pau" "pau" none none),
  ("PEO", LanguageUnit.mk "Persian, Old (ca.600-400 B.C.)" "peo" "peo" none none),
  ("PHI", LanguageUnit.mk "Philippine languages" "phi" "phi" none none),
  ("PHN", LanguageUnit.mk "Phoenician" "phn" "phn" none none),
  ("PLI", LanguageUnit.mk "Pali" "pli" "pli" (some "pi") none),
  ("POL", LanguageUnit.mk "Polish" "pol" "pol" (some "pl") none),
  ("PON", LanguageUnit.mk "Pohnpeian" "pon" "pon" none none),
  ("POR", LanguageUnit.mk "Portuguese" "por" "por" (some "pt") none),
  ("PRA", LanguageUnit.mk "Prakrit languages" "pra" "pra" none none),
  ("PRO", LanguageUnit.mk "Provenal, Old (to 1500);Occitan, Old (to 1500)" "pro" "pro" none none),
  ("PUS", LanguageUnit.mk "Pushto; Pashto" "pus" "pus" (some "ps") none),
  ("QUE", LanguageUnit.mk "Quechua" "que" "que" (some "qu") none),
  ("RAJ", LanguageUnit.mk "Rajasthani" "raj" "raj" none none),
  ("RAP", LanguageUnit.mk "Rapanui" "rap" "rap" none none),
  ("RAR", LanguageUnit.mk "Rarotongan; Cook Islands Maori" "rar" "rar" none none),
  ("ROA", LanguageUnit.mk "Romance languages" "roa" "roa" none none),
  ("ROH", LanguageUnit.mk "Romansh" "roh" "roh" (some "rm") none),
  ("ROM", LanguageUnit.mk "Romany" "rom" "rom" none none),
  ("RUM", LanguageUnit.mk "Romanian; Moldavian; Moldovan" "rum" "ron" (some "ro") (some "rum")),
  ("RON", LanguageUnit.mk "Romanian; Moldavian; Moldovan" "ron" "ron" (some "ro") (some "rum")),
  ("RUN", LanguageUnit.mk "Rundi" "run" "run" (some "rn") none),
  ("RUP", LanguageUnit.mk "Aromanian; Arumanian; Macedo-Romanian" "rup" "rup" none none),
  ("RUS", LanguageUnit.mk "Russian" "rus" "rus" (some "ru") none),
  ("SAD", LanguageUnit.mk "Sandawe" "sad" "sad" none none),
  ("SAG", LanguageUnit.mk "Sango" "sag" "sag" (some "sg") none),
  ("SAH", LanguageUnit.mk "Yakut" "sah" "sah" none none),
  ("SAI", LanguageUnit.mk "South American Indian languages" "sai" "sai" none none),
  ("SAL", LanguageUnit.mk "Salishan languages" "sal" "sal" none none),
  ("SAM", LanguageUnit.mk "Samaritan Aramaic" "sam" "sam" none none),
  ("SAN", LanguageUnit.mk "Sanskrit" "san" "san" (some "sa") none),
  ("SAS", LanguageUnit.mk "Sasak" "sas" "sas" none none),
  ("SAT", LanguageUnit.mk "Santali" "sat" "sat" none none),
  ("SCN", LanguageUnit.mk "Sicilian" "scn" "scn" none none),
  ("SCO", LanguageUnit.mk "Scots" "sco" "sco" none none),
  ("SEL", LanguageUnit.mk "Selkup" "sel" "sel" none none),
  ("SEM", LanguageUnit.mk "Semitic languages" "sem" "sem" none none),
  ("SGA", LanguageUnit.mk "Irish, Old (to 900)" "sga" "sga" none none),
  ("SGN", LanguageUnit.mk "Sign Languages" "sgn" "sgn" none none),
  ("SHN", LanguageUnit.mk "Shan" "shn" "shn" none none),
  ("SID", LanguageUnit.mk "Sidamo" "sid" "sid" none none),
  ("SIN", LanguageUnit.mk "Sinhala; Sinhalese" "sin" "sin" (some "si") none),
  ("SIO", LanguageUnit.mk "Siouan languages" "sio" "sio" none none),
  ("SIT", LanguageUnit.mk "Sino-Tibetan languages" "sit" "sit" none none),
  ("SLA", LanguageUnit.mk "Slavic languages" "sla" "sla" none none),
  ("SLO", LanguageUnit.mk "Slovak" "slo" "slk" (some "sk") (some "slo")),
  ("SLK", LanguageUnit.mk "Slovak" "slk" "slk" (some "sk") (some "slo")),
  ("SLV", LanguageUnit.mk "Slovenian" "slv" "slv" (some "sl") none),
  ("SMA", LanguageUnit.mk "Southern Sami" "sma" "sma" none none),
  ("SME", LanguageUnit.mk "Northern Sami" "sme" "sme" (some "se") none),
  ("SMI", LanguageUnit.mk "Sami languages" "smi" "smi" none none),
  ("SMJ", LanguageUnit.mk "Lule Sami" "smj" "smj" none none),
  ("SMN", LanguageUnit.mk "Inari Sami" "smn" "smn" none none),
  ("SMO", LanguageUnit.mk "Samoan" "smo" "smo" (some "sm") none),
  ("SMS", LanguageUnit.mk "Skolt Sami" "sms" "sms" none none),
  ("SNA", LanguageUnit.mk "Shona" "sna" "sna" (some "sn") none),
  ("SND", LanguageUnit.mk "Sindhi" "snd" "snd" (some "sd") none),
  ("SNK", LanguageUnit.mk "Soninke" "snk" "snk" none none),
  ("SOG", LanguageUnit.mk "Sogdian" "sog" "sog" none none),
  ("SOM", LanguageUnit.mk "Somali" "som" "som" (some "so") none),
  ("SON", LanguageUnit.mk "Songhai languages" "son" "son" none none),
  ("SOT", LanguageUnit.mk "Sotho, Southern" "sot" "sot" (some "st") none),
  ("SPA", LanguageUnit.mk "Spanish; Castilian" "spa" "spa" (some "es") none),
  ("SRD", LanguageUnit.mk "Sardinian" "srd" "srd" (some "sc") none),
  ("SRN", LanguageUnit.mk "Sranan Tongo" "srn" "srn" none none),
  ("SRP", LanguageUnit.mk "Serbian" "srp" "srp" (some "sr") none),
  ("SRR", LanguageUnit.mk "Serer" "srr" "srr" none none),
  ("SSA", LanguageUnit.mk "Nilo-Saharan languages" "ssa" "ssa" none none),
  ("SSW", LanguageUnit.mk "Swati" "ssw" "ssw" (some "ss") none),
  ("SUK", LanguageUnit.mk "Sukuma" "suk" "suk" none none),
  ("SUN", LanguageUnit.mk "Sundanese" "sun" "sun" (some "su") none),
  ("SUS", LanguageUnit.mk "Susu" "sus" "sus" none none),
  ("SUX", LanguageUnit.mk "Sumerian" "sux" "sux" none none),
  ("SWA", LanguageUnit.mk "Swahili" "swa" "swa" (some "sw") none),
  ("SWE", LanguageUnit.mk "Swedish" "swe" "swe" (some "sv") none),
  ("SYC", LanguageUnit.mk "Classical Syriac" "syc" "syc" none none),
  ("SYR", LanguageUnit.mk "Syriac" "syr" "syr" none none),
  ("TAH", LanguageUnit.mk "Tahitian" "tah" "tah" (some "ty") none),
  ("TAI", LanguageUnit.mk "Tai languages" "tai" "tai" none none),
  ("TAM", LanguageUnit.mk "Tamil" "tam" "tam" (some "ta") none),
  ("TAT", LanguageUnit.mk "Tatar" "tat" "tat" (some "tt") none),
  ("TEL", LanguageUnit.mk "Telugu" "tel" "tel" (some "te") none),
  ("TEM", LanguageUnit.mk "Timne" "tem" "tem" none none),
  ("TER", LanguageUnit.mk "Tereno" "ter" "ter" none none),
  ("TET", LanguageUnit.mk "Tetum" "tet" "tet" none none),
  ("TGK", LanguageUnit.mk "Tajik" "tgk" "tgk" (some "tg") none),
  ("TGL", LanguageUnit.mk "Tagalog" "tgl" "tgl" (some "tl") none),
  ("THA", LanguageUnit.mk "Thai" "tha" "tha" (some "th") none),
  ("TIG", LanguageUnit.mk "Tigre" "tig" "tig" none none),
  ("TIR", LanguageUnit.mk "Tigrinya" "tir" "tir" (some "ti") none),
  ("TIV", LanguageUnit.mk "Tiv" "tiv" "tiv" none none),
  ("TKL", LanguageUnit.mk "Tokelau" "tkl" "tkl" none none),
  ("TLH", LanguageUnit.mk "Klingon; tlhIngan-Hol" "tlh" "tlh" none none),
  ("TLI", LanguageUnit.mk "Tlingit" "tli" "tli" none none),
  ("TMH", LanguageUnit.mk "Tamashek" "tmh" "tmh" none none),
  ("TOG", LanguageUnit.mk "Tonga (Nyasa)" "tog" "tog" none none),
  ("TON", LanguageUnit.mk "Tonga (Tonga Islands)" "ton" "ton" (some "to") none),
  ("TPI", LanguageUnit.mk "Tok Pisin" "tpi" "tpi" none none),
  ("TSI", LanguageUnit.mk "Tsimshian" "tsi" "tsi" none none),
  ("TSN", LanguageUnit.mk "Tswana" "tsn" "tsn" (some "tn") none),
  ("TSO", LanguageUnit.mk "Tsonga" "tso" "tso" (some "ts") none),
  ("TUK", LanguageUnit.mk "Turkmen" "tuk" "tuk" (some "tk") none),
  ("TUM", LanguageUnit.mk "Tumbuka" "tum" "tum" none none),
  ("TUP", LanguageUnit.mk "Tupi languages" "tup" "tup" none none),
  ("TUR", LanguageUnit.mk "Turkish" "tur" "tur" (some "tr") none),
  ("TUT", LanguageUnit.mk "Altaic languages" "tut" "tut" none none),
  ("TVL", LanguageUnit.mk "Tuvalu" "tvl" "tvl" none none),
  ("TWI", LanguageUnit.mk "Twi" "twi" "twi" (some "tw") none),
  ("TYV", LanguageUnit.mk "Tuvinian" "tyv" "tyv" none none),
  ("UDM", LanguageUnit.mk "Udmurt" "udm" "udm" none none),
  ("UGA", LanguageUnit.mk "Ugaritic" "uga" "uga" none none),
  ("UIG", LanguageUnit.mk "Uighur; Uyghur" "uig" "uig" (some "ug") none),
  ("UKR", LanguageUnit.mk "Ukrainian" "ukr" "ukr" (some "uk") none),
  ("UMB", LanguageUnit.mk "Umbundu" "umb" "umb" none none),
  ("UND", LanguageUnit.mk "Undetermined" "und" "und" none none),
  ("URD", LanguageUnit.mk "Urdu" "urd" "urd" (some "ur") none),
  ("UZB", LanguageUnit.mk "Uzbek" "uzb" "uzb" (some "uz") none),
  ("VAI", LanguageUnit.mk "Vai" "vai" "vai" none none),
  ("VEN", LanguageUnit.mk "Venda" "ven" "ven" (some "ve") none),
  ("VIE", LanguageUnit.mk "Vietnamese" "vie" "vie" (some "vi") none),
  ("VOL", LanguageUnit.mk "Volapk" "vol" "vol" (some "vo") none),
  ("VOT", LanguageUnit.mk "Votic" "vot" "vot" none none),
  ("WAK", LanguageUnit.mk "Wakashan languages" "wak" "wak" none none),
  ("WAL", LanguageUnit.mk "Wolaitta; Wolaytta" "wal" "wal" none none),
  ("WAR", LanguageUnit.mk "Waray" "war" "war" none none),
  ("WAS", LanguageUnit.mk "Washo" "was" "was" none none),
  ("WEN", LanguageUnit.mk "Sorbian languages" "wen" "wen" none none),
  ("WLN", LanguageUnit.mk "Walloon" "wln" "wln" (some "wa") none),
  ("WOL", LanguageUnit.mk "Wolof" "wol" "wol" (some "wo") none),
  ("XAL", LanguageUnit.mk "Kalmyk; Oirat" "xal" "xal" none none),
  ("XHO", LanguageUnit.mk "Xhosa" "xho" "xho" (some "xh") none),
  ("YAO", LanguageUnit.mk "Yao" "yao" "yao" none none),
  ("YAP", LanguageUnit.mk "Yapese" "yap" "yap" none none),
  ("YID", LanguageUnit.mk "Yiddish" "yid" "yid" (some "yi") none),
  ("YOR", LanguageUnit.mk "Yoruba" "yor" "yor" (some "yo") none),
  ("YPK", LanguageUnit.mk "Yupik languages" "ypk" "ypk" none none),
  ("ZAP", LanguageUnit.mk "Zapotec" "zap" "zap" none none),
  ("ZBL", LanguageUnit.mk "Blissymbols; Blissymbolics; Bliss" "zbl" "zbl" none none),
  ("ZEN", LanguageUnit.mk "Zenaga" "zen" "zen" none none),
  ("ZGH", LanguageUnit.mk "Standard Moroccan Tamazight" "zgh" "zgh" none none),
  ("ZHA", LanguageUnit.mk "Zhuang; Chuang" "zha" "zha" (some "za") none),
  ("ZND", LanguageUnit.mk "Zande languages" "znd" "znd" none none),
  ("ZUL", LanguageUnit.mk "Zulu" "zul" "zul" (some "zu") none),
  ("ZUN", LanguageUnit.mk "Zuni" "zun" "zun" none none),
  ("ZXX", LanguageUnit.mk "No linguistic content; Not applicable" "zxx" "zxx" none none),
  ("ZZA", LanguageUnit.mk "Zaza; Dimili; Dimli; Kirdki; Kirmanjki; Zazaki" "zza" "zza" none none)]

/-- Embedding of `_get_compare_list(language)`: the alpha-3 code, then the alpha-2 code
when the record declares one. -/
def _get_compare_list (language : LanguageUnit) : List String :=
  match language.alpha_2 with
  | some a => [language.alpha_3, a]
  | none => [language.alpha_3]

/-- Embedding of `Language(value)`: the first member whose compare list holds the query
(`_LanguageEnumType.__call__`). -/
def Language.call (value : PyVal) : Except Err LanguageUnit :=
  match (Language.members.map Prod.snd).find? (fun r => (_get_compare_list r).any (fun s => pyEq value (.str s))) with
  | some r => .ok r
  | none => .error .invalidIdentifier

/-- Embedding of `Language[name]` member-name lookup (`EnumTypeBase.__getitem__`). -/
def Language.getItem (name : String) : Except Err LanguageUnit :=
  enumGetItem Language.members name

/-- The language record declared under a member name. -/
def languageNamed (n : String) : LanguageUnit :=
  (Language.members.lookup n).getD (LanguageUnit.mk "" "" "" none none)


/-- ISO 639-3 macrolanguage mapping record (`MacroLanguageUnit`): the
macrolanguage id and the individual code element's status, `"A"` (active)
or `"R"` (retired). -/
structure MacroLanguageUnit where
  m_id : String
  i_status : String
deriving DecidableEq, Repr

/-- The `MacroLanguage` enum data: member name (the individual-language id) and record, in declaration order. -/
def MacroLanguage.members : List (String × MacroLanguageUnit) := [
  ("FAT", MacroLanguageUnit.mk "aka" "A"),
  ("TWI", MacroLanguageUnit.mk "aka" "A"),
  ("AAO", MacroLanguageUnit.mk "ara" "A"),
  ("ABH", MacroLanguageUnit.mk "ara" "A"),
  ("ABV", MacroLanguageUnit.mk "ara" "A"),
  ("ACM", MacroLanguageUnit.mk "ara" "A"),
  ("ACQ", MacroLanguageUnit.mk "ara" "A"),
  ("ACW", MacroLanguageUnit.mk "ara" "A"),
  ("ACX", MacroLanguageUnit.mk "ara" "A"),
  ("ACY", MacroLanguageUnit.mk "ara" "A"),
  ("ADF", MacroLanguageUnit.mk "ara" "A"),
  ("AEB", MacroLanguageUnit.mk "ara" "A"),
  ("AEC", MacroLanguageUnit.mk "ara" "A"),
  ("AFB", MacroLanguageUnit.mk "ara" "A"),
  ("AJP", MacroLanguageUnit.mk "ara" "R"),
  ("APC", MacroLanguageUnit.mk "ara" "A"),
  ("APD", MacroLanguageUnit.mk "ara" "A"),
  ("ARB", MacroLanguageUnit.mk "ara" "A"),
  ("ARQ", MacroLanguageUnit.mk "ara" "A"),
  ("ARS", MacroLanguageUnit.mk "ara" "A"),
  ("ARY", MacroLanguageUnit.mk "ara" "A"),
  ("ARZ", MacroLanguageUnit.mk "ara" "A"),
  ("AUZ", MacroLanguageUnit.mk "ara" "A"),
  ("AVL", MacroLanguageUnit.mk "ara" "A"),
  ("AYH", MacroLanguageUnit.mk "ara" "A"),
  ("AYL", MacroLanguageUnit.mk "ara" "A"),
  ("AYN", MacroLanguageUnit.mk "ara" "A"),
  ("AYP", MacroLanguageUnit.mk "ara" "A"),
  ("BBZ", MacroLanguageUnit.mk "ara" "R"),
  ("PGA", MacroLanguageUnit.mk "ara" "A"),
  ("SHU", MacroLanguageUnit.mk "ara" "A"),
  ("SSH", MacroLanguageUnit.mk "ara" "A"),
  ("AYC", MacroLanguageUnit.mk "aym" "A"),
  ("AYR", MacroLanguageUnit.mk "aym" "A"),
  ("AZB", MacroLanguageUnit.mk "aze" "A"),
  ("AZJ", MacroLanguageUnit.mk "aze" "A"),
  ("BCC", MacroLanguageUnit.mk "bal" "A"),
  ("BGN", MacroLanguageUnit.mk "bal" "A"),
  ("BGP", MacroLanguageUnit.mk "bal" "A"),
  ("BCL", MacroLanguageUnit.mk "bik" "A"),
  ("BHK", MacroLanguageUnit.mk "bik" "R"),
  ("BLN", MacroLanguageUnit.mk "bik" "A"),
  ("BTO", MacroLanguageUnit.mk "bik" "A"),
  ("CTS", MacroLanguageUnit.mk "bik" "A"),
  ("FBL", MacroLanguageUnit.mk "bik" "A"),
  ("LBL", MacroLanguageUnit.mk "bik" "A"),
  ("RBL", MacroLanguageUnit.mk "bik" "A"),
  ("UBL", MacroLanguageUnit.mk "bik" "A"),
  ("EBK", MacroLanguageUnit.mk "bnc" "A"),
  ("LBK", MacroLanguageUnit.mk "bnc" "A"),
  ("OBK", MacroLanguageUnit.mk "bnc" "A"),
  ("RBK", MacroLanguageUnit.mk "bnc" "A"),
  ("VBK", MacroLanguageUnit.mk "bnc" "A"),
  ("BXM", MacroLanguageUnit.mk "bua" "A"),
  ("BXR", MacroLanguageUnit.mk "bua" "A"),
  ("BXU", MacroLanguageUnit.mk "bua" "A"),
  ("MHR", MacroLanguageUnit.mk "chm" "A"),
  ("MRJ", MacroLanguageUnit.mk "chm" "A"),
  ("CRJ", MacroLanguageUnit.mk "cre" "A"),
  ("CRK", MacroLanguageUnit.mk "cre" "A"),
  ("CRL", MacroLanguageUnit.mk "cre" "A"),
  ("CRM", MacroLanguageUnit.mk "cre" "A"),
  ("CSW", MacroLanguageUnit.mk "cre" "A"),
  ("CWD", MacroLanguageUnit.mk "cre" "A"),
  ("UMU", MacroLanguageUnit.mk "del" "A"),
  ("UNM", MacroLanguageUnit.mk "del" "A"),
  ("SCS", MacroLanguageUnit.mk "den" "A"),
  ("XSL", MacroLanguageUnit.mk "den" "A"),
  ("DIB", MacroLanguageUnit.mk "din" "A"),
  ("DIK", MacroLanguageUnit.mk "din" "A"),
  ("DIP", MacroLanguageUnit.mk "din" "A"),
  ("DIW", MacroLanguageUnit.mk "din" "A"),
  ("DKS", MacroLanguageUnit.mk "din" "A"),
  ("DGO", MacroLanguageUnit.mk "doi" "A"),
  ("XNR", MacroLanguageUnit.mk "doi" "A"),
  ("EKK", MacroLanguageUnit.mk "est" "A"),
  ("VRO", MacroLanguageUnit.mk "est" "A"),
  ("PES", MacroLanguageUnit.mk "fas" "A"),
  ("PRS", MacroLanguageUnit.mk "fas" "A"),
  ("FFM", MacroLanguageUnit.mk "ful" "A"),
  ("FUB", MacroLanguageUnit.mk "ful" "A"),
  ("FUC", MacroLanguageUnit.mk "ful" "A"),
  ("FUE", MacroLanguageUnit.mk "ful" "A"),
  ("FUF", MacroLanguageUnit.mk "ful" "A"),
  ("FUH", MacroLanguageUnit.mk "ful" "A"),
  ("FUI", MacroLanguageUnit.mk "ful" "A"),
  ("FUQ", MacroLanguageUnit.mk "ful" "A"),
  ("FUV", MacroLanguageUnit.mk "ful" "A"),
  ("BDT", MacroLanguageUnit.mk "gba" "A"),
  ("GBP", MacroLanguageUnit.mk "gba" "A"),
  ("GBQ", MacroLanguageUnit.mk "gba" "A"),
  ("GMM", MacroLanguageUnit.mk "gba" "A"),
  ("GSO", MacroLanguageUnit.mk "gba" "A"),
  ("GYA", MacroLanguageUnit.mk "gba" "A"),
  ("MDO", MacroLanguageUnit.mk "gba" "R"),
  ("ESG", MacroLanguageUnit.mk "gon" "A"),
  ("GGO", MacroLanguageUnit.mk "gon" "R"),
  ("GNO", MacroLanguageUnit.mk "gon" "A"),
  ("WSG", MacroLanguageUnit.mk "gon" "A"),
  ("GBO", MacroLanguageUnit.mk "grb" "A"),
  ("GEC", MacroLanguageUnit.mk "grb" "A"),
  ("GRJ", MacroLanguageUnit.mk "grb" "A"),
  ("GRV", MacroLanguageUnit.mk "grb" "A"),
  ("GRY", MacroLanguageUnit.mk "grb" "A"),
  ("GNW", MacroLanguageUnit.mk "grn" "A"),
  ("GUG", MacroLanguageUnit.mk "grn" "A"),
  ("GUI", MacroLanguageUnit.mk "grn" "A"),
  ("GUN", MacroLanguageUnit.mk "grn" "A"),
  ("NHD", MacroLanguageUnit.mk "grn" "A"),
  ("HAX", MacroLanguageUnit.mk "hai" "A"),
  ("HDN", MacroLanguageUnit.mk "hai" "A"),
  ("BOS", MacroLanguageUnit.mk "hbs" "A"),
  ("CNR", MacroLanguageUnit.mk "hbs" "A"),
  ("HRV", MacroLanguageUnit.mk "hbs" "A"),
  ("SRP", MacroLanguageUnit.mk "hbs" "A"),
  ("BLU", MacroLanguageUnit.mk "hmn" "R"),
  ("CQD", MacroLanguageUnit.mk "hmn" "A"),
  ("HEA", MacroLanguageUnit.mk "hmn" "A"),
  ("HMA", MacroLanguageUnit.mk "hmn" "A"),
  ("HMC", MacroLanguageUnit.mk "hmn" "A"),
  ("HMD", MacroLanguageUnit.mk "hmn" "A"),
  ("HME", MacroLanguageUnit.mk "hmn" "A"),
  ("HMG", MacroLanguageUnit.mk "hmn" "A"),
  ("HMH", MacroLanguageUnit.mk "hmn" "A"),
  ("HMI", MacroLanguageUnit.mk "hmn" "A"),
  ("HMJ", MacroLanguageUnit.mk "hmn" "A"),
  ("HML", MacroLanguageUnit.mk "hmn" "A"),
  ("HMM", MacroLanguageUnit.mk "hmn" "A"),
  ("HMP", MacroLanguageUnit.mk "hmn" "A"),
  ("HMQ", MacroLanguageUnit.mk "hmn" "A"),
  ("HMS", MacroLanguageUnit.mk "hmn" "A"),
  ("HMW", MacroLanguageUnit.mk "hmn" "A"),
  ("HMY", MacroLanguageUnit.mk "hmn" "A"),
  ("HMZ", MacroLanguageUnit.mk "hmn" "A"),
  ("HNJ", MacroLanguageUnit.mk "hmn" "A"),
  ("HRM", MacroLanguageUnit.mk "hmn" "A"),
  ("HUJ", MacroLanguageUnit.mk "hmn" "A"),
  ("MMR", MacroLanguageUnit.mk "hmn" "A"),
  ("MUQ", MacroLanguageUnit.mk "hmn" "A"),
  ("MWW", MacroLanguageUnit.mk "hmn" "A"),
  ("SFM", MacroLanguageUnit.mk "hmn" "A"),
  ("IKE", MacroLanguageUnit.mk "iku" "A"),
  ("IKT", MacroLanguageUnit.mk "iku" "A"),
  ("ESI", MacroLanguageUnit.mk "ipk" "A"),
  ("ESK", MacroLanguageUnit.mk "ipk" "A"),
  ("AJT", MacroLanguageUnit.mk "jrb" "R"),
  ("AJU", MacroLanguageUnit.mk "jrb" "A"),
  ("JYE", MacroLanguageUnit.mk "jrb" "A"),
  ("YHD", MacroLanguageUnit.mk "jrb" "A"),
  ("YUD", MacroLanguageUnit.mk "jrb" "A"),
  ("KBY", MacroLanguageUnit.mk "kau" "A"),
  ("KNC", MacroLanguageUnit.mk "kau" "A"),
  ("KRT", MacroLanguageUnit.mk "kau" "A"),
  ("ENB", MacroLanguageUnit.mk "kln" "A"),
  ("EYO", MacroLanguageUnit.mk "kln" "A"),
  ("NIQ", MacroLanguageUnit.mk "kln" "A"),
  ("OKI", MacroLanguageUnit.mk "kln" "A"),
  ("PKO", MacroLanguageUnit.mk "kln" "A"),
  ("SGC", MacroLanguageUnit.mk "kln" "A"),
  ("SPY", MacroLanguageUnit.mk "kln" "A"),
  ("TEC", MacroLanguageUnit.mk "kln" "A"),
  ("TUY", MacroLanguageUnit.mk "kln" "A"),
  ("GOM", MacroLanguageUnit.mk "kok" "A"),
  ("KNN", MacroLanguageUnit.mk "kok" "A"),
  ("KOI", MacroLanguageUnit.mk "kom" "A"),
  ("KPV", MacroLanguageUnit.mk "kom" "A"),
  ("KNG", MacroLanguageUnit.mk "kon" "A"),
  ("KWY", MacroLanguageUnit.mk "kon" "A"),
  ("LDI", MacroLanguageUnit.mk "kon" "A"),
  ("GKP", MacroLanguageUnit.mk "kpe" "A"),
  ("XPE", MacroLanguageUnit.mk "kpe" "A"),
  ("CKB", MacroLanguageUnit.mk "kur" "A"),
  ("KMR", MacroLanguageUnit.mk "kur" "A"),
  ("SDH", MacroLanguageUnit.mk "kur" "A"),
  ("HND", MacroLanguageUnit.mk "lah" "A"),
  ("HNO", MacroLanguageUnit.mk "lah" "A"),
  ("JAT", MacroLanguageUnit.mk "lah" "A"),
  ("PHR", MacroLanguageUnit.mk "lah" "A"),
  ("PMU", MacroLanguageUnit.mk "lah" "R"),
  ("PNB", MacroLanguageUnit.mk "lah" "A"),
  ("SKR", MacroLanguageUnit.mk "lah" "A"),
  ("XHE", MacroLanguageUnit.mk "lah" "A"),
  ("LTG", MacroLanguageUnit.mk "lav" "A"),
  ("LVS", MacroLanguageUnit.mk "lav" "A"),
  ("BXK", MacroLanguageUnit.mk "luy" "A"),
  ("IDA", MacroLanguageUnit.mk "luy" "A"),
  ("LKB", MacroLanguageUnit.mk "luy" "A"),
  ("LKO", MacroLanguageUnit.mk "luy" "A"),
  ("LKS", MacroLanguageUnit.mk "luy" "A"),
  ("LRI", MacroLanguageUnit.mk "luy" "A"),
  ("LRM", MacroLanguageUnit.mk "luy" "A"),
  ("LSM", MacroLanguageUnit.mk "luy" "A"),
  ("LTO", MacroLanguageUnit.mk "luy" "A"),
  ("LTS", MacroLanguageUnit.mk "luy" "A"),
  ("LWG", MacroLanguageUnit.mk "luy" "A"),
  ("NLE", MacroLanguageUnit.mk "luy" "A"),
  ("NYD", MacroLanguageUnit.mk "luy" "A"),
  ("RAG", MacroLanguageUnit.mk "luy" "A"),
  ("EMK", MacroLanguageUnit.mk "man" "A"),
  ("MKU", MacroLanguageUnit.mk "man" "A"),
  ("MLQ", MacroLanguageUnit.mk "man" "A"),
  ("MNK", MacroLanguageUnit.mk "man" "A"),
  ("MSC", MacroLanguageUnit.mk "man" "A"),
  ("MWK", MacroLanguageUnit.mk "man" "A"),
  ("MYQ", MacroLanguageUnit.mk "man" "R"),
  ("BHR", MacroLanguageUnit.mk "mlg" "A"),
  ("BJQ", MacroLanguageUnit.mk "mlg" "R"),
  ("BMM", MacroLanguageUnit.mk "mlg" "A"),
  ("BZC", MacroLanguageUnit.mk "mlg" "A"),
  ("MSH", MacroLanguageUnit.mk "mlg" "A"),
  ("PLT", MacroLanguageUnit.mk "mlg" "A"),
  ("SKG", MacroLanguageUnit.mk "mlg" "A"),
  ("TDX", MacroLanguageUnit.mk "mlg" "A"),
  ("TKG", MacroLanguageUnit.mk "mlg" "A"),
  ("TXY", MacroLanguageUnit.mk "mlg" "A"),
  ("XMV", MacroLanguageUnit.mk "mlg" "A"),
  ("XMW", MacroLanguageUnit.mk "mlg" "A"),
  ("KHK", MacroLanguageUnit.mk "mon" "A"),
  ("MVF", MacroLanguageUnit.mk "mon" "A"),
  ("BJN", MacroLanguageUnit.mk "msa" "A"),
  ("BTJ", MacroLanguageUnit.mk "msa" "A"),
  ("BVE", MacroLanguageUnit.mk "msa" "A"),
  ("BVU", MacroLanguageUnit.mk "msa" "A"),
  ("COA", MacroLanguageUnit.mk "msa" "A"),
  ("DUP", MacroLanguageUnit.mk "msa" "A"),
  ("HJI", MacroLanguageUnit.mk "msa" "A"),
  ("IND", MacroLanguageUnit.mk "msa" "A"),
  ("JAK", MacroLanguageUnit.mk "msa" "A"),
  ("JAX", MacroLanguageUnit.mk "msa" "A"),
  ("KVB", MacroLanguageUnit.mk "msa" "A"),
  ("KVR", MacroLanguageUnit.mk "msa" "A"),
  ("KXD", MacroLanguageUnit.mk "msa" "A"),
  ("LCE", MacroLanguageUnit.mk "msa" "A"),
  ("LCF", MacroLanguageUnit.mk "msa" "A"),
  ("LIW", MacroLanguageUnit.mk "msa" "A"),
  ("MAX", MacroLanguageUnit.mk "msa" "A"),
  ("MEO", MacroLanguageUnit.mk "msa" "A"),
  ("MFA", MacroLanguageUnit.mk "msa" "A"),
  ("MFB", MacroLanguageUnit.mk "msa" "A"),
  ("MIN", MacroLanguageUnit.mk "msa" "A"),
  ("MLY", MacroLanguageUnit.mk "msa" "R"),
  ("MQG", MacroLanguageUnit.mk "msa" "A"),
  ("MSI", MacroLanguageUnit.mk "msa" "A"),
  ("MUI", MacroLanguageUnit.mk "msa" "A"),
  ("ORN", MacroLanguageUnit.mk "msa" "A"),
  ("ORS", MacroLanguageUnit.mk "msa" "A"),
  ("PEL", MacroLanguageUnit.mk "msa" "A"),
  ("PSE", MacroLanguageUnit.mk "msa" "A"),
  ("TMW", MacroLanguageUnit.mk "msa" "A"),
  ("URK", MacroLanguageUnit.mk "msa" "A"),
  ("VKK", MacroLanguageUnit.mk "msa" "A"),
  ("VKT", MacroLanguageUnit.mk "msa" "A"),
  ("XMM", MacroLanguageUnit.mk "msa" "A"),
  ("ZLM", MacroLanguageUnit.mk "msa" "A"),
  ("ZMI", MacroLanguageUnit.mk "msa" "A"),
  ("ZSM", MacroLanguageUnit.mk "msa" "A"),
  ("DHD", MacroLanguageUnit.mk "mwr" "A"),
  ("MTR", MacroLanguageUnit.mk "mwr" "A"),
  ("MVE", MacroLanguageUnit.mk "mwr" "A"),
  ("RWR", MacroLanguageUnit.mk "mwr" "A"),
  ("SWV", MacroLanguageUnit.mk "mwr" "A"),
  ("WRY", MacroLanguageUnit.mk "mwr" "A"),
  ("DTY", MacroLanguageUnit.mk "nep" "A"),
  ("NPI", MacroLanguageUnit.mk "nep" "A"),
  ("NNO", MacroLanguageUnit.mk "nor" "A"),
  ("NOB", MacroLanguageUnit.mk "nor" "A"),
  ("CIW", MacroLanguageUnit.mk "oji" "A"),
  ("OJB", MacroLanguageUnit.mk "oji" "A"),
  ("OJC", MacroLanguageUnit.mk "oji" "A"),
  ("OJG", MacroLanguageUnit.mk "oji" "A"),
  ("OJS", MacroLanguageUnit.mk "oji" "A"),
  ("OJW", MacroLanguageUnit.mk "oji" "A"),
  ("OTW", MacroLanguageUnit.mk "oji" "A"),
  ("ORY", MacroLanguageUnit.mk "ori" "A"),
  ("SPV", MacroLanguageUnit.mk "ori" "A"),
  ("GAX", MacroLanguageUnit.mk "orm" "A"),
  ("GAZ", MacroLanguageUnit.mk "orm" "A"),
  ("HAE", MacroLanguageUnit.mk "orm" "A"),
  ("ORC", MacroLanguageUnit.mk "orm" "A"),
  ("PBT", MacroLanguageUnit.mk "pus" "A"),
  ("PBU", MacroLanguageUnit.mk "pus" "A"),
  ("PST", MacroLanguageUnit.mk "pus" "A"),
  ("CQU", MacroLanguageUnit.mk "que" "R"),
  ("QUB", MacroLanguageUnit.mk "que" "A"),
  ("QUD", MacroLanguageUnit.mk "que" "A"),
  ("QUF", MacroLanguageUnit.mk "que" "A"),
  ("QUG", MacroLanguageUnit.mk "que" "A"),
  ("QUH", MacroLanguageUnit.mk "que" "A"),
  ("QUK", MacroLanguageUnit.mk "que" "A"),
  ("QUL", MacroLanguageUnit.mk "que" "A"),
  ("QUP", MacroLanguageUnit.mk "que" "A"),
  ("QUR", MacroLanguageUnit.mk "que" "A"),
  ("QUS", MacroLanguageUnit.mk "que" "A"),
  ("QUW", MacroLanguageUnit.mk "que" "A"),
  ("QUX", MacroLanguageUnit.mk "que" "A"),
  ("QUY", MacroLanguageUnit.mk "que" "A"),
  ("QUZ", MacroLanguageUnit.mk "que" "A"),
  ("QVA", MacroLanguageUnit.mk "que" "A"),
  ("QVC", MacroLanguageUnit.mk "que" "A"),
  ("QVE", MacroLanguageUnit.mk "que" "A"),
  ("QVH", MacroLanguageUnit.mk "que" "A"),
  ("QVI", MacroLanguageUnit.mk "que" "A"),
  ("QVJ", MacroLanguageUnit.mk "que" "A"),
  ("QVL", MacroLanguageUnit.mk "que" "A"),
  ("QVM", MacroLanguageUnit.mk "que" "A"),
  ("QVN", MacroLanguageUnit.mk "que" "A"),
  ("QVO", MacroLanguageUnit.mk "que" "A"),
  ("QVP", MacroLanguageUnit.mk "que" "A"),
  ("QVS", MacroLanguageUnit.mk "que" "A"),
  ("QVW", MacroLanguageUnit.mk "que" "A"),
  ("QVZ", MacroLanguageUnit.mk "que" "A"),
  ("QWA", MacroLanguageUnit.mk "que" "A"),
  ("QWC", MacroLanguageUnit.mk "que" "A"),
  ("QWH", MacroLanguageUnit.mk "que" "A"),
  ("QWS", MacroLanguageUnit.mk "que" "A"),
  ("QXA", MacroLanguageUnit.mk "que" "A"),
  ("QXC", MacroLanguageUnit.mk "que" "A"),
  ("QXH", MacroLanguageUnit.mk "que" "A"),
  ("QXL", MacroLanguageUnit.mk "que" "A"),
  ("QXN", MacroLanguageUnit.mk "que" "A"),
  ("QXO", MacroLanguageUnit.mk "que" "A"),
  ("QXP", MacroLanguageUnit.mk "que" "A"),
  ("QXR", MacroLanguageUnit.mk "que" "A"),
  ("QXT", MacroLanguageUnit.mk "que" "A"),
  ("QXU", MacroLanguageUnit.mk "que" "A"),
  ("QXW", MacroLanguageUnit.mk "que" "A"),
  ("BGQ", MacroLanguageUnit.mk "raj" "A"),
  ("GDA", MacroLanguageUnit.mk "raj" "A"),
  ("GJU", MacroLanguageUnit.mk "raj" "A"),
  ("HOJ", MacroLanguageUnit.mk "raj" "A"),
  ("MUP", MacroLanguageUnit.mk "raj" "A"),
  ("WBR", MacroLanguageUnit.mk "raj" "A"),
  ("RMC", MacroLanguageUnit.mk "rom" "A"),
  ("RMF", MacroLanguageUnit.mk "rom" "A"),
  ("RML", MacroLanguageUnit.mk "rom" "A"),
  ("RMN", MacroLanguageUnit.mk "rom" "A"),
  ("RMO", MacroLanguageUnit.mk "rom" "A"),
  ("RMW", MacroLanguageUnit.mk "rom" "A"),
  ("RMY", MacroLanguageUnit.mk "rom" "A"),
  ("CLS", MacroLanguageUnit.mk "san" "A"),
  ("VSN", MacroLanguageUnit.mk "san" "A"),
  ("AAE", MacroLanguageUnit.mk "sqi" "A"),
  ("AAT", MacroLanguageUnit.mk "sqi" "A"),
  ("ALN", MacroLanguageUnit.mk "sqi" "A"),
  ("ALS", MacroLanguageUnit.mk "sqi" "A"),
  ("SDC", MacroLanguageUnit.mk "srd" "A"),
  ("SDN", MacroLanguageUnit.mk "srd" "A"),
  ("SRC", MacroLanguageUnit.mk "srd" "A"),
  ("SRO", MacroLanguageUnit.mk "srd" "A"),
  ("SWC", MacroLanguageUnit.mk "swa" "A"),
  ("SWH", MacroLanguageUnit.mk "swa" "A"),
  ("AII", MacroLanguageUnit.mk "syr" "A"),
  ("CLD", MacroLanguageUnit.mk "syr" "A"),
  ("TAQ", MacroLanguageUnit.mk "tmh" "A"),
  ("THV", MacroLanguageUnit.mk "tmh" "A"),
  ("THZ", MacroLanguageUnit.mk "tmh" "A"),
  ("TTQ", MacroLanguageUnit.mk "tmh" "A"),
  ("UZN", MacroLanguageUnit.mk "uzb" "A"),
  ("UZS", MacroLanguageUnit.mk "uzb" "A"),
  ("YDD", MacroLanguageUnit.mk "yid" "A"),
  ("YIH", MacroLanguageUnit.mk "yid" "A"),
  ("ZAA", MacroLanguageUnit.mk "zap" "A"),
  ("ZAB", MacroLanguageUnit.mk "zap" "A"),
  ("ZAC", MacroLanguageUnit.mk "zap" "A"),
  ("ZAD", MacroLanguageUnit.mk "zap" "A"),
  ("ZAE", MacroLanguageUnit.mk "zap" "A"),
  ("ZAF", MacroLanguageUnit.mk "zap" "A"),
  ("ZAI", MacroLanguageUnit.mk "zap" "A"),
  ("ZAM", MacroLanguageUnit.mk "zap" "A"),
  ("ZAO", MacroLanguageUnit.mk "zap" "A"),
  ("ZAQ", MacroLanguageUnit.mk "zap" "A"),
  ("ZAR", MacroLanguageUnit.mk "zap" "A"),
  ("ZAS", MacroLanguageUnit.mk "zap" "A"),
  ("ZAT", MacroLanguageUnit.mk "zap" "A"),
  ("ZAV", MacroLanguageUnit.mk "zap" "A"),
  ("ZAW", MacroLanguageUnit.mk "zap" "A"),
  ("ZAX", MacroLanguageUnit.mk "zap" "A"),
  ("ZCA", MacroLanguageUnit.mk "zap" "A"),
  ("ZCD", MacroLanguageUnit.mk "zap" "A"),
  ("ZOO", MacroLanguageUnit.mk "zap" "A"),
  ("ZPA", MacroLanguageUnit.mk "zap" "A"),
  ("ZPB", MacroLanguageUnit.mk "zap" "A"),
  ("ZPC", MacroLanguageUnit.mk "zap" "A"),
  ("ZPD", MacroLanguageUnit.mk "zap" "A"),
  ("ZPE", MacroLanguageUnit.mk "zap" "A"),
  ("ZPF", MacroLanguageUnit.mk "zap" "A"),
  ("ZPG", MacroLanguageUnit.mk "zap" "A"),
  ("ZPH", MacroLanguageUnit.mk "zap" "A"),
  ("ZPI", MacroLanguageUnit.mk "zap" "A"),
  ("ZPJ", MacroLanguageUnit.mk "zap" "A"),
  ("ZPK", MacroLanguageUnit.mk "zap" "A"),
  ("ZPL", MacroLanguageUnit.mk "zap" "A"),
  ("ZPM", MacroLanguageUnit.mk "zap" "A"),
  ("ZPN", MacroLanguageUnit.mk "zap" "A"),
  ("ZPO", MacroLanguageUnit.mk "zap" "A"),
  ("ZPP", MacroLanguageUnit.mk "zap" "A"),
  ("ZPQ", MacroLanguageUnit.mk "zap" "A"),
  ("ZPR", MacroLanguageUnit.mk "zap" "A"),
  ("ZPS", MacroLanguageUnit.mk "zap" "A"),
  ("ZPT", MacroLanguageUnit.mk "zap" "A"),
  ("ZPU", MacroLanguageUnit.mk "zap" "A"),
  ("ZPV", MacroLanguageUnit.mk "zap" "A"),
  ("ZPW", MacroLanguageUnit.mk "zap" "A"),
  ("ZPX", MacroLanguageUnit.mk "zap" "A"),
  ("ZPY", MacroLanguageUnit.mk "zap" "A"),
  ("ZPZ", MacroLanguageUnit.mk "zap" "A"),
  ("ZSR", MacroLanguageUnit.mk "zap" "A"),
  ("ZTC", MacroLanguageUnit.mk "zap" "R"),
  ("ZTE", MacroLanguageUnit.mk "zap" "A"),
  ("ZTG", MacroLanguageUnit.mk "zap" "A"),
  ("ZTL", MacroLanguageUnit.mk "zap" "A"),
  ("ZTM", MacroLanguageUnit.mk "zap" "A"),
  ("ZTN", MacroLanguageUnit.mk "zap" "A"),
  ("ZTP", MacroLanguageUnit.mk "zap" "A"),
  ("ZTQ", MacroLanguageUnit.mk "zap" "A"),
  ("ZTS", MacroLanguageUnit.mk "zap" "A"),
  ("ZTT", MacroLanguageUnit.mk "zap" "A"),
  ("ZTU", MacroLanguageUnit.mk "zap" "A"),
  ("ZTX", MacroLanguageUnit.mk "zap" "A"),
  ("ZTY", MacroLanguageUnit.mk "zap" "A"),
  ("CCX", MacroLanguageUnit.mk "zha" "R"),
  ("CCY", MacroLanguageUnit.mk "zha" "R"),
  ("ZCH", MacroLanguageUnit.mk "zha" "A"),
  ("ZEH", MacroLanguageUnit.mk "zha" "A"),
  ("ZGB", MacroLanguageUnit.mk "zha" "A"),
  ("ZGM", MacroLanguageUnit.mk "zha" "A"),
  ("ZGN", MacroLanguageUnit.mk "zha" "A"),
  ("ZHD", MacroLanguageUnit.mk "zha" "A"),
  ("ZHN", MacroLanguageUnit.mk "zha" "A"),
  ("ZLJ", MacroLanguageUnit.mk "zha" "A"),
  ("ZLN", MacroLanguageUnit.mk "zha" "A"),
  ("ZLQ", MacroLanguageUnit.mk "zha" "A"),
  ("ZQE", MacroLanguageUnit.mk "zha" "A"),
  ("ZYB", MacroLanguageUnit.mk "zha" "A"),
  ("ZYG", MacroLanguageUnit.mk "zha" "A"),
  ("ZYJ", MacroLanguageUnit.mk "zha" "A"),
  ("ZYN", MacroLanguageUnit.mk "zha" "A"),
  ("ZZJ", MacroLanguageUnit.mk "zha" "A"),
  ("CDO", MacroLanguageUnit.mk "zho" "A"),
  ("CJY", MacroLanguageUnit.mk "zho" "A"),
  ("CMN", MacroLanguageUnit.mk "zho" "A"),
  ("CNP", MacroLanguageUnit.mk "zho" "A"),
  ("CPX", MacroLanguageUnit.mk "zho" "A"),
  ("CSP", MacroLanguageUnit.mk "zho" "A"),
  ("CZH", MacroLanguageUnit.mk "zho" "A"),
  ("CZO", MacroLanguageUnit.mk "zho" "A"),
  ("GAN", MacroLanguageUnit.mk "zho" "A"),
  ("HAK", MacroLanguageUnit.mk "zho" "A"),
  ("HSN", MacroLanguageUnit.mk "zho" "A"),
  ("LZH", MacroLanguageUnit.mk "zho" "A"),
  ("MNP", MacroLanguageUnit.mk "zho" "A"),
  ("NAN", MacroLanguageUnit.mk "zho" "A"),
  ("WUU", MacroLanguageUnit.mk "zho" "A"),
  ("YUE", MacroLanguageUnit.mk "zho" "A"),
  ("DIQ", MacroLanguageUnit.mk "zza" "A"),
  ("KIU", MacroLanguageUnit.mk "zza" "A")]

/-- Embedding of `_is_macro_language_valid(val, language, i_status)`: the record matches
the (already lowercased) id, and the status filter when one is given. -/
def _is_macro_language_valid (val : String) (language : MacroLanguageUnit) (i_status : Option String) : Bool :=
  if language.m_id != val then false
  else if i_status.isNone || language.i_status == i_status.iget then true
  else false

/-- The allowed `i_status` values (`allowed_i_statuses`). -/
def allowed_i_statuses : List String := ["A", "R"]

/-- Embedding of `_validate_i_status`: `true` when the sanity check passes (`None` or a
member of `allowed_i_statuses`); the source raises `ValueError` otherwise. -/
def _validate_i_status (i_status : Option String) : Bool :=
  match i_status with
  | none => true
  | some s => allowed_i_statuses.contains s

/-- Embedding of `MacroLanguage(value, i_status=...)`: validate the filter, lowercase the
query, collect every member whose `m_id` matches, and fail when the
collection is empty (`_MacroLanguageUnitEnumType.__call__`). -/
def MacroLanguage.call (value : String) (i_status : Option String) : Except Err (List MacroLanguageUnit) :=
  if !_validate_i_status i_status then .error .invalidOption
  else
    let val := pyLower value
    let languages := (MacroLanguage.members.map Prod.snd).filter (fun language => _is_macro_language_valid val language i_status)
    if !languages.isEmpty then .ok languages
    else .error .invalidIdentifier

/-- Embedding of `MacroLanguage[name]` member-name lookup (`EnumTypeBase.__getitem__`). -/
def MacroLanguage.getItem (name : String) : Except Err MacroLanguageUnit :=
  enumGetItem MacroLanguage.members name


/-- Phone record (`PhoneUnit` in `phones.py`): the country record, the
international calling code, and the list of disambiguating prefixes. -/
structure PhoneUnit where
  country : CountryUnit
  calling_code : Int
  prefixes : List Int
deriving DecidableEq, Repr

/-- Embedding of `PhoneUnitBase.is_prefix_supported`: true when the record declares no
prefixes, no prefix was supplied, or the supplied prefix is in the list. -/
def PhoneUnit.is_prefix_supported (u : PhoneUnit) (pfx : Option Int) : Bool :=
  if u.prefixes.isEmpty || pfx.isNone then true
  else u.prefixes.contains pfx.iget

/-- The `Phone` enum data: member name and record, in declaration order (commented-out source members are absent). -/
def Phone.members : List (String × PhoneUnit) := [
  ("BD", PhoneUnit.mk (countryNamed "BD") 880 []),
  ("BE", PhoneUnit.mk (countryNamed "BE") 32 []),
  ("BF", PhoneUnit.mk (countryNamed "BF") 226 []),
  ("BG", PhoneUnit.mk (countryNamed "BG") 359 []),
  ("BA", PhoneUnit.mk (countryNamed "BA") 387 []),
  ("BB", PhoneUnit.mk (countryNamed "BB") 1 [246]),
  ("WF", PhoneUnit.mk (countryNamed "WF") 681 []),
  ("BL", PhoneUnit.mk (countryNamed "BL") 590 []),
  ("BM", PhoneUnit.mk (countryNamed "BM") 1 [441]),
  ("BN", PhoneUnit.mk (countryNamed "BN") 673 []),
  ("BO", PhoneUnit.mk (countryNamed "BO") 591 []),
  ("BH", PhoneUnit.mk (countryNamed "BH") 973 []),
  ("BI", PhoneUnit.mk (countryNamed "BI") 257 []),
  ("BJ", PhoneUnit.mk (countryNamed "BJ") 229 []),
  ("BT", PhoneUnit.mk (countryNamed "BT") 975 []),
  ("JM", PhoneUnit.mk (countryNamed "JM") 1 [876]),
  ("BW", PhoneUnit.mk (countryNamed "BW") 267 []),
  ("WS", PhoneUnit.mk (countryNamed "WS") 685 []),
  ("BQ", PhoneUnit.mk (countryNamed "BQ") 599 []),
  ("BR", PhoneUnit.mk (countryNamed "BR") 55 []),
  ("BS", PhoneUnit.mk (countryNamed "BS") 1 [242]),
  ("JE", PhoneUnit.mk (countryNamed "JE") 44 [1534]),
  ("BY", PhoneUnit.mk (countryNamed "BY") 375 []),
  ("BZ", PhoneUnit.mk (countryNamed "BZ") 501 []),
  ("RU", PhoneUnit.mk (countryNamed "RU") 7 []),
  ("RW", PhoneUnit.mk (countryNamed "RW") 250 []),
  ("RS", PhoneUnit.mk (countryNamed "RS") 381 []),
  ("TL", PhoneUnit.mk (countryNamed "TL") 670 []),
  ("RE", PhoneUnit.mk (countryNamed "RE") 262 []),
  ("TM", PhoneUnit.mk (countryNamed "TM") 993 []),
  ("TJ", PhoneUnit.mk (countryNamed "TJ") 992 []),
  ("RO", PhoneUnit.mk (countryNamed "RO") 40 []),
  ("TK", PhoneUnit.mk (countryNamed "TK") 690 []),
  ("GW", PhoneUnit.mk (countryNamed "GW") 245 []),
  ("GU", PhoneUnit.mk (countryNamed "GU") 1 [671]),
  ("GT", PhoneUnit.mk (countryNamed "GT") 502 []),
  ("GR", PhoneUnit.mk (countryNamed "GR") 30 []),
  ("GQ", PhoneUnit.mk (countryNamed "GQ") 240 []),
  ("GP", PhoneUnit.mk (countryNamed "GP") 590 []),
  ("JP", PhoneUnit.mk (countryNamed "JP") 81 []),
  ("GY", PhoneUnit.mk (countryNamed "GY") 592 []),
  ("GG", PhoneUnit.mk (countryNamed "GG") 44 [1481]),
  ("GF", PhoneUnit.mk (countryNamed "GF") 594 []),
  ("GE", PhoneUnit.mk (countryNamed "GE") 995 []),
  ("GD", PhoneUnit.mk (countryNamed "GD") 1 [473]),
  ("GB", PhoneUnit.mk (countryNamed "GB") 44 [1224, 1235, 1339, 1252, 1507, 1259, 1420, 1269, 1264, 1461, 1241, 1294, 1301, 1276, 1335, 1364, 1233, 1297, 1296, 1292, 1295, 1330, 1261, 1248, 1341, 1226, 1271, 1229, 1446, 1246, 1225, 1506, 1234, 1434, 1289, 1299, 1237, 121, 1388, 1279, 1254, 1253, 1250, 1258, 1208, 1204, 1423, 1205, 1202, 1451, 1344, 1274, 1376, 1356, 1277, 1278, 1262, 1308, 1273, 117, 1275, 1471, 1508, 1280, 1288, 1395, 1425, 1282, 1543, 1283, 1284, 1298, 1286, 1223, 1227, 29, 1239, 1228, 1267, 1556, 1300, 1460, 1245, 1242, 1244, 1246, 1243, 1249, 1285, 1255, 1200, 1437, 1530, 1236, 1206, 1492, 1260, 1477, 1207, 1257, 1490, 24, 1340, 1363, 1270, 1263, 1290, 1325, 1332, 1362, 1380, 1349, 1379, 1485, 1354, 1302, 1305, 1304, 1366, 1377, 1398, 1389, 1387, 1368, 1382, 1383, 1350, 1369, 1361, 191, 1453, 1347, 1342, 1355, 1357, 1323, 1470, 131, 1343, 1358, 1353, 1372, 1392, 1328, 1324, 1326, 1329, 1489, 1367, 1348, 1303, 1561, 1307, 1309, 1320, 1397, 1381, 1346, 1373, 1427, 1445, 1465, 141, 1458, 1456, 1457, 1452, 1408, 1405, 1476, 1479, 1474, 1371, 1488, 1493, 1475, 1472, 1483, 1287, 1422, 1501, 1429, 1428, 1424, 1433, 1440, 1450, 1497, 1444, 1435, 1436, 1431, 1439, 1432, 1494, 1455, 1462, 1406, 1409, 1407, 1400, 1404, 1403, 1484, 1482, 1480, 1466, 1464, 1499, 1463, 1467, 1473, 1505, 1535, 1542, 1573, 1539, 1536, 1538, 1360, 1567, 1469, 1563, 1553, 1548, 1544, 1540, 1577, 1557, 1575, 1438, 1547, 1565, 1337, 1528, 1549, 1570, 1555, 1524, 1564, 1578, 1566, 113, 116, 1525, 1568, 1522, 151, 1545, 1558, 1550, 1559, 1554, 1520, 1546, 1571, 1576, 20, 1503, 1509, 1502, 161, 1430, 1442, 1526, 1352, 1560, 1491, 1293, 1306, 28, 115, 1572, 1359, 1333, 1334, 1495, 1443, 1496, 1478, 23, 1454, 118, 1527, 1209, 114, 1291, 1394, 1529, 1268, 1375, 1569, 1384, 1386, 1562, 1449, 1322, 1487, 1327]),
  ("GA", PhoneUnit.mk (countryNamed "GA") 241 []),
  ("SV", PhoneUnit.mk (countryNamed "SV") 503 []),
  ("GN", PhoneUnit.mk (countryNamed "GN") 224 []),
  ("GM", PhoneUnit.mk (countryNamed "GM") 220 []),
  ("GL", PhoneUnit.mk (countryNamed "GL") 299 []),
  ("GI", PhoneUnit.mk (countryNamed "GI") 350 []),
  ("GH", PhoneUnit.mk (countryNamed "GH") 233 []),
  ("OM", PhoneUnit.mk (countryNamed "OM") 968 []),
  ("TN", PhoneUnit.mk (countryNamed "TN") 216 []),
  ("JO", PhoneUnit.mk (countryNamed "JO") 962 []),
  ("HR", PhoneUnit.mk (countryNamed "HR") 385 []),
  ("HT", PhoneUnit.mk (countryNamed "HT") 509 []),
  ("HU", PhoneUnit.mk (countryNamed "HU") 36 []),
  ("HK", PhoneUnit.mk (countryNamed "HK") 852 []),
  ("HN", PhoneUnit.mk (countryNamed "HN") 504 []),
  ("VE", PhoneUnit.mk (countryNamed "VE") 58 []),
  ("PR", PhoneUnit.mk (countryNamed "PR") 1 [787, 939]),
  ("PS", PhoneUnit.mk (countryNamed "PS") 970 []),
  ("PW", PhoneUnit.mk (countryNamed "PW") 680 []),
  ("PT", PhoneUnit.mk (countryNamed "PT") 351 []),
  ("SJ", PhoneUnit.mk (countryNamed "SJ") 47 []),
  ("PY", PhoneUnit.mk (countryNamed "PY") 595 []),
  ("IQ", PhoneUnit.mk (countryNamed "IQ") 964 []),
  ("PA", PhoneUnit.mk (countryNamed "PA") 507 []),
  ("PF", PhoneUnit.mk (countryNamed "PF") 689 []),
  ("PG", PhoneUnit.mk (countryNamed "PG") 675 []),
  ("PE", PhoneUnit.mk (countryNamed "PE") 51 []),
  ("PK", PhoneUnit.mk (countryNamed "PK") 92 []),
  ("PH", PhoneUnit.mk (countryNamed "PH") 63 []),
  ("PN", PhoneUnit.mk (countryNamed "PN") 870 []),
  ("PL", PhoneUnit.mk (countryNamed "PL") 48 []),
  ("PM", PhoneUnit.mk (countryNamed "PM") 508 []),
  ("ZM", PhoneUnit.mk (countryNamed "ZM") 260 []),
  ("EH", PhoneUnit.mk (countryNamed "EH") 212 []),
  ("EE", PhoneUnit.mk (countryNamed "EE") 372 []),
  ("EG", PhoneUnit.mk (countryNamed "EG") 20 []),
  ("ZA", PhoneUnit.mk (countryNamed "ZA") 27 []),
  ("EC", PhoneUnit.mk (countryNamed "EC") 593 []),
  ("IT", PhoneUnit.mk (countryNamed "IT") 39 []),
  ("VN", PhoneUnit.mk (countryNamed "VN") 84 []),
  ("SB", PhoneUnit.mk (countryNamed "SB") 677 []),
  ("ET", PhoneUnit.mk (countryNamed "ET") 251 []),
  ("SO", PhoneUnit.mk (countryNamed "SO") 252 []),
  ("ZW", PhoneUnit.mk (countryNamed "ZW") 263 []),
  ("SA", PhoneUnit.mk (countryNamed "SA") 966 []),
  ("ES", PhoneUnit.mk (countryNamed "ES") 34 []),
  ("ER", PhoneUnit.mk (countryNamed "ER") 291 []),
  ("ME", PhoneUnit.mk (countryNamed "ME") 382 []),
  ("MD", PhoneUnit.mk (countryNamed "MD") 373 []),
  ("MG", PhoneUnit.mk (countryNamed "MG") 261 []),
  ("MF", PhoneUnit.mk (countryNamed "MF") 590 []),
  ("MA", PhoneUnit.mk (countryNamed "MA") 212 []),
  ("MC", PhoneUnit.mk (countryNamed "MC") 377 []),
  ("UZ", PhoneUnit.mk (countryNamed "UZ") 998 []),
  ("MM", PhoneUnit.mk (countryNamed "MM") 95 []),
  ("ML", PhoneUnit.mk (countryNamed "ML") 223 []),
  ("MO", PhoneUnit.mk (countryNamed "MO") 853 []),
  ("MN", PhoneUnit.mk (countryNamed "MN") 976 []),
  ("MH", PhoneUnit.mk (countryNamed "MH") 692 []),
  ("MK", PhoneUnit.mk (countryNamed "MK") 389 []),
  ("MU", PhoneUnit.mk (countryNamed "MU") 230 []),
  ("MT", PhoneUnit.mk (countryNamed "MT") 356 []),
  ("MW", PhoneUnit.mk (countryNamed "MW") 265 []),
  ("MV", PhoneUnit.mk (countryNamed "MV") 960 []),
  ("MQ", PhoneUnit.mk (countryNamed "MQ") 596 []),
  ("MP", PhoneUnit.mk (countryNamed "MP") 1 [670]),
  ("MS", PhoneUnit.mk (countryNamed "MS") 1 [664]),
  ("MR", PhoneUnit.mk (countryNamed "MR") 222 []),
  ("IM", PhoneUnit.mk (countryNamed "IM") 44 [1624]),
  ("UG", PhoneUnit.mk (countryNamed "UG") 256 []),
  ("TZ", PhoneUnit.mk (countryNamed "TZ") 255 []),
  ("MY", PhoneUnit.mk (countryNamed "MY") 60 []),
  ("MX", PhoneUnit.mk (countryNamed "MX") 52 []),
  ("IL", PhoneUnit.mk (countryNamed "IL") 972 []),
  ("FR", PhoneUnit.mk (countryNamed "FR") 33 []),
  ("IO", PhoneUnit.mk (countryNamed "IO") 246 []),
  ("SH", PhoneUnit.mk (countryNamed "SH") 290 []),
  ("FI", PhoneUnit.mk (countryNamed "FI") 358 []),
  ("FJ", PhoneUnit.mk (countryNamed "FJ") 679 []),
  ("FK", PhoneUnit.mk (countryNamed "FK") 500 []),
  ("FM", PhoneUnit.mk (countryNamed "FM") 691 []),
  ("FO", PhoneUnit.mk (countryNamed "FO") 298 []),
  ("NI", PhoneUnit.mk (countryNamed "NI") 505 []),
  ("NL", PhoneUnit.mk (countryNamed "NL") 31 []),
  ("NO", PhoneUnit.mk (countryNamed "NO") 47 []),
  ("NA", PhoneUnit.mk (countryNamed "NA") 264 []),
  ("VU", PhoneUnit.mk (countryNamed "VU") 678 []),
  ("NC", PhoneUnit.mk (countryNamed "NC") 687 []),
  ("NE", PhoneUnit.mk (countryNamed "NE") 227 []),
  ("NF", PhoneUnit.mk (countryNamed "NF") 672 []),
  ("NG", PhoneUnit.mk (countryNamed "NG") 234 []),
  ("NZ", PhoneUnit.mk (countryNamed "NZ") 64 []),
  ("NP", PhoneUnit.mk (countryNamed "NP") 977 []),
  ("NR", PhoneUnit.mk (countryNamed "NR") 674 []),
  ("NU", PhoneUnit.mk (countryNamed "NU") 683 []),
  ("CK", PhoneUnit.mk (countryNamed "CK") 682 []),
  ("CI", PhoneUnit.mk (countryNamed "CI") 225 []),
  ("CH", PhoneUnit.mk (countryNamed "CH") 41 []),
  ("CO", PhoneUnit.mk (countryNamed "CO") 57 []),
  ("CN", PhoneUnit.mk (countryNamed "CN") 86 []),
  ("CM", PhoneUnit.mk (countryNamed "CM") 237 []),
  ("CL", PhoneUnit.mk (countryNamed "CL") 56 []),
  ("CC", PhoneUnit.mk (countryNamed "CC") 61 []),
  ("CA", PhoneUnit.mk (countryNamed "CA") 1 [587, 403, 780, 819, 902, 226, 519, 289, 905, 438, 514, 343, 613, 418, 581, 306, 705, 249, 600, 506, 709, 450, 579, 807, 647, 416, 236, 778, 604, 250, 204, 867]),
  ("CG", PhoneUnit.mk (countryNamed "CG") 242 []),
  ("CF", PhoneUnit.mk (countryNamed "CF") 236 []),
  ("CD", PhoneUnit.mk (countryNamed "CD") 243 []),
  ("CZ", PhoneUnit.mk (countryNamed "CZ") 420 []),
  ("CY", PhoneUnit.mk (countryNamed "CY") 357 []),
  ("CX", PhoneUnit.mk (countryNamed "CX") 61 []),
  ("CR", PhoneUnit.mk (countryNamed "CR") 506 []),
  ("CW", PhoneUnit.mk (countryNamed "CW") 599 []),
  ("CV", PhoneUnit.mk (countryNamed "CV") 238 []),
  ("CU", PhoneUnit.mk (countryNamed "CU") 53 []),
  ("SZ", PhoneUnit.mk (countryNamed "SZ") 268 []),
  ("SY", PhoneUnit.mk (countryNamed "SY") 963 []),
  ("SX", PhoneUnit.mk (countryNamed "SX") 599 []),
  ("KG", PhoneUnit.mk (countryNamed "KG") 996 []),
  ("KE", PhoneUnit.mk (countryNamed "KE") 254 []),
  ("SS", PhoneUnit.mk (countryNamed "SS") 211 []),
  ("SR", PhoneUnit.mk (countryNamed "SR") 597 []),
  ("KI", PhoneUnit.mk (countryNamed "KI") 686 []),
  ("KH", PhoneUnit.mk (countryNamed "KH") 855 []),
  ("KN", PhoneUnit.mk (countryNamed "KN") 1 [869]),
  ("KM", PhoneUnit.mk (countryNamed "KM") 269 []),
  ("ST", PhoneUnit.mk (countryNamed "ST") 239 []),
  ("SK", PhoneUnit.mk (countryNamed "SK") 421 []),
  ("KR", PhoneUnit.mk (countryNamed "KR") 82 []),
  ("SI", PhoneUnit.mk (countryNamed "SI") 386 []),
  ("KP", PhoneUnit.mk (countryNamed "KP") 850 []),
  ("KW", PhoneUnit.mk (countryNamed "KW") 965 []),
  ("SN", PhoneUnit.mk (countryNamed "SN") 221 []),
  ("SM", PhoneUnit.mk (countryNamed "SM") 378 []),
  ("SL", PhoneUnit.mk (countryNamed "SL") 232 []),
  ("SC", PhoneUnit.mk (countryNamed "SC") 248 []),
  ("KZ", PhoneUnit.mk (countryNamed "KZ") 7 [317, 329, 313, 327, 330, 717, 312, 321, 314, 324, 336, 318, 315, 322, 325, 328, 311, 323, 326, 310]),
  ("KY", PhoneUnit.mk (countryNamed "KY") 1 [345]),
  ("SG", PhoneUnit.mk (countryNamed "SG") 65 []),
  ("SE", PhoneUnit.mk (countryNamed "SE") 46 []),
  ("SD", PhoneUnit.mk (countryNamed "SD") 249 []),
  ("DO", PhoneUnit.mk (countryNamed "DO") 1 [809, 829]),
  ("DM", PhoneUnit.mk (countryNamed "DM") 1 [767]),
  ("DJ", PhoneUnit.mk (countryNamed "DJ") 253 []),
  ("DK", PhoneUnit.mk (countryNamed "DK") 45 []),
  ("VG", PhoneUnit.mk (countryNamed "VG") 1 [284]),
  ("DE", PhoneUnit.mk (countryNamed "DE") 49 []),
  ("YE", PhoneUnit.mk (countryNamed "YE") 967 []),
  ("DZ", PhoneUnit.mk (countryNamed "DZ") 213 []),
  ("US", PhoneUnit.mk (countryNamed "US") 1 [325, 330, 234, 518, 229, 957, 505, 320, 730, 618, 657, 909, 752, 714, 907, 734, 278, 703, 571, 828, 606, 404, 770, 678, 470, 609, 762, 706, 331, 737, 512, 667, 443, 410, 225, 425, 360, 240, 610, 484, 835, 406, 228, 659, 205, 952, 208, 857, 617, 802, 631, 203, 475, 718, 347, 979, 818, 747, 856, 239, 319, 447, 217, 843, 681, 304, 980, 704, 423, 872, 773, 312, 413, 708, 464, 283, 513, 931, 440, 216, 573, 803, 614, 380, 925, 361, 214, 972, 469, 764, 650, 276, 563, 937, 386, 940, 720, 303, 313, 679, 620, 218, 715, 534, 848, 732, 915, 908, 607, 814, 760, 442, 541, 458, 812, 701, 910, 810, 954, 754, 479, 260, 682, 817, 559, 352, 409, 219, 970, 616, 231, 920, 274, 336, 864, 254, 985, 959, 860, 516, 808, 832, 713, 281, 938, 256, 936, 317, 515, 949, 769, 601, 731, 904, 551, 201, 870, 913, 975, 816, 308, 262, 845, 865, 337, 765, 863, 717, 740, 517, 307, 956, 575, 702, 580, 859, 501, 562, 323, 310, 213, 502, 978, 351, 806, 434, 339, 781, 478, 608, 603, 507, 660, 641, 830, 901, 786, 305, 414, 612, 251, 334, 630, 615, 724, 504, 917, 646, 212, 973, 862, 716, 510, 341, 432, 405, 531, 402, 927, 689, 407, 321, 269, 364, 270, 445, 267, 215, 623, 602, 480, 878, 412, 763, 626, 248, 772, 971, 503, 207, 401, 719, 919, 984, 530, 775, 804, 951, 540, 585, 309, 815, 779, 252, 916, 989, 831, 801, 385, 210, 935, 858, 619, 628, 415, 408, 669, 805, 661, 424, 627, 369, 707, 941, 906, 912, 570, 206, 564, 318, 301, 227, 712, 605, 574, 509, 417, 636, 435, 314, 557, 651, 727, 662, 209, 209, 315, 253, 850, 813, 419, 567, 785, 947, 520, 918, 430, 903, 757, 586, 202, 847, 224, 561, 316, 302, 774, 508, 914, 928]),
  ("UY", PhoneUnit.mk (countryNamed "UY") 598 []),
  ("YT", PhoneUnit.mk (countryNamed "YT") 262 []),
  ("UM", PhoneUnit.mk (countryNamed "UM") 1 []),
  ("LB", PhoneUnit.mk (countryNamed "LB") 961 []),
  ("LC", PhoneUnit.mk (countryNamed "LC") 1 [758]),
  ("LA", PhoneUnit.mk (countryNamed "LA") 856 []),
  ("TV", PhoneUnit.mk (countryNamed "TV") 688 []),
  ("TW", PhoneUnit.mk (countryNamed "TW") 886 []),
  ("TT", PhoneUnit.mk (countryNamed "TT") 1 [868]),
  ("TR", PhoneUnit.mk (countryNamed "TR") 90 []),
  ("LK", PhoneUnit.mk (countryNamed "LK") 94 []),
  ("LI", PhoneUnit.mk (countryNamed "LI") 423 []),
  ("LV", PhoneUnit.mk (countryNamed "LV") 371 []),
  ("TO", PhoneUnit.mk (countryNamed "TO") 676 []),
  ("LT", PhoneUnit.mk (countryNamed "LT") 370 []),
  ("LU", PhoneUnit.mk (countryNamed "LU") 352 []),
  ("LR", PhoneUnit.mk (countryNamed "LR") 231 []),
  ("LS", PhoneUnit.mk (countryNamed "LS") 266 []),
  ("TH", PhoneUnit.mk (countryNamed "TH") 66 []),
  ("TG", PhoneUnit.mk (countryNamed "TG") 228 []),
  ("TD", PhoneUnit.mk (countryNamed "TD") 235 []),
  ("TC", PhoneUnit.mk (countryNamed "TC") 1 [649]),
  ("LY", PhoneUnit.mk (countryNamed "LY") 218 []),
  ("VA", PhoneUnit.mk (countryNamed "VA") 379 []),
  ("VC", PhoneUnit.mk (countryNamed "VC") 1 [784]),
  ("AE", PhoneUnit.mk (countryNamed "AE") 971 []),
  ("AD", PhoneUnit.mk (countryNamed "AD") 376 []),
  ("AG", PhoneUnit.mk (countryNamed "AG") 1 [268]),
  ("AF", PhoneUnit.mk (countryNamed "AF") 93 []),
  ("AI", PhoneUnit.mk (countryNamed "AI") 1 [264]),
  ("VI", PhoneUnit.mk (countryNamed "VI") 1 [340]),
  ("IS", PhoneUnit.mk (countryNamed "IS") 354 []),
  ("IR", PhoneUnit.mk (countryNamed "IR") 98 []),
  ("AM", PhoneUnit.mk (countryNamed "AM") 374 []),
  ("AL", PhoneUnit.mk (countryNamed "AL") 355 []),
  ("AO", PhoneUnit.mk (countryNamed "AO") 244 []),
  ("AS", PhoneUnit.mk (countryNamed "AS") 1 [684]),
  ("AR", PhoneUnit.mk (countryNamed "AR") 54 []),
  ("AU", PhoneUnit.mk (countryNamed "AU") 61 []),
  ("AT", PhoneUnit.mk (countryNamed "AT") 43 []),
  ("AW", PhoneUnit.mk (countryNamed "AW") 297 []),
  ("IN", PhoneUnit.mk (countryNamed "IN") 91 []),
  ("AX", PhoneUnit.mk (countryNamed "AX") 358 [18]),
  ("AZ", PhoneUnit.mk (countryNamed "AZ") 994 []),
  ("IE", PhoneUnit.mk (countryNamed "IE") 353 []),
  ("ID", PhoneUnit.mk (countryNamed "ID") 62 []),
  ("UA", PhoneUnit.mk (countryNamed "UA") 380 []),
  ("QA", PhoneUnit.mk (countryNamed "QA") 974 []),
  ("MZ", PhoneUnit.mk (countryNamed "MZ") 258 [])]

/-- The member-level `Phone.is_prefix_supported`: `True` for an absent
prefix, otherwise the unit-level predicate. -/
def Phone.is_prefix_supported (u : PhoneUnit) (pfx : Option Int) : Bool :=
  if pfx.isNone then true
  else PhoneUnit.is_prefix_supported u pfx

/-- The string taken from a `+`-prefixed phone query:
`value.split("+")[1]`, the segment between the first and second `+`. -/
def pyPhoneStrSegment (s : String) : String :=
  if startsWithPlus s then (pySplitPlus s).getD 1 "" else s

/-- Embedding of `_PhoneEnumType._normalize_value`: an `int` (or `bool`, a Python `int`
subclass, kept at its numeric value) passes through; a string has its
`+`-segment parsed by `int(...)`; every other shape is a `ValueError`
(`WrongValueTypeError` kind). -/
def Phone._normalize_value : PyVal → Except Err Int
  | .int n => .ok n
  | .bool b => .ok (if b then 1 else 0)
  | .str s =>
    match pyIntOfString? (pyPhoneStrSegment s) with
    | some n => .ok n
    | none => .error .wrongValueType
  | _ => .error .wrongValueType

/-- The scan of `_PhoneEnumType.get_phone`: return the first record that
matches the calling code, declares prefixes and supports the supplied one;
otherwise remember records with an empty prefix list as candidates, and
return the first candidate after the scan (`none` models
`_PhoneUnitNotFoundError`). -/
def Phone.get_phoneLoop (value : Int) (pfx : Option Int) : List PhoneUnit → List PhoneUnit → Option PhoneUnit
  | [], candidates => candidates.head?
  | phone :: rest, candidates =>
    if value == phone.calling_code then
      if !phone.prefixes.isEmpty && Phone.is_prefix_supported phone pfx then some phone
      else if phone.prefixes.isEmpty then Phone.get_phoneLoop value pfx rest (candidates ++ [phone])
      else Phone.get_phoneLoop value pfx rest candidates
    else Phone.get_phoneLoop value pfx rest candidates

/-- Embedding of `_PhoneEnumType.get_phone` over a member list. -/
def Phone.get_phone (value : Int) (members : List PhoneUnit) (pfx : Option Int) : Option PhoneUnit :=
  Phone.get_phoneLoop value pfx members []

/-- Embedding of `Phone(value, prefix=...)`: normalize the query, then resolve it over
the declared members; a failed scan is the lookup `ValueError`. -/
def Phone.call (value : PyVal) (pfx : Option Int) : Except Err PhoneUnit :=
  match Phone._normalize_value value with
  | .error e => .error e
  | .ok normalized_value =>
    match Phone.get_phone normalized_value (Phone.members.map Prod.snd) pfx with
    | some phone => .ok phone
    | none => .error .invalidIdentifier

/-- Embedding of `Phone[name]` member-name lookup (`EnumTypeBase.__getitem__`). -/
def Phone.getItem (name : String) : Except Err PhoneUnit :=
  enumGetItem Phone.members name

/-- The phone record declared under a member name. -/
def phoneNamed (n : String) : PhoneUnit :=
  (Phone.members.lookup n).getD (PhoneUnit.mk (CountryUnit.mk "" "" "" "" "") 0 [])


/-- Modelled from the spec: `pycountries/__init__.py` imports
`clean_amount`'s error classes from `pycountries.currencies` and the tests
call `Currency.two_digits[0].clean_amount(...)`, but the amount
normalizer and its error classes are not in the sources here; the decimal
values it consumes are modelled after spec section 4.2. A decimal is a sign,
an arbitrary-precision coefficient and a base-10 exponent
(value = (-1 if neg else 1) * coeff * 10 ^ exp), or one of the special
values (infinity, not-a-number). -/
inductive PyDecimal where
  | finite (neg : Bool) (coeff : Nat) (exp : Int)
  | infinite (neg : Bool)
  | nan
deriving DecidableEq, Repr

/-- Number of fractional digits of a decimal: the negated exponent, at
least zero (`Decimal("20.2")` is `finite false 202 (-1)`, one digit). -/
def PyDecimal.fracDigits : PyDecimal → Nat
  | .finite _ _ e => (-e).toNat
  | _ => 0

/-- Modelled from the spec: padding a finite decimal with trailing zero
digits until exactly `digits` fractional digits are reached, value
unchanged; used only after validation has ruled out excess digits. -/
def PyDecimal.pad (d : PyDecimal) (digits : Nat) : PyDecimal :=
  match d with
  | .finite neg coeff e =>
    if -(digits : Int) ≤ e then .finite neg (coeff * 10 ^ (e + digits).toNat) (-(digits : Int))
    else d
  | x => x

/-- The dynamic shapes a Python caller can pass as a monetary amount: an
exact decimal, a plain integer, a binary float, or anything else. -/
inductive PyAmount where
  | dec (d : PyDecimal)
  | int (n : Int)
  | float
  | other
deriving DecidableEq, Repr

/-- The amount error taxonomy of spec section 7 (`WrongAmountTypeError`,
`AmountSpecialValuesNotAllowedError`, `NegativeAmountNotAllowedError`,
`ZeroAmountNotAllowedError`, `WrongAmountDigitsNumberError`). -/
inductive AmountError where
  | wrongType
  | specialValues
  | negative
  | zero
  | wrongDigits
deriving DecidableEq, Repr

/-- Modelled from the spec: `clean_amount(currency, amount, allow_zero)`,
absent from the sources here (only imported and tested). Checks, in spec
order: the amount is an exact decimal, is not a special value, is not
negative, is not a disallowed zero, and has no more fractional digits than
the currency's canonical count; then returns the amount padded to exactly
that count. -/
def clean_amount (currency : CurrencyUnit) (amount : PyAmount) (allow_zero : Bool) : Except AmountError PyDecimal :=
  match amount with
  | .dec d =>
    match d with
    | .infinite _ => .error .specialValues
    | .nan => .error .specialValues
    | .finite neg coeff e =>
      if neg && coeff != 0 then .error .negative
      else if coeff == 0 && !allow_zero then .error .zero
      else if currency.digits < PyDecimal.fracDigits (.finite neg coeff e) then .error .wrongDigits
      else .ok (PyDecimal.pad (.finite neg coeff e) currency.digits)
  | _ => .error .wrongType

/-- Positional base-256 encoding of a (ASCII) key string, used to transfer
no-duplication checks of the key columns onto kernel-friendly naturals. -/
def strKey (s : String) : Nat :=
  s.toList.foldl (fun a c => a * 256 + c.toNat) 1

/-- Membership test by plain Boolean recursion (kept first-order so
kernel evaluation of the key-column checks stays cheap). -/
def memB {α : Type} [BEq α] (x : α) : List α → Bool
  | [] => false
  | y :: ys => (x == y) || memB x ys

/-- No-duplication test by plain Boolean recursion. -/
def nodupB {α : Type} [BEq α] : List α → Bool
  | [] => true
  | x :: xs => !(memB x xs) && nodupB xs


set_option maxRecDepth 10000
set_option maxHeartbeats 16000000

/-! ### Generic list lemmas used by the lookup proofs -/

/-- If `r` is in `l`, satisfies `p`, and is the only element of `l` that
does, then the linear scan `find?` returns exactly `r`. -/
theorem find_eq_some_of_unique {α : Type} (p : α → Bool) {l : List α} {r : α}
    (hmem : r ∈ l) (hp : p r = true)
    (huniq : ∀ x ∈ l, p x = true → x = r) :
    l.find? p = some r := by
  induction l with
  | nil => cases hmem
  | cons h t ih =>
    by_cases hph : p h = true
    · have : h = r := huniq h (List.mem_cons_self h t) hph
      subst this
      simp [List.find?_cons_of_pos _ hph]
    · have hph' : p h = false := Bool.eq_false_iff.mpr hph
      have hr : r ∈ t := by
        rcases List.mem_cons.mp hmem with rfl | ht
        · exact absurd hp hph
        · exact ht
      rw [List.find?_cons_of_neg _ (by simp [hph'])]
      exact ih hr (fun x hx hpx => huniq x (List.mem_cons_of_mem _ hx) hpx)

/-- The scan `find?` only looks at the predicate's values on the list. -/
theorem find_congr {α : Type} {p q : α → Bool} :
    ∀ {l : List α}, (∀ x ∈ l, p x = q x) → l.find? p = l.find? q
  | [], _ => rfl
  | h :: t, hpq => by
    have hh : p h = q h := hpq h (List.mem_cons_self h t)
    by_cases hq : q h = true
    · rw [List.find?_cons_of_pos _ (hh ▸ hq), List.find?_cons_of_pos _ hq]
    · have hq' : q h = false := Bool.eq_false_iff.mpr hq
      rw [List.find?_cons_of_neg _ (by simp [hh, hq']),
        List.find?_cons_of_neg _ (by simp [hq'])]
      exact find_congr (fun x hx => hpq x (List.mem_cons_of_mem _ hx))

/-- A negative `memB` answer is non-membership. -/
theorem not_mem_of_memB_false {α : Type} [BEq α] [LawfulBEq α] {x : α} :
    ∀ {l : List α}, memB x l = false → x ∉ l
  | [], _ => List.not_mem_nil x
  | y :: ys, h => by
    simp only [memB, Bool.or_eq_false_iff] at h
    intro hmem
    rcases List.mem_cons.mp hmem with rfl | hmem2
    · simp at h
    · exact not_mem_of_memB_false h.2 hmem2

/-- A positive `nodupB` answer is `Nodup`. -/
theorem nodup_of_nodupB {α : Type} [BEq α] [LawfulBEq α] {l : List α}
    (h : nodupB l = true) : l.Nodup := by
  induction l with
  | nil => exact List.nodup_nil
  | cons x xs ih =>
    simp only [nodupB, Bool.and_eq_true] at h
    refine List.nodup_cons.mpr ⟨not_mem_of_memB_false ?_, ih h.2⟩
    cases hm : memB x xs
    · rfl
    · exact absurd h.1 (by rw [hm]; decide)

/-! ### Facts about the datasets, checked by evaluation -/

/-- Shape of the country key columns: alpha-2 codes have two characters,
alpha-3 and numeric codes three; numeric codes are all digits and the
letter codes contain none. -/
theorem country_shape : ∀ x ∈ (Country.members.map Prod.snd),
    x.alpha_2.toList.length = 2 ∧ x.alpha_3.toList.length = 3 ∧
    x.numeric.toList.length = 3 ∧ (∀ c ∈ x.numeric.toList, c.isDigit = true) ∧
    (∀ c ∈ x.alpha_3.toList, c.isDigit = false) ∧
    (∀ c ∈ x.alpha_2.toList, c.isDigit = false) := by decide

/-- No two countries share an alpha-2 code (checked on base-256 keys). -/
theorem country_alpha2_keys_nodup :
    (Country.members.map (fun p => strKey p.2.alpha_2)).Nodup :=
  nodup_of_nodupB (by decide)

/-- No two countries share an alpha-3 code. -/
theorem country_alpha3_keys_nodup :
    (Country.members.map (fun p => strKey p.2.alpha_3)).Nodup :=
  nodup_of_nodupB (by decide)

/-- No two countries share a numeric code string. -/
theorem country_numeric_keys_nodup :
    (Country.members.map (fun p => strKey p.2.numeric)).Nodup :=
  nodup_of_nodupB (by decide)

/-- No two countries share a numeric code as an integer. -/
theorem country_pyint_nodup :
    (Country.members.map (fun p => pyInt p.2.numeric)).Nodup :=
  nodup_of_nodupB (by decide)

/-- Injectivity of the alpha-2 column over the country collection. -/
theorem country_alpha2_inj : ∀ x ∈ (Country.members.map Prod.snd),
    ∀ y ∈ (Country.members.map Prod.snd), x.alpha_2 = y.alpha_2 → x = y := by
  have h : ((Country.members.map Prod.snd).map (fun x => strKey x.alpha_2)).Nodup := by
    simpa [List.map_map, Function.comp] using country_alpha2_keys_nodup
  exact fun x hx y hy hxy => List.inj_on_of_nodup_map h hx hy (by rw [hxy])

/-- Injectivity of the alpha-3 column over the country collection. -/
theorem country_alpha3_inj : ∀ x ∈ (Country.members.map Prod.snd),
    ∀ y ∈ (Country.members.map Prod.snd), x.alpha_3 = y.alpha_3 → x = y := by
  have h : ((Country.members.map Prod.snd).map (fun x => strKey x.alpha_3)).Nodup := by
    simpa [List.map_map, Function.comp] using country_alpha3_keys_nodup
  exact fun x hx y hy hxy => List.inj_on_of_nodup_map h hx hy (by rw [hxy])

/-- Injectivity of the numeric column over the country collection. -/
theorem country_numeric_inj : ∀ x ∈ (Country.members.map Prod.snd),
    ∀ y ∈ (Country.members.map Prod.snd), x.numeric = y.numeric → x = y := by
  have h : ((Country.members.map Prod.snd).map (fun x => strKey x.numeric)).Nodup := by
    simpa [List.map_map, Function.comp] using country_numeric_keys_nodup
  exact fun x hx y hy hxy => List.inj_on_of_nodup_map h hx hy (by rw [hxy])

/-- Injectivity of the integer numeric code over the country collection. -/
theorem country_pyint_inj : ∀ x ∈ (Country.members.map Prod.snd),
    ∀ y ∈ (Country.members.map Prod.snd), pyInt x.numeric = pyInt y.numeric → x = y := by
  have h : ((Country.members.map Prod.snd).map (fun x => pyInt x.numeric)).Nodup := by
    simpa [List.map_map, Function.comp] using country_pyint_nodup
  exact fun x hx y hy hxy => List.inj_on_of_nodup_map h hx hy hxy

/-- Two strings of different character counts are different. -/
theorem string_length_ne {s t : String} (hs : s.toList.length = 2)
    (ht : t.toList.length = 3) : s ≠ t := by
  intro h
  rw [h] at hs
  omega

/-- A string of digits is never equal to a digit-free string of positive
length. -/
theorem digit_string_ne {s t : String}
    (hs : ∀ c ∈ s.toList, c.isDigit = true)
    (ht : ∀ c ∈ t.toList, c.isDigit = false)
    (hlen : s.toList.length = 3) : s ≠ t := by
  intro h
  cases hl : s.toList with
  | nil => rw [hl] at hlen; cases hlen
  | cons c rest =>
    have h1 : c.isDigit = true := hs c (by rw [hl]; exact List.mem_cons_self c rest)
    have h2 : c.isDigit = false := by
      apply ht
      rw [← h, hl]
      exact List.mem_cons_self c rest
    rw [h1] at h2
    cases h2

/-- Reflexivity of `pyEq` on strings. -/
theorem pyEq_self_str (s : String) : pyEq (.str s) (.str s) = true := by
  simp [pyEq]

/-- Reflexivity of `pyEq` on integers. -/
theorem pyEq_self_int (n : Int) : pyEq (.int n) (.int n) = true := by
  simp [pyEq]

/-- Resolving a country by any of its own four key values returns that
country: the scan finds it because it matches, and nothing else matches
thanks to column injectivity and the disjoint shapes of the columns. -/
theorem country_resolve_own_key : ∀ r ∈ (Country.members.map Prod.snd),
    ∀ k ∈ countryCompareList r, Country.call k = .ok r := by
  intro r hr k hk
  obtain ⟨hr2, hr3, hrn, hrdig, hr3nd, hr2nd⟩ := country_shape r hr
  simp only [countryCompareList, List.mem_cons, List.not_mem_nil, or_false] at hk
  have hfind : (Country.members.map Prod.snd).find?
      (fun x => (countryCompareList x).any (fun k2 => pyEq k k2)) = some r := by
    apply find_eq_some_of_unique _ hr
    · rcases hk with rfl | rfl | rfl | rfl <;>
      simp [countryCompareList, pyEq]
    · intro x hx hpx
      obtain ⟨hx2, hx3, hxn, hxdig, hx3nd, hx2nd⟩ := country_shape x hx
      rcases hk with rfl | rfl | rfl | rfl
      · simp only [countryCompareList, List.any_cons, List.any_nil, pyEq,
          Bool.false_or, Bool.or_false, Bool.or_eq_true, beq_iff_eq] at hpx
        rcases hpx with h | h | h
        · exact country_alpha2_inj x hx r hr h.symm
        · exact absurd h (string_length_ne hr2 hx3)
        · exact absurd h (string_length_ne hr2 hxn)
      · simp only [countryCompareList, List.any_cons, List.any_nil, pyEq,
          Bool.false_or, Bool.or_false, Bool.or_eq_true, beq_iff_eq] at hpx
        rcases hpx with h | h | h
        · exact absurd h.symm (string_length_ne hx2 hr3)
        · exact country_alpha3_inj x hx r hr h.symm
        · exact absurd h.symm (digit_string_ne hxdig hr3nd hxn)
      · simp only [countryCompareList, List.any_cons, List.any_nil, pyEq,
          Bool.false_or, Bool.or_false, Bool.or_eq_true, beq_iff_eq] at hpx
        rcases hpx with h | h | h
        · exact absurd h.symm (string_length_ne hx2 hrn)
        · exact absurd h (digit_string_ne hrdig hx3nd hrn)
        · exact country_numeric_inj x hx r hr h.symm
      · simp only [countryCompareList, List.any_cons, List.any_nil, pyEq,
          Bool.false_or, Bool.or_false, Bool.or_eq_true, beq_iff_eq] at hpx
        exact country_pyint_inj x hx r hr hpx.symm
  simp [Country.call, hfind]

/-- Shape of the currency key columns: alpha-3 codes are three letters,
numeric codes three digits, and every fractional-digit count is 0, 2
or 3. -/
theorem currency_shape : ∀ x ∈ (Currency.members.map Prod.snd),
    x.alpha_3.toList.length = 3 ∧ x.numeric.toList.length = 3 ∧
    (∀ c ∈ x.numeric.toList, c.isDigit = true) ∧
    (∀ c ∈ x.alpha_3.toList, c.isDigit = false) ∧
    (x.digits = 0 ∨ x.digits = 2 ∨ x.digits = 3) := by decide

/-- No two currencies share an alpha-3 code. -/
theorem currency_alpha3_keys_nodup :
    (Currency.members.map (fun p => strKey p.2.alpha_3)).Nodup :=
  nodup_of_nodupB (by decide)

/-- No two currencies share a numeric code string. -/
theorem currency_numeric_keys_nodup :
    (Currency.members.map (fun p => strKey p.2.numeric)).Nodup :=
  nodup_of_nodupB (by decide)

/-- Injectivity of the alpha-3 column over the currency collection. -/
theorem currency_alpha3_inj : ∀ x ∈ (Currency.members.map Prod.snd),
    ∀ y ∈ (Currency.members.map Prod.snd), x.alpha_3 = y.alpha_3 → x = y := by
  have h : ((Currency.members.map Prod.snd).map (fun x => strKey x.alpha_3)).Nodup := by
    simpa [List.map_map, Function.comp] using currency_alpha3_keys_nodup
  exact fun x hx y hy hxy => List.inj_on_of_nodup_map h hx hy (by rw [hxy])

/-- Injectivity of the numeric column over the currency collection. -/
theorem currency_numeric_inj : ∀ x ∈ (Currency.members.map Prod.snd),
    ∀ y ∈ (Currency.members.map Prod.snd), x.numeric = y.numeric → x = y := by
  have h : ((Currency.members.map Prod.snd).map (fun x => strKey x.numeric)).Nodup := by
    simpa [List.map_map, Function.comp] using currency_numeric_keys_nodup
  exact fun x hx y hy hxy => List.inj_on_of_nodup_map h hx hy (by rw [hxy])

/-- Resolving a currency by its own alpha-3 code or numeric string returns
that currency. -/
theorem currency_resolve_own_key : ∀ r ∈ (Currency.members.map Prod.snd),
    Currency.call (.str r.alpha_3) = .ok r ∧ Currency.call (.str r.numeric) = .ok r := by
  intro r hr
  obtain ⟨hr3, hrn, hrdig, hr3nd, _⟩ := currency_shape r hr
  constructor
  · have hfind : (Currency.members.map Prod.snd).find?
        (fun unit => pyEq (.str r.alpha_3) (.str unit.alpha_3) || pyEq (.str r.alpha_3) (.str unit.numeric)) = some r := by
      apply find_eq_some_of_unique _ hr
      · simp [pyEq]
      · intro x hx hpx
        obtain ⟨hx3, hxn, hxdig, hx3nd, _⟩ := currency_shape x hx
        simp only [pyEq, Bool.or_eq_true, beq_iff_eq] at hpx
        rcases hpx with h | h
        · exact currency_alpha3_inj x hx r hr h.symm
        · exact absurd h.symm (digit_string_ne hxdig hr3nd hxn)
    simp [Currency.call, hfind]
  · have hfind : (Currency.members.map Prod.snd).find?
        (fun unit => pyEq (.str r.numeric) (.str unit.alpha_3) || pyEq (.str r.numeric) (.str unit.numeric)) = some r := by
      apply find_eq_some_of_unique _ hr
      · simp [pyEq]
      · intro x hx hpx
        obtain ⟨hx3, hxn, hxdig, hx3nd, _⟩ := currency_shape x hx
        simp only [pyEq, Bool.or_eq_true, beq_iff_eq] at hpx
        rcases hpx with h | h
        · exact absurd h (digit_string_ne hrdig hx3nd hrn)
        · exact currency_numeric_inj x hx r hr h.symm
    simp [Currency.call, hfind]

/-- Shape of the language key columns: alpha-3 codes are three characters
and declared alpha-2 codes two. -/
theorem language_shape : ∀ x ∈ (Language.members.map Prod.snd),
    x.alpha_3.toList.length = 3 ∧
    ((match x.alpha_2 with
      | some a => a.toList.length == 2
      | none => true) = true) := by decide

/-- No two languages share an alpha-3 code. -/
theorem language_alpha3_keys_nodup :
    (Language.members.map (fun p => strKey p.2.alpha_3)).Nodup :=
  nodup_of_nodupB (by decide)

/-- Injectivity of the alpha-3 column over the language collection. -/
theorem language_alpha3_inj : ∀ x ∈ (Language.members.map Prod.snd),
    ∀ y ∈ (Language.members.map Prod.snd), x.alpha_3 = y.alpha_3 → x = y := by
  have h : ((Language.members.map Prod.snd).map (fun x => strKey x.alpha_3)).Nodup := by
    simpa [List.map_map, Function.comp] using language_alpha3_keys_nodup
  exact fun x hx y hy hxy => List.inj_on_of_nodup_map h hx hy (by rw [hxy])

/-- A declared alpha-2 code has two characters. -/
theorem language_alpha2_len : ∀ x ∈ (Language.members.map Prod.snd),
    ∀ a, x.alpha_2 = some a → a.toList.length = 2 := by
  intro x hx a ha
  simpa [ha] using (language_shape x hx).2

/-- Resolving a language by its own alpha-3 code returns that language. -/
theorem language_resolve_alpha3 : ∀ r ∈ (Language.members.map Prod.snd),
    Language.call (.str r.alpha_3) = .ok r := by
  intro r hr
  have hr3 := (language_shape r hr).1
  have hfind : (Language.members.map Prod.snd).find?
      (fun x => (_get_compare_list x).any (fun s => pyEq (.str r.alpha_3) (.str s))) = some r := by
    apply find_eq_some_of_unique _ hr
    · cases h2 : r.alpha_2 <;> simp [_get_compare_list, h2, pyEq]
    · intro x hx hpx
      have hx3 := (language_shape x hx).1
      cases hx2 : x.alpha_2 with
      | none =>
        simp only [_get_compare_list, hx2, List.any_cons, List.any_nil, pyEq,
          Bool.or_false, beq_iff_eq] at hpx
        exact language_alpha3_inj x hx r hr hpx.symm
      | some a =>
        have halen := language_alpha2_len x hx a hx2
        simp only [_get_compare_list, hx2, List.any_cons, List.any_nil, pyEq,
          Bool.or_false, Bool.or_eq_true, beq_iff_eq] at hpx
        rcases hpx with h | h
        · exact language_alpha3_inj x hx r hr h.symm
        · exact absurd h.symm (string_length_ne halen hr3)
  simp [Language.call, hfind]

/-- Resolving by an alpha-2 code returns the first language in declaration
order that declares it: alpha-2 queries can only match the alpha-2 entry
of a compare list, so the scan reduces to a scan of the alpha-2 column. -/
theorem language_resolve_alpha2_first : ∀ r ∈ (Language.members.map Prod.snd),
    ∀ a, r.alpha_2 = some a →
    ∃ u, (Language.members.map Prod.snd).find? (fun x => decide (x.alpha_2 = some a)) = some u ∧
      Language.call (.str a) = .ok u := by
  intro r hr a ha
  have halen := language_alpha2_len r hr a ha
  have hcong : ∀ x ∈ (Language.members.map Prod.snd),
      ((_get_compare_list x).any (fun s => pyEq (.str a) (.str s))) = decide (x.alpha_2 = some a) := by
    intro x hx
    have hx3 := (language_shape x hx).1
    have hne : (a == x.alpha_3) = false :=
      beq_eq_false_iff_ne.mpr (string_length_ne halen hx3)
    cases hx2 : x.alpha_2 with
    | none => simp [_get_compare_list, hx2, pyEq, hne]
    | some b =>
      simp only [_get_compare_list, hx2, List.any_cons, List.any_nil, pyEq,
        Bool.or_false, hne, Bool.false_or]
      by_cases hab : a = b
      · subst hab
        simp
      · rw [beq_eq_false_iff_ne.mpr hab,
          decide_eq_false (fun h => hab (Option.some.inj h).symm)]
  have hsome : ∃ u, (Language.members.map Prod.snd).find? (fun x => decide (x.alpha_2 = some a)) = some u := by
    cases hf : (Language.members.map Prod.snd).find? (fun x => decide (x.alpha_2 = some a)) with
    | none =>
      exfalso
      exact List.find?_eq_none.mp hf r hr (by simp [ha])
    | some u => exact ⟨u, rfl⟩
  obtain ⟨u, hu⟩ := hsome
  refine ⟨u, hu, ?_⟩
  have := find_congr hcong
  simp [Language.call, this, hu]

/-- The chained prefix test the scan applies to a record with declared
prefixes simplifies to: no prefix was supplied, or the supplied prefix is
in the record's list. -/
theorem phone_win_simp (u : PhoneUnit) (pfx : Option Int) :
    (!u.prefixes.isEmpty && Phone.is_prefix_supported u pfx) =
    (!u.prefixes.isEmpty && (pfx.isNone || u.prefixes.contains pfx.iget)) := by
  unfold Phone.is_prefix_supported PhoneUnit.is_prefix_supported
  cases he : u.prefixes.isEmpty <;> cases hn : pfx.isNone <;> simp [he, hn]

/-- The scan of `get_phone` characterized without its accumulator: the
first calling-code match that declares prefixes and wins on the supplied
prefix, otherwise the first calling-code match with an empty prefix list,
tried after the already collected candidates `acc`. -/
theorem get_phoneLoop_char (value : Int) (pfx : Option Int) :
    ∀ (l acc : List PhoneUnit),
    Phone.get_phoneLoop value pfx l acc =
      (match (l.filter (fun u => value == u.calling_code)).find?
          (fun u => !u.prefixes.isEmpty && (pfx.isNone || u.prefixes.contains pfx.iget)) with
       | some u => some u
       | none =>
         (acc ++ (l.filter (fun u => value == u.calling_code)).filter
           (fun u => u.prefixes.isEmpty)).head?)
  | [], acc => by simp [Phone.get_phoneLoop]
  | u :: t, acc => by
    cases hc : (value == u.calling_code) with
    | false =>
      have hl : Phone.get_phoneLoop value pfx (u :: t) acc = Phone.get_phoneLoop value pfx t acc := by
        simp only [Phone.get_phoneLoop]
        rw [if_neg (by simp [hc])]
      rw [List.filter_cons, if_neg (by simp [hc]), hl]
      exact get_phoneLoop_char value pfx t acc
    | true =>
      rw [List.filter_cons, if_pos (by simp [hc])]
      cases hw : (!u.prefixes.isEmpty && (pfx.isNone || u.prefixes.contains pfx.iget)) with
      | true =>
        have hcode : (!u.prefixes.isEmpty && Phone.is_prefix_supported u pfx) = true := by
          rw [phone_win_simp]; exact hw
        have hl : Phone.get_phoneLoop value pfx (u :: t) acc = some u := by
          simp only [Phone.get_phoneLoop]
          rw [if_pos hc, if_pos hcode]
        rw [hl, List.find?_cons, hw]
      | false =>
        have hcode : (!u.prefixes.isEmpty && Phone.is_prefix_supported u pfx) = false := by
          rw [phone_win_simp]; exact hw
        rw [List.find?_cons, hw]
        cases hie : u.prefixes.isEmpty with
        | true =>
          have hl : Phone.get_phoneLoop value pfx (u :: t) acc =
              Phone.get_phoneLoop value pfx t (acc ++ [u]) := by
            simp only [Phone.get_phoneLoop]
            rw [if_pos hc, if_neg (by simp [hcode]), if_pos hie]
          rw [hl, List.filter_cons, if_pos (by simp [hie]),
            get_phoneLoop_char value pfx t (acc ++ [u])]
          cases hf : (t.filter (fun x => value == x.calling_code)).find?
              (fun x => !x.prefixes.isEmpty && (pfx.isNone || x.prefixes.contains pfx.iget)) with
          | some w => simp [hf]
          | none => simp [hf, List.append_assoc]
        | false =>
          have hl : Phone.get_phoneLoop value pfx (u :: t) acc =
              Phone.get_phoneLoop value pfx t acc := by
            simp only [Phone.get_phoneLoop]
            rw [if_pos hc, if_neg (by simp [hcode]), if_neg (by simp [hie])]
          rw [hl, List.filter_cons, if_neg (by simp [hie])]
          exact get_phoneLoop_char value pfx t acc

/-- Evaluation of `Phone(...)` on an already-numeric query: the first calling-code match
that declares prefixes and wins on the supplied prefix, else the first
calling-code match with an empty prefix list, else the lookup error. -/
theorem phone_call_int_char (value : Int) (pfx : Option Int) :
    Phone.call (.int value) pfx =
      (match ((Phone.members.map Prod.snd).filter (fun u => value == u.calling_code)).find?
          (fun u => !u.prefixes.isEmpty && (pfx.isNone || u.prefixes.contains pfx.iget)) with
       | some u => .ok u
       | none =>
         match (((Phone.members.map Prod.snd).filter (fun u => value == u.calling_code)).filter
             (fun u => u.prefixes.isEmpty)).head? with
         | some u => .ok u
         | none => .error .invalidIdentifier) := by
  have h := get_phoneLoop_char value pfx (Phone.members.map Prod.snd) []
  simp only [Phone.call, Phone._normalize_value, Phone.get_phone]
  rw [h]
  cases hf : ((Phone.members.map Prod.snd).filter (fun u => value == u.calling_code)).find?
      (fun u => !u.prefixes.isEmpty && (pfx.isNone || u.prefixes.contains pfx.iget)) with
  | some w => simp
  | none => simp only [List.nil_append]

/-- The scan `filter` only looks at the predicate's values on the list. -/
theorem filter_congr_local {α : Type} {p q : α → Bool} :
    ∀ {l : List α}, (∀ x ∈ l, p x = q x) → l.filter p = l.filter q
  | [], _ => rfl
  | h :: t, hpq => by
    have hh : p h = q h := hpq h (List.mem_cons_self h t)
    rw [List.filter_cons, List.filter_cons, hh,
      filter_congr_local (fun x hx => hpq x (List.mem_cons_of_mem _ hx))]

/-- Every macrolanguage id in the dataset is already lowercase, so
comparing it to the lowercased query is a case-insensitive comparison. -/
theorem macro_mid_lower : ∀ u ∈ (MacroLanguage.members.map Prod.snd),
    pyLower u.m_id = u.m_id := by decide

/-- The matching filter of the macrolanguage lookup coincides with the
case-insensitive id comparison plus the status restriction. -/
theorem macro_filter_eq (value : String) (st : Option String) :
    (MacroLanguage.members.map Prod.snd).filter
      (fun language => _is_macro_language_valid (pyLower value) language st) =
    (MacroLanguage.members.map Prod.snd).filter
      (fun u => (pyLower u.m_id == pyLower value) &&
        (match st with
         | none => true
         | some s => u.i_status == s)) := by
  apply filter_congr_local
  intro u hu
  have hlow : pyLower u.m_id = u.m_id := macro_mid_lower u hu
  unfold _is_macro_language_valid
  rw [hlow]
  cases heq : u.m_id == pyLower value with
  | false => simp [bne, heq]
  | true =>
    cases st with
    | none => simp [bne, heq]
    | some s => cases hs : u.i_status == s <;> simp [bne, heq, hs]

/-- A failed country value lookup carries the lookup error kind. -/
theorem country_call_error_kind : ∀ (v : PyVal) (e : Err),
    Country.call v = .error e → e = .invalidIdentifier := by
  intro v e h
  simp only [Country.call] at h
  cases hf : (Country.members.map Prod.snd).find?
      (fun r => (countryCompareList r).any (fun k => pyEq v k)) with
  | some r => simp [hf] at h
  | none =>
    simp only [hf] at h
    exact (Except.error.inj h).symm

/-- A failed currency value lookup carries the lookup error kind. -/
theorem currency_call_error_kind : ∀ (v : PyVal) (e : Err),
    Currency.call v = .error e → e = .invalidIdentifier := by
  intro v e h
  simp only [Currency.call] at h
  cases hf : (Currency.members.map Prod.snd).find?
      (fun unit => pyEq v (.str unit.alpha_3) || pyEq v (.str unit.numeric)) with
  | some r => simp [hf] at h
  | none =>
    simp only [hf] at h
    exact (Except.error.inj h).symm

/-- A failed language value lookup carries the lookup error kind. -/
theorem language_call_error_kind : ∀ (v : PyVal) (e : Err),
    Language.call v = .error e → e = .invalidIdentifier := by
  intro v e h
  simp only [Language.call] at h
  cases hf : (Language.members.map Prod.snd).find?
      (fun r => (_get_compare_list r).any (fun s => pyEq v (.str s))) with
  | some r => simp [hf] at h
  | none =>
    simp only [hf] at h
    exact (Except.error.inj h).symm

/-- A failed macrolanguage lookup without a status filter carries the
lookup error kind. -/
theorem macro_call_error_kind : ∀ (value : String) (e : Err),
    MacroLanguage.call value none = .error e → e = .invalidIdentifier := by
  intro value e h
  simp only [MacroLanguage.call, _validate_i_status] at h
  cases hf : ((MacroLanguage.members.map Prod.snd).filter
      (fun language => _is_macro_language_valid (pyLower value) language none)).isEmpty with
  | true => simp only [hf] at h; exact (Except.error.inj h).symm
  | false => simp [hf] at h

/-- A failed phone lookup on an integer query carries the lookup error
kind. -/
theorem phone_call_int_error_kind : ∀ (n : Int) (pfx : Option Int) (e : Err),
    Phone.call (.int n) pfx = .error e → e = .invalidIdentifier := by
  intro n pfx e h
  simp only [Phone.call, Phone._normalize_value] at h
  cases hg : Phone.get_phone n (Phone.members.map Prod.snd) pfx with
  | some u => simp [hg] at h
  | none =>
    simp only [hg] at h
    exact (Except.error.inj h).symm

/-- Member-name lookup on a missing name is the lookup error. -/
theorem enumGetItem_not_found {α : Type} (members : List (String × α)) (name : String)
    (h : members.lookup name = none) : enumGetItem members name = .error .invalidIdentifier := by
  simp [enumGetItem, h]

/-- Membership in the two-digit partition pins the digit count. -/
theorem two_digits_mem_digits (c : CurrencyUnit) (h : c ∈ Currency.two_digits) :
    c.digits = 2 := by
  have h2 : c ∈ (Currency.members.map Prod.snd).filter (fun unit => unit.digits == 2) := h
  simpa using (List.mem_filter.mp h2).2

/-! ### The claims -/

/-- C1 counterexample: resolving calling code `1` with no prefix supplied
returns the Barbados record, which declares the non-empty prefix list
`[246]`, even though the claim says a prefixed record wins only when the
supplied prefix is in its list and that without a prefix the first
empty-prefix-list match (the `UM` record) is returned. -/
theorem c1_counterexample :
    Phone.call (.int 1) none = .ok (phoneNamed "BB") ∧
    (phoneNamed "BB").prefixes = [246] ∧
    (phoneNamed "UM").prefixes = [] ∧
    phoneNamed "BB" ≠ phoneNamed "UM" := by
  refine ⟨by decide, by decide, by decide, by decide⟩

/-- C1 (amended): for a numeric phone query, the resolver returns the
first calling-code match that declares a non-empty prefix list and for
which the supplied prefix is absent or contained in that list; when no
record wins that way, it returns the first calling-code match with an
empty prefix list, and fails with the lookup error when neither exists. -/
theorem c1_phone_resolution_amended (value : Int) (pfx : Option Int) :
    Phone.call (.int value) pfx =
      (match ((Phone.members.map Prod.snd).filter (fun u => value == u.calling_code)).find?
          (fun u => !u.prefixes.isEmpty && (pfx.isNone || u.prefixes.contains pfx.iget)) with
       | some u => .ok u
       | none =>
         match (((Phone.members.map Prod.snd).filter (fun u => value == u.calling_code)).filter
             (fun u => u.prefixes.isEmpty)).head? with
         | some u => .ok u
         | none => .error .invalidIdentifier) :=
  phone_call_int_char value pfx

/-- C2: the repository's tests assert `Currency(840) == Currency.USD` and
`Currency(8) == Currency.ALL`, but the currency compare list holds only
the alpha-3 and numeric strings, so an integer query matches nothing and
raises the lookup error while the string forms resolve. -/
theorem c2_currency_int_lookup_fails :
    Currency.call (.int 840) = .error .invalidIdentifier ∧
    Currency.call (.int 8) = .error .invalidIdentifier ∧
    Currency.call (.str "USD") = .ok (currencyNamed "USD") ∧
    Currency.call (.str "840") = .ok (currencyNamed "USD") ∧
    Currency.call (.str "008") = .ok (currencyNamed "ALL") ∧
    currencyNamed "USD" = CurrencyUnit.mk "USD" "840" "US Dollar" 2 ∧
    currencyNamed "ALL" = CurrencyUnit.mk "ALL" "008" "Lek" 2 := by
  refine ⟨by decide, by decide, by decide, by decide, by decide, by decide, by decide⟩

/-- C3: for any two-fractional-digit currency, `clean_amount` pads
`Decimal("20.2")` to `Decimal("20.20")`, and raises the digit, negative,
zero, special-value and type errors on `Decimal("1.234")`,
`Decimal("-20")`, `Decimal("0")` with zero disallowed, `Decimal("inf")`
and the plain integer `1` respectively (normalizer modelled from the
spec; it is absent from the sources here). -/
theorem c3_clean_amount_two_digit_examples (c : CurrencyUnit)
    (h : c ∈ Currency.two_digits) :
    clean_amount c (.dec (.finite false 202 (-1))) true = .ok (.finite false 2020 (-2)) ∧
    clean_amount c (.dec (.finite false 1234 (-3))) true = .error .wrongDigits ∧
    clean_amount c (.dec (.finite true 20 0)) true = .error .negative ∧
    clean_amount c (.dec (.finite false 0 0)) false = .error .zero ∧
    clean_amount c (.dec (.infinite false)) true = .error .specialValues ∧
    clean_amount c (.int 1) true = .error .wrongType := by
  have hd : c.digits = 2 := two_digits_mem_digits c h
  refine ⟨?_, ?_, ?_, ?_, ?_, ?_⟩ <;>
    simp [clean_amount, hd, PyDecimal.fracDigits, PyDecimal.pad]

/-- C3 witness: the first two-digit currency of the collection (the UAE
dirham) exhibits the padding example. -/
theorem c3_clean_amount_witness :
    currencyNamed "AED" ∈ Currency.two_digits ∧
    clean_amount (currencyNamed "AED") (.dec (.finite false 202 (-1))) true =
      .ok (.finite false 2020 (-2)) :=
  ⟨by decide, (c3_clean_amount_two_digit_examples (currencyNamed "AED") (by decide)).1⟩

/-- C4 counterexample: the `FRA` language record declares alpha-2 code
`"fr"`, but resolving `"fr"` returns the earlier `FRE` record, a distinct
record, so resolving a record by its own alpha-2 key does not always
return that record. -/
theorem c4_counterexample :
    Language.call (.str "fr") = .ok (languageNamed "FRE") ∧
    (languageNamed "FRA").alpha_2 = some "fr" ∧
    languageNamed "FRE" ≠ languageNamed "FRA" := by
  refine ⟨by decide, by decide, by decide⟩

/-- C4 (amended): resolving a country by any of its four key values, a
currency by its alpha-3 or numeric string, or a language by its alpha-3
code returns that exact record; resolving a language by a declared
alpha-2 code returns the first record in declaration order that declares
that alpha-2 code (which for bibliographic/terminology twin records can
be an earlier record). -/
theorem c4_roundtrip_amended :
    (∀ r ∈ (Country.members.map Prod.snd), ∀ k ∈ countryCompareList r,
      Country.call k = .ok r) ∧
    (∀ r ∈ (Currency.members.map Prod.snd),
      Currency.call (.str r.alpha_3) = .ok r ∧ Currency.call (.str r.numeric) = .ok r) ∧
    (∀ r ∈ (Language.members.map Prod.snd), Language.call (.str r.alpha_3) = .ok r) ∧
    (∀ r ∈ (Language.members.map Prod.snd), ∀ a, r.alpha_2 = some a →
      ∃ u, (Language.members.map Prod.snd).find? (fun x => decide (x.alpha_2 = some a)) = some u ∧
        Language.call (.str a) = .ok u) :=
  ⟨country_resolve_own_key, currency_resolve_own_key,
    language_resolve_alpha3, language_resolve_alpha2_first⟩

/-- C4 witness: concrete round trips at the first records of the three
collections, including a language alpha-2 lookup. -/
theorem c4_roundtrip_amended_witness :
    Country.call (.str "ABW") = .ok (countryNamed "AW") ∧
    Currency.call (.str "AED") = .ok (currencyNamed "AED") ∧
    Language.call (.str "aar") = .ok (languageNamed "AAR") ∧
    Language.call (.str "aa") = .ok (languageNamed "AAR") := by
  have h := c4_roundtrip_amended
  refine ⟨h.1 (countryNamed "AW") (by decide) (.str "ABW") (by decide),
    (h.2.1 (currencyNamed "AED") (by decide)).1,
    h.2.2.1 (languageNamed "AAR") (by decide), ?_⟩
  obtain ⟨u, hu, hcall⟩ := h.2.2.2 (languageNamed "AAR") (by decide) "aa" (by decide)
  have hfind : (Language.members.map Prod.snd).find?
      (fun x => decide (x.alpha_2 = some "aa")) = some (languageNamed "AAR") := by decide
  rw [hfind] at hu
  rw [Option.some.inj hu]
  exact hcall

/-- C5 counterexample: `"+1+2"` is not a valid integer after stripping
its leading `+` (Python `int("1+2")` fails), yet normalization takes the
segment between the two `+` characters and succeeds with `1`, and the
whole lookup resolves instead of failing with the wrong-value-type
error. -/
theorem c5_counterexample :
    pyIntOfString? "1+2" = none ∧
    Phone._normalize_value (.str "+1+2") = .ok 1 ∧
    Phone.call (.str "+1+2") none = .ok (phoneNamed "BB") := by
  refine ⟨by decide, by decide, by decide⟩

/-- C5 (amended): phone query normalization accepts an integer as-is; for
a string it parses, as a Python integer, the segment
`value.split("+")[1]` when the string starts with `+` (the text between
the first and second `+`), and the whole string otherwise, resolving as
the parsed integer; a string whose selected segment does not parse, and
any non-string non-integer value, fail with the wrong-value-type error,
while integer queries can only fail with the not-found error. -/
theorem c5_normalization_amended (s : String) (pfx : Option Int) :
    (Phone.call (.str s) pfx =
      match pyIntOfString? (pyPhoneStrSegment s) with
      | some n => Phone.call (.int n) pfx
      | none => .error .wrongValueType) ∧
    Phone.call .pynone pfx = .error .wrongValueType ∧
    Phone.call .other pfx = .error .wrongValueType ∧
    (∀ (n : Int) (e : Err), Phone.call (.int n) pfx = .error e → e = .invalidIdentifier) := by
  refine ⟨?_, rfl, rfl, fun n e h => phone_call_int_error_kind n pfx e h⟩
  cases heq : pyIntOfString? (pyPhoneStrSegment s) with
  | some n => simp [Phone.call, Phone._normalize_value, heq]
  | none => simp [Phone.call, Phone._normalize_value, heq]

/-- C5 witness: a non-numeric string fails with the wrong-value-type
error, a `+`-prefixed numeric string resolves like its integer, and an
unmatched integer fails with the lookup error kind. -/
theorem c5_normalization_amended_witness :
    Phone.call (.str "abc") none = .error .wrongValueType ∧
    Phone.call (.str "+880") none = Phone.call (.int 880) none ∧
    Err.invalidIdentifier = Err.invalidIdentifier := by
  refine ⟨?_, ?_, (c5_normalization_amended "abc" none).2.2.2 0 .invalidIdentifier (by decide)⟩
  · have h := (c5_normalization_amended "abc" none).1
    have he : pyIntOfString? (pyPhoneStrSegment "abc") = none := by decide
    rw [he] at h
    exact h
  · have h := (c5_normalization_amended "+880" none).1
    have he : pyIntOfString? (pyPhoneStrSegment "+880") = some 880 := by decide
    rw [he] at h
    exact h

/-- C6: macrolanguage resolution returns exactly the members whose id
equals the query case-insensitively, restricted by the status filter when
one is given, failing with the lookup error when that list is empty; a
status filter other than `"A"` or `"R"` fails with the invalid-option
error instead. -/
theorem c6_macro_resolution (value : String) (st : Option String) :
    MacroLanguage.call value st =
      (if st = none ∨ st = some "A" ∨ st = some "R" then
        (let res := (MacroLanguage.members.map Prod.snd).filter
          (fun u => (pyLower u.m_id == pyLower value) &&
            (match st with
             | none => true
             | some s => u.i_status == s));
         if res.isEmpty then .error .invalidIdentifier else .ok res)
      else .error .invalidOption) := by
  by_cases hv : st = none ∨ st = some "A" ∨ st = some "R"
  · rw [if_pos hv]
    have hval : _validate_i_status st = true := by
      rcases hv with rfl | rfl | rfl <;> rfl
    simp only [MacroLanguage.call, hval, Bool.not_true, Bool.false_eq_true, if_false]
    rw [macro_filter_eq value st]
    cases hie : ((MacroLanguage.members.map Prod.snd).filter
        (fun u => (pyLower u.m_id == pyLower value) &&
          (match st with
           | none => true
           | some s => u.i_status == s))).isEmpty with
    | true => simp [hie]
    | false => simp [hie]
  · rw [if_neg hv]
    cases st with
    | none => exact absurd (Or.inl rfl) hv
    | some s =>
      have hsA : s ≠ "A" := fun h => hv (Or.inr (Or.inl (by rw [h])))
      have hsR : s ≠ "R" := fun h => hv (Or.inr (Or.inr (by rw [h])))
      have hval : _validate_i_status (some s) = false := by
        simp [_validate_i_status, allowed_i_statuses, hsA, hsR]
      simp [MacroLanguage.call, hval]

/-- C7: `"US"`, `"USA"`, `"840"` and the integer `840` all resolve to the
United States record, and `"004"` and the integer `4` both resolve to the
Afghanistan record. -/
theorem c7_country_lookup_examples :
    Country.call (.str "US") = .ok (countryNamed "US") ∧
    Country.call (.str "USA") = .ok (countryNamed "US") ∧
    Country.call (.str "840") = .ok (countryNamed "US") ∧
    Country.call (.int 840) = .ok (countryNamed "US") ∧
    Country.call (.str "004") = .ok (countryNamed "AF") ∧
    Country.call (.int 4) = .ok (countryNamed "AF") ∧
    countryNamed "US" =
      CountryUnit.mk "US" "USA" "840" "United States" "United States of America" ∧
    countryNamed "AF" =
      CountryUnit.mk "AF" "AFG" "004" "Afghanistan" "Islamic Republic of Afghanistan" := by
  refine ⟨by decide, by decide, by decide, by decide, by decide, by decide, by decide, by decide⟩

/-- C8: for every collection, member-name lookup of an absent name fails
with the same lookup error kind that value-based resolution produces on
failure, rather than a missing-key error. -/
theorem c8_name_lookup_error_kind (name : String)
    (h1 : Country.members.lookup name = none)
    (h2 : Currency.members.lookup name = none)
    (h3 : Language.members.lookup name = none)
    (h4 : MacroLanguage.members.lookup name = none)
    (h5 : Phone.members.lookup name = none) :
    Country.getItem name = .error .invalidIdentifier ∧
    Currency.getItem name = .error .invalidIdentifier ∧
    Language.getItem name = .error .invalidIdentifier ∧
    MacroLanguage.getItem name = .error .invalidIdentifier ∧
    Phone.getItem name = .error .invalidIdentifier ∧
    (∀ (v : PyVal) (e : Err), Country.call v = .error e → e = .invalidIdentifier) ∧
    (∀ (v : PyVal) (e : Err), Currency.call v = .error e → e = .invalidIdentifier) ∧
    (∀ (v : PyVal) (e : Err), Language.call v = .error e → e = .invalidIdentifier) ∧
    (∀ (value : String) (e : Err), MacroLanguage.call value none = .error e → e = .invalidIdentifier) ∧
    (∀ (n : Int) (pfx : Option Int) (e : Err), Phone.call (.int n) pfx = .error e → e = .invalidIdentifier) :=
  ⟨enumGetItem_not_found _ _ h1, enumGetItem_not_found _ _ h2,
    enumGetItem_not_found _ _ h3, enumGetItem_not_found _ _ h4,
    enumGetItem_not_found _ _ h5, country_call_error_kind,
    currency_call_error_kind, language_call_error_kind,
    macro_call_error_kind, phone_call_int_error_kind⟩

/-- C8 witness: the name `"ZZZZ"` is declared in no collection and its
member-name lookup fails with the lookup error kind in all five. -/
theorem c8_name_lookup_error_kind_witness :
    Country.getItem "ZZZZ" = .error .invalidIdentifier ∧
    Currency.getItem "ZZZZ" = .error .invalidIdentifier ∧
    Language.getItem "ZZZZ" = .error .invalidIdentifier ∧
    MacroLanguage.getItem "ZZZZ" = .error .invalidIdentifier ∧
    Phone.getItem "ZZZZ" = .error .invalidIdentifier := by
  have h := c8_name_lookup_error_kind "ZZZZ" (by decide) (by decide) (by decide)
    (by decide) (by decide)
  exact ⟨h.1, h.2.1, h.2.2.1, h.2.2.2.1, h.2.2.2.2.1⟩

/-- C9: the three digit-count accessors partition the currency collection
(every record belongs to exactly one of them) and each is a sublist of
the collection, preserving declaration order. -/
theorem c9_currency_digit_partition :
    (∀ u ∈ (Currency.members.map Prod.snd),
      (u ∈ Currency.zero_digits ∧ u ∉ Currency.two_digits ∧ u ∉ Currency.three_digits) ∨
      (u ∉ Currency.zero_digits ∧ u ∈ Currency.two_digits ∧ u ∉ Currency.three_digits) ∨
      (u ∉ Currency.zero_digits ∧ u ∉ Currency.two_digits ∧ u ∈ Currency.three_digits)) ∧
    Currency.zero_digits.Sublist (Currency.members.map Prod.snd) ∧
    Currency.two_digits.Sublist (Currency.members.map Prod.snd) ∧
    Currency.three_digits.Sublist (Currency.members.map Prod.snd) := by
  refine ⟨?_, List.filter_sublist _, List.filter_sublist _, List.filter_sublist _⟩
  intro u hu
  have hmem : ∀ (d : Nat), u.digits = d →
      u ∈ (Currency.members.map Prod.snd).filter (fun unit => unit.digits == d) :=
    fun d hd => List.mem_filter.mpr ⟨hu, by simp [hd]⟩
  have hnot : ∀ (d : Nat), u.digits ≠ d →
      u ∉ (Currency.members.map Prod.snd).filter (fun unit => unit.digits == d) := by
    intro d hd hc
    exact hd (by simpa using (List.mem_filter.mp hc).2)
  rcases (currency_shape u hu).2.2.2.2 with h | h | h
  · exact Or.inl ⟨hmem 0 h, hnot 2 (by omega), hnot 3 (by omega)⟩
  · exact Or.inr (Or.inl ⟨hnot 0 (by omega), hmem 2 h, hnot 3 (by omega)⟩)
  · exact Or.inr (Or.inr ⟨hnot 0 (by omega), hnot 2 (by omega), hmem 3 h⟩)

/-- C9 witness: the UAE dirham is a member of the collection and falls in
exactly one partition (the two-digit one). -/
theorem c9_currency_digit_partition_witness :
    currencyNamed "AED" ∈ (Currency.members.map Prod.snd) ∧
    (currencyNamed "AED" ∈ Currency.two_digits ∧
      currencyNamed "AED" ∉ Currency.zero_digits ∧
      currencyNamed "AED" ∉ Currency.three_digits) := by
  have h := (c9_currency_digit_partition.1 (currencyNamed "AED") (by decide))
  refine ⟨by decide, ?_⟩
  rcases h with ⟨h0, h2, h3⟩ | ⟨h0, h2, h3⟩ | ⟨h0, h2, h3⟩
  · exact absurd (by decide : currencyNamed "AED" ∈ Currency.two_digits) h2
  · exact ⟨h2, h0, h3⟩
  · exact absurd (by decide : currencyNamed "AED" ∈ Currency.two_digits) h2

/-- C10: phone resolution accepts booleans through the integer dispatch
(`bool` is an `int` subclass in Python): resolving `True` returns the
same record as resolving `1`, and resolving `False` fails with the
not-found lookup error (no record has calling code `0`), not the
wrong-value-type error. -/
theorem c10_phone_bool_queries :
    Phone.call (.bool true) none = Phone.call (.int 1) none ∧
    Phone.call (.bool true) none = .ok (phoneNamed "BB") ∧
    Phone.call (.bool false) none = .error .invalidIdentifier := by
  refine ⟨by decide, by decide, by decide⟩

end Pycountries
